import Mathlib

/-! APDU transport and slot polling of `src/pkcs11/slot-ctapi.c`.

A shallow embedding of the CT-API slot back end of the PKCS#11 module:
`transmitAPDUwithCTAPI`, `transmitAPDU`, `addToken`, `removeToken`,
`checkForNewToken`, `checkForRemovedToken`, `getToken`, `updateSlots` and
`closeSlot`.

Modelling conventions.

* C `int` values (`OutLen`, `InLen`, `InSize`, return codes) are `Int`; bytes
  (`unsigned char`) are `Nat`, and every conversion to `unsigned char` or
  `unsigned short` is an explicit `% 256` or `% 65536`.
* The terminal driver (`CT_init`, `CT_data`, `CT_close`) is an arbitrary
  deterministic function of the history of calls made to it; the history is
  kept in the state so that the commands sent can be observed.
* The caller's receive buffer is a region of memory `Nat → Nat` addressed by
  offsets; `InData` is `none` for a null pointer and `some p` for the address
  `p`, so that `InData + rv` is `some (p + rv)`.
* The work buffer `scr` is taken to be large enough for the command and the
  response (`MAX_APDULEN` is not part of the sources at hand).  The only reads
  of `scr` after the exchange are at `lenr - 2`, `lenr - 1`, `1` and the first
  `rv <= lenr - 2` bytes; they are inside the response exactly when
  `lenr >= 2`.  A response shorter than two bytes, or a `memcpy` into the
  receive buffer with a negative count, is reported as `Ret.undefined`.
  `OutData` is the list of bytes at the pointer, of which `memcpy` takes the
  first `OutLen`.
* The recursion `transmitAPDUwithCTAPI -> transmitAPDU -> transmitAPDUwithCTAPI`
  is bounded by a fuel argument which counts nested calls.
* A pointer to a slot pool designates the pool of the global `context` or
  another pool object; `updateSlots` reads the pool it is given and hands new
  slots to `addSlot(context->slotPool, ...)`.  The growth loop is bounded by a
  fuel argument which counts iterations, and `malloc` is an oracle that may
  fail.
-/

namespace SlotCtapi

/-! ## Constants of headers that are not part of the sources at hand -/

/-- Modelled from the spec: `HOST` of `ctccid/ctapi.h` (the header is absent);
the CT-API source address of the host. -/
def HOST : Nat := 2

/-- Modelled from the spec: `ERR_CT` of `ctccid/ctapi.h` (the header is
absent); the CT-API code for a terminal that is no longer reachable, the
"small negative sentinel" of the driver interface. -/
def ERR_CT : Int := -8

/-- Modelled from the spec: the macro `FUNC_FAILS(rc, msg)` of the debug header
(absent) reports `msg` and leaves the function with `return rc`. -/
abbrev FUNC_FAILS (rc : Int) : Int := rc

/-- Modelled from the spec: the macro `FUNC_RETURNS(rc)` of the debug header
(absent) leaves the function with `return rc`. -/
abbrev FUNC_RETURNS (rc : Int) : Int := rc

/-- Modelled from the spec: `CKR_OK` of the PKCS#11 header (absent). -/
def CKR_OK : Int := 0x00

/-- Modelled from the spec: `CKR_GENERAL_ERROR` of the PKCS#11 header (absent). -/
def CKR_GENERAL_ERROR : Int := 0x05

/-- Modelled from the spec: `CKR_FUNCTION_FAILED` of the PKCS#11 header (absent). -/
def CKR_FUNCTION_FAILED : Int := 0x06

/-- Modelled from the spec: `CKR_DEVICE_ERROR` of the PKCS#11 header (absent). -/
def CKR_DEVICE_ERROR : Int := 0x30

/-- Modelled from the spec: `CKR_TOKEN_NOT_PRESENT` of the PKCS#11 header (absent). -/
def CKR_TOKEN_NOT_PRESENT : Int := 0xE0

/-- Modelled from the spec: `CKR_TOKEN_NOT_RECOGNIZED` of the PKCS#11 header (absent). -/
def CKR_TOKEN_NOT_RECOGNIZED : Int := 0xE1

/-- Modelled from the spec: `CKF_TOKEN_PRESENT` of the PKCS#11 header (absent). -/
def CKF_TOKEN_PRESENT : Nat := 0x01

/-! ## Driver, memory and results -/

/-- One call into the terminal driver, with the arguments the driver sees. -/
inductive DriverCall where
  | init (ctn : Nat) (pn : Int)
  | data (ctn : Nat) (dad : Nat) (sad : Nat) (cmd : List Nat)
  | close (ctn : Nat)
  deriving DecidableEq, Repr

/-- What a driver call hands back: the return code and, for `CT_data`, the
`lenr` bytes it stored at the start of the response buffer. -/
structure CTResult where
  rc : Int
  resp : List Nat
  deriving DecidableEq, Repr

/-- A driver answers the last call of a history of calls (oldest first). -/
abbrev Driver := List DriverCall → CTResult

/-- The state a transmit call works on: the calls made to the driver so far,
the memory the receive buffer lives in, and the caller's `*SW1SW2`. -/
structure World where
  trace : List DriverCall
  mem : Nat → Nat
  sw : Nat

/-- How a call ends: it returns `rv`, or it runs into behaviour the C standard
leaves undefined, or the model runs out of fuel. -/
inductive Ret where
  | value (rv : Int)
  | undefined
  | outOfFuel
  deriving DecidableEq, Repr

/-- The end of a transmit call together with the state it leaves. -/
structure Result where
  ret : Ret
  world : World

/-- The effect of `memcpy(dst, src, n)` on the memory, `src` being a prefix of
the work buffer. -/
def memcpy (mem : Nat → Nat) (dst : Nat) (src : List Nat) (n : Nat) : Nat → Nat :=
  fun i => if dst ≤ i ∧ i < dst + n then src.getD (i - dst) 0 else mem i

/-- The conversion `(unsigned char)x` of an `int`. -/
def toUChar (x : Int) : Nat := (x % 256).toNat

/-! ## `transmitAPDUwithCTAPI` -/

/-- The outgoing part of the command, lines 145-155: `Lc` and the data. -/
def encodeOut (OutLen : Int) (OutData : Option (List Nat)) (InLen : Int) : List Nat :=
  match OutData with
  | some data =>
    if OutLen ≠ 0 then
      (if OutLen ≤ 255 ∧ InLen ≤ 255 then
        [toUChar OutLen]
      else
        [0, toUChar (OutLen / 256), toUChar (OutLen % 256)])
      ++ data.take OutLen.toNat
    else []
  | none => []

/-- The incoming part of the command, lines 157-170: `Le`. -/
def encodeIn (OutLen : Int) (OutData : Option (List Nat)) (InLen : Int)
    (InData : Option Nat) (InSize : Int) : List Nat :=
  if InData.isSome ∧ InSize ≠ 0 then
    if InLen ≤ 255 ∧ OutLen ≤ 255 then
      [toUChar InLen]
    else
      let InLen1 : Int := if InLen ≥ 65556 then 0 else InLen
      (if OutData.isNone then [0] else [])
        ++ [toUChar (InLen1 / 256), toUChar (InLen1 % 256)]
  else []

/-- The bytes `scr[0 .. po - scr)` built at the top of the loop body, lines
138-170. -/
def buildCommand (CLA INS P1 P2 : Nat) (OutLen : Int) (OutData : Option (List Nat))
    (InLen : Int) (InData : Option Nat) (InSize : Int) : List Nat :=
  [CLA, INS, P1, P2] ++ encodeOut OutLen OutData InLen
    ++ encodeIn OutLen OutData InLen InData InSize

/-- The `CT_data` call of line 176 as the driver sees it. -/
def dataCall (id : Nat) (todad : Nat) (cmd : List Nat) : DriverCall :=
  DriverCall.data (id % 65536) (todad % 256) HOST cmd

/-- The type of the recursive call `transmitAPDU(slot, CLA, INS, P1, P2,
OutLen, OutData, InLen, InData, InSize, SW1SW2)` made for GET RESPONSE. -/
abbrev TransmitFn :=
  Nat → Nat → Nat → Nat → Int → Option (List Nat) → Int → Option Nat → Int → World → Result

/-- Lines 186-189: `rv = lenr - 2; if (rv > InSize) rv = InSize;`. -/
def clampLen (lenr : Nat) (InSize : Int) : Int :=
  if (lenr : Int) - 2 > InSize then InSize else (lenr : Int) - 2

/-- Lines 191-192: `if (InData) memcpy(InData, scr, rv);`. -/
def copyIn (InData : Option Nat) (scr : List Nat) (rv : Int) (w : World) : World :=
  match InData with
  | some p => { w with mem := memcpy w.mem p scr rv.toNat }
  | none => w

/-- Line 197: the class byte of GET RESPONSE,
`(unsigned char)((CLA == 0xE0) || (CLA == 0x80) ? 0x00 : CLA)`. -/
def getResponseCLA (CLA : Nat) : Nat :=
  if CLA = 0xE0 ∨ CLA = 0x80 then 0x00 else CLA

/-- Lines 202-205 and 213, after `r = transmitAPDU(...)` has ended as `res`:
`if (r < 0) FUNC_FAILS(rc, "GET RESPONSE failed"); rv += r;`, where `rc` is
the value `CT_data` returned for the exchange before. -/
def afterGetResponse (rc rv : Int) (res : Result) : Result :=
  match res.ret with
  | Ret.value r =>
    if r < 0 then ⟨Ret.value (FUNC_FAILS rc), res.world⟩
    else ⟨Ret.value (FUNC_RETURNS (rv + r)), res.world⟩
  | Ret.undefined => ⟨Ret.undefined, res.world⟩
  | Ret.outOfFuel => ⟨Ret.outOfFuel, res.world⟩

/-- Lines 186-213: what is done with a response whose status byte `SW1` is not
`0x6C`.  `rc` is the value `CT_data` returned and `scr` the response. -/
def processResponse (getResponse : TransmitFn) (CLA : Nat) (InData : Option Nat)
    (InSize : Int) (rc : Int) (scr : List Nat) (w : World) : Result :=
  let lenr := scr.length
  let sw1 := scr.getD (lenr - 2) 0
  let sw2 := scr.getD (lenr - 1) 0
  let rv : Int := clampLen lenr InSize
  if InData.isSome ∧ rv < 0 then ⟨Ret.undefined, w⟩ else
  let w1 : World := copyIn InData scr rv w
  if sw1 = 0x9F ∨ sw1 = 0x61 then
    match InData with
    | some p =>
      if InSize ≠ 0 then
        afterGetResponse rc rv
          (getResponse (getResponseCLA CLA) 0xC0 0 0 0 none (scr.getD 1 0 : Nat)
            (some (p + rv.toNat)) (InSize - rv) w1)
      else ⟨Ret.value (FUNC_RETURNS rv), { w1 with sw := 0x9000 }⟩
    | none => ⟨Ret.value (FUNC_RETURNS rv), { w1 with sw := 0x9000 }⟩
  else ⟨Ret.value (FUNC_RETURNS rv), { w1 with sw := (sw1 * 256 + sw2) % 65536 }⟩

/-- The loop `while (retry--) { ... }` of lines 137-211 with `retry`
iterations left, followed by `FUNC_RETURNS(rv)`.  When the loop runs out,
`rv` is the `0` assigned at the top of the last iteration. -/
def retryLoop (drv : Driver) (getResponse : TransmitFn) (id : Nat) (todad : Nat)
    (CLA INS P1 P2 : Nat) (OutLen : Int) (OutData : Option (List Nat))
    (InData : Option Nat) (InSize : Int) : Nat → Int → World → Result
  | 0, _, w => ⟨Ret.value (FUNC_RETURNS 0), w⟩
  | retry + 1, InLen, w =>
    let cmd := buildCommand CLA INS P1 P2 OutLen OutData InLen InData InSize
    let w1 : World := { w with trace := w.trace ++ [dataCall id todad cmd] }
    let r := drv w1.trace
    if r.rc < 0 then ⟨Ret.value (FUNC_FAILS r.rc), w1⟩
    else if r.resp.length < 2 then ⟨Ret.undefined, w1⟩
    else if r.resp.getD (r.resp.length - 2) 0 = 0x6C then
      retryLoop drv getResponse id todad CLA INS P1 P2 OutLen OutData InData InSize
        retry (r.resp.getD (r.resp.length - 1) 0 : Nat) w1
    else processResponse getResponse CLA InData InSize r.rc r.resp w1

/-- The function `transmitAPDUwithCTAPI` (lines 123-214) with `retry = 2`; the
nested `transmitAPDU` of line 196 is `transmitAPDUwithCTAPI` with `todad = 0`
(lines 267-269) and one unit of fuel less. -/
def transmitAPDUwithCTAPI (drv : Driver) : Nat → Nat → Nat → Nat → Nat → Nat → Nat →
    Int → Option (List Nat) → Int → Option Nat → Int → World → Result
  | 0, _, _, _, _, _, _, _, _, _, _, _, w => ⟨Ret.outOfFuel, w⟩
  | fuel + 1, id, todad, CLA, INS, P1, P2, OutLen, OutData, InLen, InData, InSize, w =>
    retryLoop drv
      (fun cla ins p1 p2 outLen outData inLen inData inSize w1 =>
        transmitAPDUwithCTAPI drv fuel id 0 cla ins p1 p2 outLen outData inLen inData inSize w1)
      id todad CLA INS P1 P2 OutLen OutData InData InSize 2 InLen w

/-- The function `transmitAPDU` (lines 234-289) without its debug output. -/
def transmitAPDU (drv : Driver) (fuel : Nat) (id : Nat) (CLA INS P1 P2 : Nat)
    (OutLen : Int) (OutData : Option (List Nat)) (InLen : Int) (InData : Option Nat)
    (InSize : Int) (w : World) : Result :=
  transmitAPDUwithCTAPI drv fuel id 0 CLA INS P1 P2 OutLen OutData InLen InData InSize w

/-! ## Slots and tokens -/

/-- The token structure `struct p11Token_t` (declared in `pkcs11/token.h`,
absent); only its identity matters here. -/
structure p11Token_t where
  handle : Nat
  deriving DecidableEq, Repr

/-- The fields of `struct p11Slot_t` the functions below use: `id`, `closed`,
`info.flags` and `token` (`none` for a null pointer). -/
structure p11Slot_t where
  id : Nat
  closed : Bool
  flags : Nat
  token : Option p11Token_t
  deriving DecidableEq, Repr

/-- The end of a slot function: how it returns, the slot and the driver
history it leaves. -/
structure SlotResult where
  ret : Ret
  slot : p11Slot_t
  trace : List DriverCall
  deriving DecidableEq, Repr

/-- The end of `getToken`: as `SlotResult`, with the value stored in `*token`. -/
structure TokenResult where
  ret : Ret
  token : Option p11Token_t
  slot : p11Slot_t
  trace : List DriverCall
  deriving DecidableEq, Repr

/-- Modelled from the spec: `newToken` of `pkcs11/token.c` (absent) constructs
the token of a slot: it returns a code and, with `CKR_OK`, the new token; the
driver calls it makes are appended to the history. -/
abbrev NewTokenFn := p11Slot_t → List DriverCall → Int × p11Token_t × List DriverCall

/-- The function `addToken`, lines 61-71. -/
def addToken (slot : p11Slot_t) (token : p11Token_t) : Int × p11Slot_t :=
  if slot.token.isSome then (CKR_FUNCTION_FAILED, slot)
  else (CKR_OK, { slot with token := some token, flags := slot.flags ||| CKF_TOKEN_PRESENT })

/-- Modelled from the spec: `freeToken` of `pkcs11/token.c` (absent) releases
the token of the slot and detaches it. -/
def freeToken (slot : p11Slot_t) : p11Slot_t :=
  { slot with token := none }

/-- The function `removeToken`, lines 93-103; `flags & ~CKF_TOKEN_PRESENT` is
the value of `flags` with the bits of the mask taken out. -/
def removeToken (slot : p11Slot_t) : Int × p11Slot_t :=
  if slot.token.isNone then (CKR_FUNCTION_FAILED, slot)
  else
    (CKR_TOKEN_NOT_PRESENT,
      freeToken { slot with flags := slot.flags ^^^ (slot.flags &&& CKF_TOKEN_PRESENT) })

/-- The function `closeSlot`, lines 536-553: `CT_close` is called, its result
is only logged, and the slot is marked closed. -/
def closeSlot (slot : p11Slot_t) (trace : List DriverCall) : Int × p11Slot_t × List DriverCall :=
  (FUNC_RETURNS CKR_OK, { slot with closed := true },
    trace ++ [DriverCall.close (slot.id % 65536)])

/-- The test of lines 341 and 417 on the answer to the status query. -/
def invalidStatus (sw : Nat) (rc : Int) (rsp : Nat → Nat) : Prop :=
  sw ≠ 0x9000 ∨ rc < 3 ∨ rsp 0 ≠ 0x80 ∨ rsp 1 = 0 ∨ (rsp 1 : Int) > rc - 2

instance (sw : Nat) (rc : Int) (rsp : Nat → Nat) : Decidable (invalidStatus sw rc rsp) := by
  unfold invalidStatus; infer_instance

/-- The function `checkForNewToken`, lines 315-368.  `rsp0` and `sw0` are the
indeterminate initial contents of the locals `rsp` and `SW1SW2`. -/
def checkForNewToken (drv : Driver) (newToken : NewTokenFn) (fuel : Nat)
    (rsp0 : Nat → Nat) (sw0 : Nat) (slot : p11Slot_t) (trace : List DriverCall) : SlotResult :=
  if slot.closed then ⟨Ret.value (FUNC_RETURNS CKR_TOKEN_NOT_PRESENT), slot, trace⟩ else
  let r1 := transmitAPDUwithCTAPI drv fuel slot.id 1 0x20 0x13 0x01 0x80 0 none 0 (some 0) 260
    ⟨trace, rsp0, sw0⟩
  match r1.ret with
  | Ret.undefined => ⟨Ret.undefined, slot, r1.world.trace⟩
  | Ret.outOfFuel => ⟨Ret.outOfFuel, slot, r1.world.trace⟩
  | Ret.value rc =>
    let st : p11Slot_t × List DriverCall :=
      if rc = ERR_CT then (closeSlot slot r1.world.trace).2 else (slot, r1.world.trace)
    if rc < 0 then ⟨Ret.value (FUNC_FAILS CKR_DEVICE_ERROR), st.1, st.2⟩
    else if invalidStatus r1.world.sw rc r1.world.mem then
      ⟨Ret.value (FUNC_FAILS CKR_DEVICE_ERROR), st.1, st.2⟩
    else if r1.world.mem 2 &&& 0x01 = 0 then
      ⟨Ret.value (FUNC_RETURNS CKR_TOKEN_NOT_PRESENT), st.1, st.2⟩
    else
      let r2 := transmitAPDUwithCTAPI drv fuel st.1.id 1 0x20 0x12 0x01 0x01 0 none 0 (some 0) 260
        ⟨st.2, r1.world.mem, r1.world.sw⟩
      match r2.ret with
      | Ret.undefined => ⟨Ret.undefined, st.1, r2.world.trace⟩
      | Ret.outOfFuel => ⟨Ret.outOfFuel, st.1, r2.world.trace⟩
      | Ret.value rc2 =>
        if rc2 < 0 then ⟨Ret.value (FUNC_FAILS CKR_TOKEN_NOT_RECOGNIZED), st.1, r2.world.trace⟩
        else if r2.world.sw ≠ 0x9001 then
          ⟨Ret.value (FUNC_FAILS CKR_TOKEN_NOT_RECOGNIZED), st.1, r2.world.trace⟩
        else
          let nt := newToken st.1 r2.world.trace
          if nt.1 ≠ CKR_OK then ⟨Ret.value (FUNC_FAILS nt.1), st.1, nt.2.2⟩
          else
            let added := addToken st.1 nt.2.1
            ⟨Ret.value (FUNC_RETURNS added.1), added.2, nt.2.2⟩

/-- The function `checkForRemovedToken`, lines 394-428.  `rsp0` and `sw0` are
the indeterminate initial contents of the locals `rsp` and `SW1SW2`. -/
def checkForRemovedToken (drv : Driver) (fuel : Nat) (rsp0 : Nat → Nat) (sw0 : Nat)
    (slot : p11Slot_t) (trace : List DriverCall) : SlotResult :=
  let r1 := transmitAPDUwithCTAPI drv fuel slot.id 1 0x20 0x13 0x01 0x80 0 none 0 (some 0) 260
    ⟨trace, rsp0, sw0⟩
  match r1.ret with
  | Ret.undefined => ⟨Ret.undefined, slot, r1.world.trace⟩
  | Ret.outOfFuel => ⟨Ret.outOfFuel, slot, r1.world.trace⟩
  | Ret.value rc =>
    let st : p11Slot_t × List DriverCall :=
      if rc = ERR_CT then (closeSlot (removeToken slot).2 r1.world.trace).2
      else (slot, r1.world.trace)
    if rc < 0 then ⟨Ret.value (FUNC_FAILS CKR_GENERAL_ERROR), st.1, st.2⟩
    else if invalidStatus r1.world.sw rc r1.world.mem then
      ⟨Ret.value (FUNC_FAILS CKR_GENERAL_ERROR), st.1, st.2⟩
    else if r1.world.mem 2 &&& 0x01 ≠ 0 then
      ⟨Ret.value (FUNC_RETURNS CKR_OK), st.1, st.2⟩
    else
      let rm := removeToken st.1
      ⟨Ret.value (FUNC_RETURNS rm.1), rm.2, st.2⟩

/-- The function `getToken`, lines 432-445. -/
def getToken (drv : Driver) (newToken : NewTokenFn) (fuel : Nat) (rsp0 : Nat → Nat) (sw0 : Nat)
    (slot : p11Slot_t) (trace : List DriverCall) : TokenResult :=
  let r :=
    if slot.token.isSome then checkForRemovedToken drv fuel rsp0 sw0 slot trace
    else checkForNewToken drv newToken fuel rsp0 sw0 slot trace
  ⟨r.ret, r.slot.token, r.slot, r.trace⟩

/-! ## Auxiliary definitions for the statements -/

/-- A transmit function that only appends to the driver history. -/
def Appends (f : TransmitFn) : Prop :=
  ∀ cla ins p1 p2 outLen outData inLen inData inSize w,
    w.trace <+: (f cla ins p1 p2 outLen outData inLen inData inSize w).world.trace

/-- A driver that answers its calls in order from a list, whatever it is asked;
once the list is used up it reports `ERR_CT`. -/
def scripted (rs : List CTResult) : Driver :=
  fun h => rs.getD (h.length - 1) ⟨ERR_CT, []⟩

/-- A starting state: no call made yet, a zeroed receive buffer, `*SW1SW2 = 0`. -/
def emptyWorld : World := ⟨[], fun _ => 0, 0⟩

/-- A token constructor that always succeeds, for the examples. -/
def tokenSeven : NewTokenFn := fun _ t => (CKR_OK, ⟨7⟩, t)

/-! ## The two exchanges of a poll, for the statements -/

/-- The status query of lines 331 and 406,
`transmitAPDUwithCTAPI(slot, 1, 0x20, 0x13, 0x01, 0x80, 0, NULL, 0, rsp, sizeof(rsp), &SW1SW2)`,
started with the locals `rsp` and `SW1SW2` holding `rsp0` and `sw0`. -/
def statusQuery (drv : Driver) (fuel : Nat) (slot : p11Slot_t) (trace : List DriverCall)
    (rsp0 : Nat → Nat) (sw0 : Nat) : Result :=
  transmitAPDUwithCTAPI drv fuel slot.id 1 0x20 0x13 0x01 0x80 0 none 0 (some 0) 260
    ⟨trace, rsp0, sw0⟩

/-- The activation exchange (REQUEST ICC) of line 349, made in the state the
status query `q` left. -/
def requestICC (drv : Driver) (fuel : Nat) (slot : p11Slot_t) (q : Result) : Result :=
  transmitAPDUwithCTAPI drv fuel slot.id 1 0x20 0x12 0x01 0x01 0 none 0 (some 0) 260
    ⟨q.world.trace, q.world.mem, q.world.sw⟩

/-! ## Predicates for the statements on bounds -/

/-- A driver whose successful calls return `0` and store at least the two
status bytes. -/
def WellBehaved (drv : Driver) : Prop :=
  ∀ h : List DriverCall, 0 ≤ (drv h).rc → (drv h).rc = 0 ∧ 2 ≤ (drv h).resp.length

/-- The result `res` of a transmit call started in `w` keeps to the receive
buffer `InData`, `InSize`: a count returned is at most `InSize`, the call does
not run into undefined behaviour, and memory outside the buffer is as before. -/
def WithinBuffer (InData : Option Nat) (InSize : Int) (w : World) (res : Result) : Prop :=
  (∀ v, res.ret = Ret.value v → 0 ≤ v → v ≤ InSize) ∧
  res.ret ≠ Ret.undefined ∧
  (∀ j, (∀ p, InData = some p → ¬ (p ≤ j ∧ j < p + InSize.toNat)) →
    res.world.mem j = w.mem j)

/-- A driver whose successful answers with a status byte `SW1` of `0x9F` or
`0x61` carry at least one payload byte. -/
def Progresses (drv : Driver) : Prop :=
  ∀ h : List DriverCall, 0 ≤ (drv h).rc → 2 ≤ (drv h).resp.length →
    ((drv h).resp.getD ((drv h).resp.length - 2) 0 = 0x9F ∨
      (drv h).resp.getD ((drv h).resp.length - 2) 0 = 0x61) →
    3 ≤ (drv h).resp.length

/-- The result `res` of a transmit call started in `w` was reached with at
most `k` driver calls and without running out of fuel. -/
def Bounded (k : Nat) (w : World) (res : Result) : Prop :=
  res.ret ≠ Ret.outOfFuel ∧ res.world.trace.length ≤ w.trace.length + k

/-- A driver that gives the same answer to every call. -/
def constantDriver (r : CTResult) : Driver := fun _ => r

/-- What follows the exchanges of one level: the call is over, or the nested
GET RESPONSE call takes over in the state the exchanges left. -/
def EndsOrChains (getResponse : TransmitFn) (CLA : Nat) (t : List DriverCall) (res : Result) :
    Prop :=
  res.world.trace = t ∨
    ∃ (rc rv le sz : Int) (q : Nat) (w1 : World), w1.trace = t ∧
      res = afterGetResponse rc rv
        (getResponse (getResponseCLA CLA) 0xC0 0 0 0 none le (some q) sz w1)

/-! ## The slot pool and `updateSlots` -/

/-- Modelled from the spec: `OK` of `ctccid/ctapi.h` (the header is absent),
the CT-API code of a successful call. -/
def OK : Int := 0

/-- Modelled from the spec: `CKR_HOST_MEMORY` of the PKCS#11 header (absent). -/
def CKR_HOST_MEMORY : Int := 0x02

/-- Modelled from the spec: `CKF_REMOVABLE_DEVICE` of the PKCS#11 header (absent). -/
def CKF_REMOVABLE_DEVICE : Nat := 0x02

/-- Modelled from the spec: `CKF_HW_SLOT` of the PKCS#11 header (absent). -/
def CKF_HW_SLOT : Nat := 0x04

/-- Modelled from the spec: `struct p11SlotPool_t` of `pkcs11/slotpool.h`
(absent), "ordered collection of Slots plus the next channel identifier to
probe": the fields `list`, `numberOfSlots` and `nextSlotID` that `updateSlots`
reads. -/
structure p11SlotPool_t where
  list : List p11Slot_t
  numberOfSlots : Nat
  nextSlotID : Nat
  deriving DecidableEq, Repr

/-- Modelled from the spec: `addSlot` of `pkcs11/slotpool.c` (absent) appends
the slot to the pool at the pool's next unused identifier; the slot count and
the next identifier go up by one. -/
def addSlot (pool : p11SlotPool_t) (slot : p11Slot_t) : p11SlotPool_t :=
  { list := pool.list ++ [{ slot with id := pool.nextSlotID }],
    numberOfSlots := pool.numberOfSlots + 1,
    nextSlotID := pool.nextSlotID + 1 }

/-- The pool object a `struct p11SlotPool_t *` points to: the pool of the module
context, `context->slotPool`, or another pool. -/
inductive PoolRef where
  | context
  | other
  deriving DecidableEq, Repr

/-- The pool objects in memory: the pool of the global `context` and one more. -/
structure Pools where
  context : p11SlotPool_t
  other : p11SlotPool_t
  deriving DecidableEq, Repr

/-- The pool at a pointer. -/
def Pools.get (ps : Pools) : PoolRef → p11SlotPool_t
  | PoolRef.context => ps.context
  | PoolRef.other => ps.other

/-- A store through a pointer. -/
def Pools.set (ps : Pools) (r : PoolRef) (pool : p11SlotPool_t) : Pools :=
  match r with
  | PoolRef.context => { ps with context := pool }
  | PoolRef.other => { ps with other := pool }

/-- The end of `updateSlots`: how it returns, the pools and the driver history
it leaves. -/
structure PoolResult where
  ret : Ret
  pools : Pools
  trace : List DriverCall
  deriving DecidableEq, Repr

/-- The call `CT_init(ctn, ctn - 1)` of lines 479 and 495 for
`ctn = (unsigned short)id`, as the driver sees it. -/
def initCall (id : Nat) : DriverCall :=
  DriverCall.init (id % 65536) ((((id % 65536 : Nat) : Int) - 1) % 65536)

/-- Lines 477-488: a closed slot is initialised again and, when that works,
marked open. -/
def reinitSlot (drv : Driver) (slot : p11Slot_t) (trace : List DriverCall) :
    p11Slot_t × List DriverCall :=
  if slot.closed then
    if (drv (trace ++ [initCall slot.id])).rc ≠ OK then (slot, trace ++ [initCall slot.id])
    else ({ slot with closed := false }, trace ++ [initCall slot.id])
  else (slot, trace)

/-- Lines 475-490: the loop over `pool->list`. -/
def reinitSlots (drv : Driver) : List p11Slot_t → List DriverCall →
    List p11Slot_t × List DriverCall
  | [], t => ([], t)
  | s :: rest, t =>
    ((reinitSlot drv s t).1 :: (reinitSlots drv rest (reinitSlot drv s t).2).1,
      (reinitSlots drv rest (reinitSlot drv s t).2).2)

/-- Lines 504-527: the slot handed to `addSlot`, zeroed by `memset` and with
`info.flags = CKF_REMOVABLE_DEVICE | CKF_HW_SLOT`. -/
def newSlot : p11Slot_t :=
  { id := 0, closed := false, flags := CKF_REMOVABLE_DEVICE ||| CKF_HW_SLOT, token := none }

/-- Lines 492-531: the loop `while (pool->numberOfSlots < MAX_SLOTS)` and the
final `FUNC_RETURNS(CKR_OK)`.  `pool` is the argument of `updateSlots`; the new
slot goes to `context->slotPool` (line 528).  `alloc` tells whether `malloc`
succeeds; the fuel bounds the number of iterations. -/
def growLoop (drv : Driver) (alloc : List DriverCall → Bool) (MAX_SLOTS : Nat) (pool : PoolRef) :
    Nat → Pools → List DriverCall → PoolResult
  | 0, ps, t => ⟨Ret.outOfFuel, ps, t⟩
  | fuel + 1, ps, t =>
    if (ps.get pool).numberOfSlots < MAX_SLOTS then
      if (drv (t ++ [initCall (ps.get pool).nextSlotID])).rc ≠ OK then
        ⟨Ret.value (FUNC_RETURNS CKR_OK), ps, t ++ [initCall (ps.get pool).nextSlotID]⟩
      else if alloc (t ++ [initCall (ps.get pool).nextSlotID]) = false then
        ⟨Ret.value (FUNC_FAILS CKR_HOST_MEMORY), ps, t ++ [initCall (ps.get pool).nextSlotID]⟩
      else
        growLoop drv alloc MAX_SLOTS pool fuel
          (ps.set PoolRef.context (addSlot ps.context newSlot))
          (t ++ [initCall (ps.get pool).nextSlotID])
    else ⟨Ret.value (FUNC_RETURNS CKR_OK), ps, t⟩

/-- The function `updateSlots`, lines 466-532; `MAX_SLOTS` is a constant of a
header that is absent and is a parameter here. -/
def updateSlots (drv : Driver) (alloc : List DriverCall → Bool) (MAX_SLOTS : Nat) (fuel : Nat)
    (pool : PoolRef) (ps : Pools) (t : List DriverCall) : PoolResult :=
  growLoop drv alloc MAX_SLOTS pool fuel
    (ps.set pool { ps.get pool with list := (reinitSlots drv (ps.get pool).list t).1 })
    (reinitSlots drv (ps.get pool).list t).2

/-- The state after `k` passes of `updateSlots` on the pool at `pool`. -/
def updatePasses (drv : Driver) (alloc : List DriverCall → Bool) (MAX_SLOTS : Nat) (fuel : Nat)
    (pool : PoolRef) : Nat → Pools → List DriverCall → Pools × List DriverCall
  | 0, ps, t => (ps, t)
  | k + 1, ps, t =>
    updatePasses drv alloc MAX_SLOTS fuel pool k
      (updateSlots drv alloc MAX_SLOTS fuel pool ps t).pools
      (updateSlots drv alloc MAX_SLOTS fuel pool ps t).trace

/-- The `CT_init` calls of the first `k` rounds of the growth loop, for a pool
whose next identifier is `next`. -/
def initCalls (next : Nat) (k : Nat) : List DriverCall :=
  (List.range k).map (fun i => initCall (next + i))

/-- The slots the growth loop adds in `k` rounds to a pool whose next
identifier is `next`. -/
def addedSlots (next : Nat) (k : Nat) : List p11Slot_t :=
  (List.range k).map (fun i => { newSlot with id := next + i })

/-- The slot states that can be reached from a newly created slot (open, no
token, `CKF_TOKEN_PRESENT` clear) by calls of `getToken` on the slot and of
`updateSlots` on a pool, the slot being in one of the pools. -/
inductive Reachable : p11Slot_t → Prop where
  | created (id flags : Nat) (h : flags &&& CKF_TOKEN_PRESENT = 0) :
      Reachable ⟨id, false, flags, none⟩
  | poll (drv : Driver) (newToken : NewTokenFn) (fuel : Nat) (rsp0 : Nat → Nat) (sw0 : Nat)
      (trace : List DriverCall) (s : p11Slot_t) (h : Reachable s) :
      Reachable (getToken drv newToken fuel rsp0 sw0 s trace).slot
  | maintain (drv : Driver) (alloc : List DriverCall → Bool) (MAX_SLOTS fuel : Nat)
      (pool holder : PoolRef) (ps : Pools) (t : List DriverCall) (i : Nat) (s s1 : p11Slot_t)
      (h : Reachable s) (hin : (ps.get holder).list[i]? = some s)
      (hout : ((updateSlots drv alloc MAX_SLOTS fuel pool ps t).pools.get holder).list[i]? =
        some s1) :
      Reachable s1

/-- The invariant of a slot: `CKF_TOKEN_PRESENT` is set exactly when a token is
attached, and a closed slot has no token. -/
def SlotInv (s : p11Slot_t) : Prop :=
  (s.flags &&& CKF_TOKEN_PRESENT ≠ 0 ↔ s.token.isSome = true) ∧
  (s.closed = true → s.token = none)


/-! ## The driver history only grows -/

theorem afterGetResponse_world (rc rv : Int) (res : Result) :
    (afterGetResponse rc rv res).world = res.world := by
  unfold afterGetResponse
  split
  · split_ifs <;> rfl
  · rfl
  · rfl

theorem copyIn_trace (InData : Option Nat) (scr : List Nat) (rv : Int) (w : World) :
    (copyIn InData scr rv w).trace = w.trace := by
  cases InData <;> rfl

theorem copyIn_sw (InData : Option Nat) (scr : List Nat) (rv : Int) (w : World) :
    (copyIn InData scr rv w).sw = w.sw := by
  cases InData <;> rfl

theorem processResponse_trace (getResponse : TransmitFn) (hg : Appends getResponse)
    (CLA : Nat) (InData : Option Nat) (InSize rc : Int) (scr : List Nat) (w : World) :
    w.trace <+: (processResponse getResponse CLA InData InSize rc scr w).world.trace := by
  unfold processResponse
  cases InData with
  | none =>
    simp only [Option.isSome_none, Bool.false_eq_true, false_and, if_false]
    split_ifs <;> simp [copyIn_trace]
  | some p =>
    simp only []
    split_ifs
    · exact List.prefix_refl _
    · rw [afterGetResponse_world]
      have := hg (getResponseCLA CLA) 0xC0 0 0 0 none (scr.getD 1 0 : Nat)
        (some (p + (clampLen scr.length InSize).toNat)) (InSize - clampLen scr.length InSize)
        (copyIn (some p) scr (clampLen scr.length InSize) w)
      rwa [copyIn_trace] at this
    · simp [copyIn_trace]
    · simp [copyIn_trace]

theorem retryLoop_trace (drv : Driver) (getResponse : TransmitFn) (hg : Appends getResponse)
    (id todad CLA INS P1 P2 : Nat) (OutLen : Int) (OutData : Option (List Nat))
    (InData : Option Nat) (InSize : Int) (retry : Nat) (InLen : Int) (w : World) :
    w.trace <+: (retryLoop drv getResponse id todad CLA INS P1 P2 OutLen OutData InData InSize
      retry InLen w).world.trace := by
  induction retry generalizing InLen w with
  | zero => exact List.prefix_refl _
  | succ n ih =>
    unfold retryLoop
    simp only []
    split_ifs
    · exact List.prefix_append _ _
    · exact List.prefix_append _ _
    · refine List.IsPrefix.trans ?_ (ih _ _)
      exact List.prefix_append _ _
    · refine List.IsPrefix.trans ?_ (processResponse_trace getResponse hg _ _ _ _ _ _)
      exact List.prefix_append _ _

theorem transmitAPDUwithCTAPI_trace (drv : Driver) (fuel : Nat) :
    ∀ (id todad CLA INS P1 P2 : Nat) (OutLen : Int) (OutData : Option (List Nat))
      (InLen : Int) (InData : Option Nat) (InSize : Int) (w : World),
      w.trace <+: (transmitAPDUwithCTAPI drv fuel id todad CLA INS P1 P2 OutLen OutData InLen
        InData InSize w).world.trace := by
  induction fuel with
  | zero => intros; exact List.prefix_refl _
  | succ n ih =>
    intro id todad CLA INS P1 P2 OutLen OutData InLen InData InSize w
    unfold transmitAPDUwithCTAPI
    apply retryLoop_trace
    intro cla ins p1 p2 outLen outData inLen inData inSize w1
    exact ih _ _ _ _ _ _ _ _ _ _ _ _

/-- The first call of a run of the loop is the `CT_data` call for the command
built from the arguments. -/
theorem retryLoop_first_call (drv : Driver) (getResponse : TransmitFn) (hg : Appends getResponse)
    (id todad CLA INS P1 P2 : Nat) (OutLen : Int) (OutData : Option (List Nat))
    (InData : Option Nat) (InSize : Int) (retry : Nat) (InLen : Int) (w : World) :
    (retryLoop drv getResponse id todad CLA INS P1 P2 OutLen OutData InData InSize
      (retry + 1) InLen w).world.trace[w.trace.length]? =
      some (dataCall id todad (buildCommand CLA INS P1 P2 OutLen OutData InLen InData InSize)) := by
  have key : ∀ t : List DriverCall, (w.trace ++ [dataCall id todad
      (buildCommand CLA INS P1 P2 OutLen OutData InLen InData InSize)]) <+: t →
      t[w.trace.length]? = some (dataCall id todad
        (buildCommand CLA INS P1 P2 OutLen OutData InLen InData InSize)) := by
    rintro t ⟨rest, rfl⟩
    rw [List.append_assoc, List.getElem?_append_right (le_refl _)]
    simp
  apply key
  unfold retryLoop
  simp only []
  split_ifs
  · exact List.prefix_refl _
  · exact List.prefix_refl _
  · exact retryLoop_trace drv getResponse hg _ _ _ _ _ _ _ _ _ _ _ _
      ⟨w.trace ++ [dataCall id todad
        (buildCommand CLA INS P1 P2 OutLen OutData InLen InData InSize)], w.mem, w.sw⟩
  · exact processResponse_trace getResponse hg _ _ _ _ _
      ⟨w.trace ++ [dataCall id todad
        (buildCommand CLA INS P1 P2 OutLen OutData InLen InData InSize)], w.mem, w.sw⟩

/-- The first call a transmit call makes is the `CT_data` call for the command
built from its arguments. -/
theorem transmit_first_call (drv : Driver) (fuel : Nat)
    (id todad CLA INS P1 P2 : Nat) (OutLen : Int) (OutData : Option (List Nat))
    (InLen : Int) (InData : Option Nat) (InSize : Int) (w : World) :
    (transmitAPDUwithCTAPI drv (fuel + 1) id todad CLA INS P1 P2 OutLen OutData InLen
      InData InSize w).world.trace[w.trace.length]? =
      some (dataCall id todad (buildCommand CLA INS P1 P2 OutLen OutData InLen InData InSize)) := by
  rw [transmitAPDUwithCTAPI]
  apply retryLoop_first_call
  intro cla ins p1 p2 outLen outData inLen inData inSize w1
  exact transmitAPDUwithCTAPI_trace drv fuel _ _ _ _ _ _ _ _ _ _ _ _

/-! ## One step of the loop, by the answer of the driver -/

theorem retryLoop_failed (drv : Driver) (getResponse : TransmitFn)
    (id todad CLA INS P1 P2 : Nat) (OutLen : Int) (OutData : Option (List Nat))
    (InData : Option Nat) (InSize : Int) (retry : Nat) (InLen : Int) (w : World)
    (h : (drv (w.trace ++ [dataCall id todad
      (buildCommand CLA INS P1 P2 OutLen OutData InLen InData InSize)])).rc < 0) :
    retryLoop drv getResponse id todad CLA INS P1 P2 OutLen OutData InData InSize
      (retry + 1) InLen w =
    ⟨Ret.value (drv (w.trace ++ [dataCall id todad
        (buildCommand CLA INS P1 P2 OutLen OutData InLen InData InSize)])).rc,
      { w with trace := w.trace ++ [dataCall id todad
        (buildCommand CLA INS P1 P2 OutLen OutData InLen InData InSize)] }⟩ := by
  rw [retryLoop]
  simp only [h, if_true]

theorem retryLoop_wrongLength (drv : Driver) (getResponse : TransmitFn)
    (id todad CLA INS P1 P2 : Nat) (OutLen : Int) (OutData : Option (List Nat))
    (InData : Option Nat) (InSize : Int) (retry : Nat) (InLen : Int) (w : World)
    (rc : Int) (resp : List Nat)
    (h : drv (w.trace ++ [dataCall id todad
      (buildCommand CLA INS P1 P2 OutLen OutData InLen InData InSize)]) = ⟨rc, resp⟩)
    (hrc : 0 ≤ rc) (hn : 2 ≤ resp.length) (hsw : resp.getD (resp.length - 2) 0 = 0x6C) :
    retryLoop drv getResponse id todad CLA INS P1 P2 OutLen OutData InData InSize
      (retry + 1) InLen w =
    retryLoop drv getResponse id todad CLA INS P1 P2 OutLen OutData InData InSize
      retry (resp.getD (resp.length - 1) 0 : Nat)
      { w with trace := w.trace ++ [dataCall id todad
        (buildCommand CLA INS P1 P2 OutLen OutData InLen InData InSize)] } := by
  rw [retryLoop]
  simp only [h, hsw, if_true]
  rw [if_neg (by omega), if_neg (by omega)]

theorem retryLoop_answered (drv : Driver) (getResponse : TransmitFn)
    (id todad CLA INS P1 P2 : Nat) (OutLen : Int) (OutData : Option (List Nat))
    (InData : Option Nat) (InSize : Int) (retry : Nat) (InLen : Int) (w : World)
    (rc : Int) (resp : List Nat)
    (h : drv (w.trace ++ [dataCall id todad
      (buildCommand CLA INS P1 P2 OutLen OutData InLen InData InSize)]) = ⟨rc, resp⟩)
    (hrc : 0 ≤ rc) (hn : 2 ≤ resp.length) (hsw : resp.getD (resp.length - 2) 0 ≠ 0x6C) :
    retryLoop drv getResponse id todad CLA INS P1 P2 OutLen OutData InData InSize
      (retry + 1) InLen w =
    processResponse getResponse CLA InData InSize rc resp
      { w with trace := w.trace ++ [dataCall id todad
        (buildCommand CLA INS P1 P2 OutLen OutData InLen InData InSize)] } := by
  rw [retryLoop]
  simp only [h]
  rw [if_neg (by omega), if_neg (by omega), if_neg hsw]

theorem clampLen_nonneg (n : Nat) (InSize : Int) (hn : 2 ≤ n) (hs : 0 ≤ InSize) :
    0 ≤ clampLen n InSize := by
  unfold clampLen; split_ifs <;> omega

theorem clampLen_fits (n : Nat) (InSize : Int) (h : (n : Int) - 2 ≤ InSize) :
    clampLen n InSize = (n : Int) - 2 := by
  unfold clampLen; split_ifs <;> omega

theorem clampLen_truncated (n : Nat) (InSize : Int) (h : (n : Int) - 2 > InSize) :
    clampLen n InSize = InSize := by
  unfold clampLen; rw [if_pos h]

theorem afterGetResponse_value (rc rv r : Int) (wd : World) (h : 0 ≤ r) :
    afterGetResponse rc rv ⟨Ret.value r, wd⟩ = ⟨Ret.value (rv + r), wd⟩ := by
  unfold afterGetResponse
  simp only []
  rw [if_neg (by omega)]

theorem afterGetResponse_failed (rc rv r : Int) (wd : World) (h : r < 0) :
    afterGetResponse rc rv ⟨Ret.value r, wd⟩ = ⟨Ret.value rc, wd⟩ := by
  unfold afterGetResponse
  simp only []
  rw [if_pos h]

/-- A response with a final status: the payload is copied and the status word
is stored. -/
theorem processResponse_final (getResponse : TransmitFn) (CLA : Nat) (InData : Option Nat)
    (InSize rc : Int) (scr : List Nat) (w : World)
    (hrv : InData = none ∨ 0 ≤ clampLen scr.length InSize)
    (h9F : scr.getD (scr.length - 2) 0 ≠ 0x9F) (h61 : scr.getD (scr.length - 2) 0 ≠ 0x61) :
    processResponse getResponse CLA InData InSize rc scr w =
    ⟨Ret.value (clampLen scr.length InSize),
      { copyIn InData scr (clampLen scr.length InSize) w with
        sw := (scr.getD (scr.length - 2) 0 * 256 + scr.getD (scr.length - 1) 0) % 65536 }⟩ := by
  unfold processResponse
  have h1 : ¬ (InData.isSome ∧ clampLen scr.length InSize < 0) := by
    rintro ⟨h, h2⟩
    rcases hrv with h3 | h3
    · simp [h3] at h
    · omega
  simp only []
  rw [if_neg h1, if_neg (not_or.mpr ⟨h9F, h61⟩)]

/-- A response announcing more data when the caller gave no buffer: no follow
up, status word `0x9000`. -/
theorem processResponse_declined (getResponse : TransmitFn) (CLA : Nat) (InData : Option Nat)
    (InSize rc : Int) (scr : List Nat) (w : World)
    (hrv : InData = none ∨ 0 ≤ clampLen scr.length InSize)
    (hsw : scr.getD (scr.length - 2) 0 = 0x9F ∨ scr.getD (scr.length - 2) 0 = 0x61)
    (hno : InData = none ∨ InSize = 0) :
    processResponse getResponse CLA InData InSize rc scr w =
    ⟨Ret.value (clampLen scr.length InSize),
      { copyIn InData scr (clampLen scr.length InSize) w with sw := 0x9000 }⟩ := by
  unfold processResponse
  have h1 : ¬ (InData.isSome ∧ clampLen scr.length InSize < 0) := by
    rintro ⟨h, h2⟩
    rcases hrv with h3 | h3
    · simp [h3] at h
    · omega
  simp only []
  rw [if_neg h1, if_pos hsw]
  cases InData with
  | none => rfl
  | some p =>
    have h0 : InSize = 0 := by simpa using hno
    simp [h0]

/-- A response announcing more data when the caller gave a buffer: GET RESPONSE
is issued for the rest of the buffer. -/
theorem processResponse_chained (getResponse : TransmitFn) (CLA : Nat) (p : Nat)
    (InSize rc : Int) (scr : List Nat) (w : World)
    (hrv : 0 ≤ clampLen scr.length InSize)
    (hsw : scr.getD (scr.length - 2) 0 = 0x9F ∨ scr.getD (scr.length - 2) 0 = 0x61)
    (hsz : InSize ≠ 0) :
    processResponse getResponse CLA (some p) InSize rc scr w =
    afterGetResponse rc (clampLen scr.length InSize)
      (getResponse (getResponseCLA CLA) 0xC0 0 0 0 none (scr.getD 1 0 : Nat)
        (some (p + (clampLen scr.length InSize).toNat)) (InSize - clampLen scr.length InSize)
        (copyIn (some p) scr (clampLen scr.length InSize) w)) := by
  unfold processResponse
  simp only []
  rw [if_neg (by simp; omega), if_pos hsw, if_pos hsz]

/-- The call that meets a status `9F xx` or `61 xx` with a buffer at hand
continues with the nested GET RESPONSE call. -/
theorem transmit_chained (drv : Driver) (fuel : Nat)
    (id todad CLA INS P1 P2 : Nat) (OutLen : Int) (OutData : Option (List Nat))
    (InLen : Int) (p : Nat) (InSize : Int) (w : World) (rc : Int) (resp : List Nat)
    (hdrv : drv (w.trace ++ [dataCall id todad
      (buildCommand CLA INS P1 P2 OutLen OutData InLen (some p) InSize)]) = ⟨rc, resp⟩)
    (hrc : 0 ≤ rc) (hn : 2 ≤ resp.length)
    (hsw : resp.getD (resp.length - 2) 0 = 0x9F ∨ resp.getD (resp.length - 2) 0 = 0x61)
    (hsize : 0 ≤ InSize) (hsz : InSize ≠ 0) :
    transmitAPDUwithCTAPI drv (fuel + 1) id todad CLA INS P1 P2 OutLen OutData InLen
      (some p) InSize w =
    afterGetResponse rc (clampLen resp.length InSize)
      (transmitAPDU drv fuel id (getResponseCLA CLA) 0xC0 0 0 0 none (resp.getD 1 0 : Nat)
        (some (p + (clampLen resp.length InSize).toNat)) (InSize - clampLen resp.length InSize)
        ⟨w.trace ++ [dataCall id todad
            (buildCommand CLA INS P1 P2 OutLen OutData InLen (some p) InSize)],
          memcpy w.mem p resp (clampLen resp.length InSize).toNat, w.sw⟩) := by
  have h6C : resp.getD (resp.length - 2) 0 ≠ 0x6C := by
    rcases hsw with h | h <;> rw [h] <;> decide
  rw [transmitAPDUwithCTAPI, retryLoop_answered drv _ id todad CLA INS P1 P2 OutLen OutData
    (some p) InSize 1 InLen w rc resp hdrv hrc hn h6C,
    processResponse_chained _ _ _ _ _ _ _ (clampLen_nonneg _ _ hn hsize) hsw hsz]
  rfl

/-- A nested or first call answered with a final status, in one statement. -/
theorem transmit_final (drv : Driver) (fuel : Nat)
    (id todad CLA INS P1 P2 : Nat) (OutLen : Int) (OutData : Option (List Nat))
    (InLen : Int) (InData : Option Nat) (InSize : Int) (w : World) (rc : Int) (resp : List Nat)
    (hdrv : drv (w.trace ++ [dataCall id todad
      (buildCommand CLA INS P1 P2 OutLen OutData InLen InData InSize)]) = ⟨rc, resp⟩)
    (hrc : 0 ≤ rc) (hn : 2 ≤ resp.length)
    (h6C : resp.getD (resp.length - 2) 0 ≠ 0x6C)
    (h9F : resp.getD (resp.length - 2) 0 ≠ 0x9F)
    (h61 : resp.getD (resp.length - 2) 0 ≠ 0x61)
    (hsize : 0 ≤ InSize) :
    transmitAPDUwithCTAPI drv (fuel + 1) id todad CLA INS P1 P2 OutLen OutData InLen
      InData InSize w =
    ⟨Ret.value (clampLen resp.length InSize),
      { copyIn InData resp (clampLen resp.length InSize)
          { w with trace := w.trace ++ [dataCall id todad
            (buildCommand CLA INS P1 P2 OutLen OutData InLen InData InSize)] } with
        sw := (resp.getD (resp.length - 2) 0 * 256 + resp.getD (resp.length - 1) 0) % 65536 }⟩ := by
  rw [transmitAPDUwithCTAPI, retryLoop_answered drv _ id todad CLA INS P1 P2 OutLen OutData
    InData InSize 1 InLen w rc resp hdrv hrc hn h6C,
    processResponse_final _ _ _ _ _ _ _ (Or.inr (clampLen_nonneg _ _ hn hsize)) h9F h61]

/-- The transmit call whose first `CT_data` call, or whose retry after a status
`6C xx`, returns `ERR_CT` returns `ERR_CT`. -/
theorem transmit_ERR_CT (drv : Driver) (fuel : Nat)
    (id todad CLA INS P1 P2 : Nat) (OutLen : Int) (OutData : Option (List Nat))
    (InLen : Int) (InData : Option Nat) (InSize : Int) (w : World)
    (h : (drv (w.trace ++ [dataCall id todad
        (buildCommand CLA INS P1 P2 OutLen OutData InLen InData InSize)])).rc = ERR_CT ∨
      ∃ rc1 resp1,
        drv (w.trace ++ [dataCall id todad
          (buildCommand CLA INS P1 P2 OutLen OutData InLen InData InSize)]) = ⟨rc1, resp1⟩ ∧
        0 ≤ rc1 ∧ 2 ≤ resp1.length ∧ resp1.getD (resp1.length - 2) 0 = 0x6C ∧
        (drv (w.trace ++ [dataCall id todad
            (buildCommand CLA INS P1 P2 OutLen OutData InLen InData InSize),
          dataCall id todad (buildCommand CLA INS P1 P2 OutLen OutData
            (resp1.getD (resp1.length - 1) 0 : Nat) InData InSize)])).rc = ERR_CT) :
    (transmitAPDUwithCTAPI drv (fuel + 1) id todad CLA INS P1 P2 OutLen OutData InLen
      InData InSize w).ret = Ret.value ERR_CT := by
  have hneg : ERR_CT < 0 := by decide
  rw [transmitAPDUwithCTAPI]
  rcases h with h | ⟨rc1, resp1, h1, h2, h3, h4, h5⟩
  · rw [retryLoop_failed _ _ _ _ _ _ _ _ _ _ _ _ _ _ _ (by rw [h]; exact hneg), h]
  · have h5' : (drv (w.trace ++ [dataCall id todad
        (buildCommand CLA INS P1 P2 OutLen OutData InLen InData InSize)] ++
        [dataCall id todad (buildCommand CLA INS P1 P2 OutLen OutData
          (resp1.getD (resp1.length - 1) 0 : Nat) InData InSize)])).rc = ERR_CT := by
      simpa using h5
    rw [retryLoop_wrongLength drv _ id todad CLA INS P1 P2 OutLen OutData InData InSize 1 InLen w
      rc1 resp1 h1 h2 h3 h4,
      retryLoop_failed _ _ _ _ _ _ _ _ _ _ _ _ _ _ _ (by rw [h5']; exact hneg), h5']

/-! ## Bytes, memory and flags -/

theorem toUChar_of_byte (x : Int) (h0 : 0 ≤ x) (h1 : x ≤ 255) : toUChar x = x.toNat := by
  unfold toUChar
  rw [Int.emod_eq_of_lt h0 (by omega)]

theorem memcpy_inside (mem : Nat → Nat) (dst : Nat) (src : List Nat) (n i : Nat) (h : i < n) :
    memcpy mem dst src n (dst + i) = src.getD i 0 := by
  unfold memcpy
  rw [if_pos ⟨Nat.le_add_right _ _, by omega⟩, Nat.add_sub_cancel_left]

theorem memcpy_outside (mem : Nat → Nat) (dst : Nat) (src : List Nat) (n j : Nat)
    (h : ¬ (dst ≤ j ∧ j < dst + n)) : memcpy mem dst src n j = mem j := by
  unfold memcpy
  rw [if_neg h]

theorem getD_eq_getElem? (l : List Nat) (i : Nat) (h : i < l.length) :
    l[i]? = some (l.getD i 0) := by
  simp [List.getD, List.getElem?_eq_getElem h]

theorem statusWord_of_bytes (a b : Nat) (ha : a < 256) (hb : b < 256) :
    (a * 256 + b) % 65536 = 256 * a + b := by
  omega

theorem statusByte_lt (resp : List Nat) (hbytes : ∀ b ∈ resp, b < 256) (i : Nat)
    (hi : i < resp.length) : resp.getD i 0 < 256 := by
  rw [List.getD_eq_getElem _ _ hi]
  exact hbytes _ (List.getElem_mem _)

theorem clearMask_and (f m : Nat) : (f ^^^ (f &&& m)) &&& m = 0 := by
  apply Nat.eq_of_testBit_eq
  intro i
  rw [Nat.testBit_and, Nat.testBit_xor, Nat.testBit_and, Nat.zero_testBit]
  cases f.testBit i <;> cases m.testBit i <;> rfl

/-- The status query of `checkForNewToken` and `checkForRemovedToken` on the
wire: `20 13 01 80 00`. -/
theorem statusQuery_command :
    buildCommand 0x20 0x13 0x01 0x80 0 none 0 (some 0) 260 = [0x20, 0x13, 0x01, 0x80, 0x00] := by
  decide

/-! ## `getToken` when the terminal is gone -/

/-- What `getToken` leaves when the status query returns `ERR_CT`. -/
theorem getToken_of_ERR_CT (drv : Driver) (newToken : NewTokenFn) (fuel : Nat)
    (rsp0 : Nat → Nat) (sw0 : Nat) (slot : p11Slot_t) (trace : List DriverCall)
    (hopen : slot.closed = false)
    (hflag : slot.token = none → slot.flags &&& CKF_TOKEN_PRESENT = 0)
    (hret : (transmitAPDUwithCTAPI drv fuel slot.id 1 0x20 0x13 0x01 0x80 0 none 0 (some 0) 260
      ⟨trace, rsp0, sw0⟩).ret = Ret.value ERR_CT) :
    (getToken drv newToken fuel rsp0 sw0 slot trace).slot.closed = true ∧
    (getToken drv newToken fuel rsp0 sw0 slot trace).slot.token = none ∧
    (getToken drv newToken fuel rsp0 sw0 slot trace).slot.flags &&& CKF_TOKEN_PRESENT = 0 ∧
    (getToken drv newToken fuel rsp0 sw0 slot trace).token = none ∧
    (getToken drv newToken fuel rsp0 sw0 slot trace).ret =
      Ret.value (if slot.token.isSome then CKR_GENERAL_ERROR else CKR_DEVICE_ERROR) := by
  have hneg : ERR_CT < 0 := by decide
  cases htok : slot.token with
  | none =>
    have hf := hflag htok
    simp only [getToken, htok, Option.isSome_none, Bool.false_eq_true, if_false,
      checkForNewToken, hopen, hret, if_true, hneg, closeSlot]
    simp [htok, hf]
  | some t =>
    simp only [getToken, htok, Option.isSome_some, if_true,
      checkForRemovedToken, hret, hneg, closeSlot, removeToken, freeToken,
      Option.isNone_some, Bool.false_eq_true, if_false]
    simp [clearMask_and]

/-! ## The claims -/

/-- C1: with `0 <= OutLen <= 255` and `0 <= InLen <= 255` the first command
handed to the driver is `CLA INS P1 P2`, then (only if outgoing data is given
and `OutLen` is not zero) one byte `OutLen` and the data bytes, then (only if
a receive buffer of non-zero capacity is given) one byte `InLen`. -/
theorem C1_short_command (drv : Driver) (fuel : Nat)
    (id todad CLA INS P1 P2 : Nat) (OutLen : Int) (OutData : Option (List Nat))
    (InLen : Int) (InData : Option Nat) (InSize : Int) (w : World)
    (hOut : 0 ≤ OutLen ∧ OutLen ≤ 255) (hIn : 0 ≤ InLen ∧ InLen ≤ 255) :
    (transmitAPDUwithCTAPI drv (fuel + 1) id todad CLA INS P1 P2 OutLen OutData InLen
      InData InSize w).world.trace[w.trace.length]? =
      some (DriverCall.data (id % 65536) (todad % 256) HOST
        ([CLA, INS, P1, P2]
          ++ (match OutData with
              | some data =>
                if OutLen ≠ 0 then [OutLen.toNat] ++ data.take OutLen.toNat else []
              | none => [])
          ++ (if InData.isSome ∧ InSize ≠ 0 then [InLen.toNat] else []))) := by
  rw [transmit_first_call]
  unfold dataCall buildCommand encodeOut encodeIn
  rw [if_pos (show OutLen ≤ 255 ∧ InLen ≤ 255 from ⟨hOut.2, hIn.2⟩),
    if_pos (show InLen ≤ 255 ∧ OutLen ≤ 255 from ⟨hIn.2, hOut.2⟩),
    toUChar_of_byte OutLen hOut.1 hOut.2, toUChar_of_byte InLen hIn.1 hIn.2]

/-- C1 on a SELECT command with two data bytes and `Le = 16`. -/
theorem C1_short_command_witness :
    (0 ≤ (2 : Int) ∧ (2 : Int) ≤ 255) ∧ (0 ≤ (16 : Int) ∧ (16 : Int) ≤ 255) ∧
    (transmitAPDUwithCTAPI (scripted [⟨0, [0x90, 0x00]⟩]) 1 1 0 0x00 0xA4 0x04 0x00
      2 (some [0xE8, 0x2B]) 16 (some 0) 64 emptyWorld).world.trace[emptyWorld.trace.length]? =
      some (DriverCall.data 1 0 2 [0x00, 0xA4, 0x04, 0x00, 2, 0xE8, 0x2B, 16]) :=
  ⟨by decide, by decide,
    C1_short_command (scripted [⟨0, [0x90, 0x00]⟩]) 0 1 0 0x00 0xA4 0x04 0x00
      2 (some [0xE8, 0x2B]) 16 (some 0) 64 emptyWorld (by decide) (by decide)⟩

/-- C3: when the first response ends in `6C xx` and the second exchange
succeeds with a final status, the command is sent a second time with the
expected length `xx`, and the call returns the byte count and the status word
of the second response; the first status is neither returned nor stored. -/
theorem C3_wrong_length_retry (drv : Driver) (fuel : Nat)
    (id todad CLA INS P1 P2 : Nat) (OutLen : Int) (OutData : Option (List Nat))
    (InLen : Int) (InData : Option Nat) (InSize : Int) (w : World)
    (rc1 : Int) (resp1 : List Nat) (rc2 : Int) (resp2 : List Nat)
    (hdrv1 : drv (w.trace ++ [dataCall id todad
      (buildCommand CLA INS P1 P2 OutLen OutData InLen InData InSize)]) = ⟨rc1, resp1⟩)
    (hrc1 : 0 ≤ rc1) (hn1 : 2 ≤ resp1.length)
    (h6C1 : resp1.getD (resp1.length - 2) 0 = 0x6C)
    (hdrv2 : drv (w.trace ++ [dataCall id todad
        (buildCommand CLA INS P1 P2 OutLen OutData InLen InData InSize),
      dataCall id todad (buildCommand CLA INS P1 P2 OutLen OutData
        (resp1.getD (resp1.length - 1) 0 : Nat) InData InSize)]) = ⟨rc2, resp2⟩)
    (hrc2 : 0 ≤ rc2) (hn2 : 2 ≤ resp2.length) (hbytes : ∀ b ∈ resp2, b < 256)
    (h6C : resp2.getD (resp2.length - 2) 0 ≠ 0x6C)
    (h9F : resp2.getD (resp2.length - 2) 0 ≠ 0x9F)
    (h61 : resp2.getD (resp2.length - 2) 0 ≠ 0x61)
    (hsize : 0 ≤ InSize) :
    (transmitAPDUwithCTAPI drv (fuel + 1) id todad CLA INS P1 P2 OutLen OutData InLen
      InData InSize w).world.trace =
      w.trace ++ [dataCall id todad
          (buildCommand CLA INS P1 P2 OutLen OutData InLen InData InSize),
        dataCall id todad (buildCommand CLA INS P1 P2 OutLen OutData
          (resp1.getD (resp1.length - 1) 0 : Nat) InData InSize)] ∧
    (transmitAPDUwithCTAPI drv (fuel + 1) id todad CLA INS P1 P2 OutLen OutData InLen
      InData InSize w).ret = Ret.value (clampLen resp2.length InSize) ∧
    0 ≤ clampLen resp2.length InSize ∧
    (transmitAPDUwithCTAPI drv (fuel + 1) id todad CLA INS P1 P2 OutLen OutData InLen
      InData InSize w).world.sw =
      256 * resp2.getD (resp2.length - 2) 0 + resp2.getD (resp2.length - 1) 0 ∧
    (transmitAPDUwithCTAPI drv (fuel + 1) id todad CLA INS P1 P2 OutLen OutData InLen
      InData InSize w).world.sw / 256 ≠ 0x6C ∧
    (transmitAPDUwithCTAPI drv (fuel + 1) id todad CLA INS P1 P2 OutLen OutData InLen
      InData InSize w).world.mem =
      (copyIn InData resp2 (clampLen resp2.length InSize) w).mem := by
  have hnn := clampLen_nonneg resp2.length InSize hn2 hsize
  have hb1 := statusByte_lt resp2 hbytes (resp2.length - 2) (by omega)
  have hb2 := statusByte_lt resp2 hbytes (resp2.length - 1) (by omega)
  have hsw := statusWord_of_bytes _ _ hb1 hb2
  rw [transmitAPDUwithCTAPI, retryLoop_wrongLength drv _ id todad CLA INS P1 P2 OutLen OutData
    InData InSize 1 InLen w rc1 resp1 hdrv1 hrc1 hn1 h6C1,
    retryLoop_answered drv _ id todad CLA INS P1 P2 OutLen OutData
    InData InSize 0 _ _ rc2 resp2 (by simpa using hdrv2) hrc2 hn2 h6C,
    processResponse_final _ _ _ _ _ _ _ (Or.inr hnn) h9F h61]
  refine ⟨?_, rfl, hnn, hsw, ?_, ?_⟩
  · simp [copyIn_trace]
  · show (resp2.getD (resp2.length - 2) 0 * 256 + resp2.getD (resp2.length - 1) 0) % 65536 / 256
      ≠ 0x6C
    rw [hsw]
    omega
  · cases InData <;> rfl

/-- C3 on a first status `6C 11` followed by three bytes and `90 00`. -/
theorem C3_wrong_length_retry_witness :
    (transmitAPDUwithCTAPI (scripted [⟨0, [0x6C, 0x11]⟩, ⟨0, [7, 8, 9, 0x90, 0x00]⟩]) 1 1 0
      0x00 0xB0 0x00 0x00 0 none 0 (some 0) 32 emptyWorld).world.trace =
      [DriverCall.data 1 0 2 [0x00, 0xB0, 0x00, 0x00, 0x00],
        DriverCall.data 1 0 2 [0x00, 0xB0, 0x00, 0x00, 0x11]] ∧
    (transmitAPDUwithCTAPI (scripted [⟨0, [0x6C, 0x11]⟩, ⟨0, [7, 8, 9, 0x90, 0x00]⟩]) 1 1 0
      0x00 0xB0 0x00 0x00 0 none 0 (some 0) 32 emptyWorld).ret = Ret.value 3 ∧
    (transmitAPDUwithCTAPI (scripted [⟨0, [0x6C, 0x11]⟩, ⟨0, [7, 8, 9, 0x90, 0x00]⟩]) 1 1 0
      0x00 0xB0 0x00 0x00 0 none 0 (some 0) 32 emptyWorld).world.sw = 0x9000 :=
  have h := C3_wrong_length_retry
    (scripted [⟨0, [0x6C, 0x11]⟩, ⟨0, [7, 8, 9, 0x90, 0x00]⟩]) 0 1 0
    0x00 0xB0 0x00 0x00 0 none 0 (some 0) 32 emptyWorld 0 [0x6C, 0x11] 0 [7, 8, 9, 0x90, 0x00]
    (by decide) (by decide) (by decide) (by decide) (by decide) (by decide) (by decide)
    (by decide) (by decide) (by decide) (by decide) (by decide)
  ⟨h.1, h.2.1, h.2.2.2.1⟩

/-- C4: a first response of `n >= 2` bytes with a status byte `SW1` other than
`0x6C`, `0x9F`, `0x61`, received into a buffer with `n - 2 <= InSize`: the
call returns `n - 2`, the buffer starts with the first `n - 2` response bytes
and the status word is `256 * byte[n-2] + byte[n-1]`. -/
theorem C4_final_response (drv : Driver) (fuel : Nat)
    (id todad CLA INS P1 P2 : Nat) (OutLen : Int) (OutData : Option (List Nat))
    (InLen : Int) (p : Nat) (InSize : Int) (w : World) (rc : Int) (resp : List Nat)
    (hdrv : drv (w.trace ++ [dataCall id todad
      (buildCommand CLA INS P1 P2 OutLen OutData InLen (some p) InSize)]) = ⟨rc, resp⟩)
    (hrc : 0 ≤ rc) (hn : 2 ≤ resp.length) (hbytes : ∀ b ∈ resp, b < 256)
    (h6C : resp.getD (resp.length - 2) 0 ≠ 0x6C)
    (h9F : resp.getD (resp.length - 2) 0 ≠ 0x9F)
    (h61 : resp.getD (resp.length - 2) 0 ≠ 0x61)
    (hfit : (resp.length : Int) - 2 ≤ InSize) :
    (transmitAPDUwithCTAPI drv (fuel + 1) id todad CLA INS P1 P2 OutLen OutData InLen
      (some p) InSize w).ret = Ret.value ((resp.length : Int) - 2) ∧
    (∀ i, i < resp.length - 2 →
      resp[i]? = some ((transmitAPDUwithCTAPI drv (fuel + 1) id todad CLA INS P1 P2 OutLen
        OutData InLen (some p) InSize w).world.mem (p + i))) ∧
    (transmitAPDUwithCTAPI drv (fuel + 1) id todad CLA INS P1 P2 OutLen OutData InLen
      (some p) InSize w).world.sw =
      256 * resp.getD (resp.length - 2) 0 + resp.getD (resp.length - 1) 0 := by
  rw [transmitAPDUwithCTAPI, retryLoop_answered drv _ id todad CLA INS P1 P2 OutLen OutData
    (some p) InSize 1 InLen w rc resp hdrv hrc hn h6C,
    processResponse_final _ _ _ _ _ _ _ (Or.inr (by rw [clampLen_fits _ _ hfit]; omega)) h9F h61,
    clampLen_fits _ _ hfit]
  refine ⟨rfl, ?_, ?_⟩
  · intro i hi
    have hlen : ((resp.length : Int) - 2).toNat = resp.length - 2 := by omega
    show resp[i]? = some (memcpy w.mem p resp ((resp.length : Int) - 2).toNat (p + i))
    rw [hlen, memcpy_inside _ _ _ _ _ hi, getD_eq_getElem? _ _ (by omega)]
  · show (resp.getD (resp.length - 2) 0 * 256 + resp.getD (resp.length - 1) 0) % 65536 = _
    have h1 : resp.getD (resp.length - 2) 0 < 256 := by
      rw [List.getD_eq_getElem _ _ (by omega)]
      exact hbytes _ (List.getElem_mem _)
    have h2 : resp.getD (resp.length - 1) 0 < 256 := by
      rw [List.getD_eq_getElem _ _ (by omega)]
      exact hbytes _ (List.getElem_mem _)
    exact statusWord_of_bytes _ _ h1 h2

/-- C4 on the answer `80 01 05 90 00` to a status query. -/
theorem C4_final_response_witness :
    (scripted [⟨0, [0x80, 0x01, 0x05, 0x90, 0x00]⟩]) (emptyWorld.trace ++ [dataCall 1 1
      (buildCommand 0x20 0x13 0x01 0x80 0 none 0 (some 0) 260)]) =
      ⟨0, [0x80, 0x01, 0x05, 0x90, 0x00]⟩ ∧
    (transmitAPDUwithCTAPI (scripted [⟨0, [0x80, 0x01, 0x05, 0x90, 0x00]⟩]) 1 1 1
      0x20 0x13 0x01 0x80 0 none 0 (some 0) 260 emptyWorld).ret = Ret.value 3 ∧
    (transmitAPDUwithCTAPI (scripted [⟨0, [0x80, 0x01, 0x05, 0x90, 0x00]⟩]) 1 1 1
      0x20 0x13 0x01 0x80 0 none 0 (some 0) 260 emptyWorld).world.sw = 0x9000 :=
  have h := C4_final_response (scripted [⟨0, [0x80, 0x01, 0x05, 0x90, 0x00]⟩]) 0 1 1
    0x20 0x13 0x01 0x80 0 none 0 0 260 emptyWorld 0 [0x80, 0x01, 0x05, 0x90, 0x00]
    (by decide) (by decide) (by decide) (by decide) (by decide) (by decide) (by decide)
    (by decide)
  ⟨by decide, h.1, h.2.2⟩

/-- C5, as the code has it: a first response of `n >= 2` bytes with a final
status whose payload is longer than the buffer (`n - 2 > InSize >= 0`): only
the first `InSize` bytes are copied, nothing outside the buffer is written,
and the value returned is the truncated count `InSize`. -/
theorem C5_truncated_response (drv : Driver) (fuel : Nat)
    (id todad CLA INS P1 P2 : Nat) (OutLen : Int) (OutData : Option (List Nat))
    (InLen : Int) (p : Nat) (InSize : Int) (w : World) (rc : Int) (resp : List Nat)
    (hdrv : drv (w.trace ++ [dataCall id todad
      (buildCommand CLA INS P1 P2 OutLen OutData InLen (some p) InSize)]) = ⟨rc, resp⟩)
    (hrc : 0 ≤ rc) (hn : 2 ≤ resp.length)
    (h6C : resp.getD (resp.length - 2) 0 ≠ 0x6C)
    (h9F : resp.getD (resp.length - 2) 0 ≠ 0x9F)
    (h61 : resp.getD (resp.length - 2) 0 ≠ 0x61)
    (hsize : 0 ≤ InSize) (hlong : (resp.length : Int) - 2 > InSize) :
    (transmitAPDUwithCTAPI drv (fuel + 1) id todad CLA INS P1 P2 OutLen OutData InLen
      (some p) InSize w).ret = Ret.value InSize ∧
    (∀ i, i < InSize.toNat →
      resp[i]? = some ((transmitAPDUwithCTAPI drv (fuel + 1) id todad CLA INS P1 P2 OutLen
        OutData InLen (some p) InSize w).world.mem (p + i))) ∧
    (∀ j, ¬ (p ≤ j ∧ j < p + InSize.toNat) →
      (transmitAPDUwithCTAPI drv (fuel + 1) id todad CLA INS P1 P2 OutLen
        OutData InLen (some p) InSize w).world.mem j = w.mem j) := by
  rw [transmitAPDUwithCTAPI, retryLoop_answered drv _ id todad CLA INS P1 P2 OutLen OutData
    (some p) InSize 1 InLen w rc resp hdrv hrc hn h6C,
    processResponse_final _ _ _ _ _ _ _ (Or.inr (by rw [clampLen_truncated _ _ hlong]; omega))
      h9F h61,
    clampLen_truncated _ _ hlong]
  refine ⟨rfl, ?_, ?_⟩
  · intro i hi
    show resp[i]? = some (memcpy w.mem p resp InSize.toNat (p + i))
    rw [memcpy_inside _ _ _ _ _ hi, getD_eq_getElem? _ _ (by omega)]
  · intro j hj
    show memcpy w.mem p resp InSize.toNat j = w.mem j
    exact memcpy_outside _ _ _ _ _ hj

/-- C5 on three payload bytes received into a buffer of two. -/
theorem C5_truncated_response_witness :
    (0 ≤ (2 : Int)) ∧ (([1, 2, 3, 0x90, 0x00] : List Nat).length : Int) - 2 > 2 ∧
    (transmitAPDUwithCTAPI (scripted [⟨0, [1, 2, 3, 0x90, 0x00]⟩]) 1 1 0
      0x00 0xB0 0x00 0x00 0 none 3 (some 0) 2 emptyWorld).ret = Ret.value 2 :=
  ⟨by decide, by decide,
    (C5_truncated_response (scripted [⟨0, [1, 2, 3, 0x90, 0x00]⟩]) 0 1 0
      0x00 0xB0 0x00 0x00 0 none 3 0 2 emptyWorld 0 [1, 2, 3, 0x90, 0x00]
      (by decide) (by decide) (by decide) (by decide) (by decide) (by decide) (by decide)
      (by decide)).1⟩

/-- C5, as the claim states it, fails: a response with three payload bytes
received into a buffer of two bytes returns `2`, not the length `3`. -/
theorem C5_counterexample :
    (([1, 2, 3, 0x90, 0x00] : List Nat).length : Int) - 2 > 2 ∧
    (transmitAPDUwithCTAPI (scripted [⟨0, [1, 2, 3, 0x90, 0x00]⟩]) 1 1 0
      0x00 0xB0 0x00 0x00 0 none 3 (some 0) 2 emptyWorld).ret = Ret.value 2 ∧
    (transmitAPDUwithCTAPI (scripted [⟨0, [1, 2, 3, 0x90, 0x00]⟩]) 1 1 0
      0x00 0xB0 0x00 0x00 0 none 3 (some 0) 2 emptyWorld).ret ≠
      Ret.value ((([1, 2, 3, 0x90, 0x00] : List Nat).length : Int) - 2) := by
  decide

/-- C6 at the failing input: the first response `AA BB 61 05` announces five
more bytes, and the GET RESPONSE sent asks for `0xBB` bytes, the second byte of
the response, not for `0x05`. -/
theorem C6_get_response_length_failing_input :
    (transmitAPDUwithCTAPI
      (scripted [⟨0, [0xAA, 0xBB, 0x61, 0x05]⟩, ⟨0, [1, 2, 3, 4, 5, 0x90, 0x00]⟩]) 2 1 0
      0x00 0xB0 0x00 0x00 0 none 0 (some 0) 32 emptyWorld).world.trace[1]? =
      some (DriverCall.data 1 0 2 [0x00, 0xC0, 0x00, 0x00, 0xBB]) ∧
    (transmitAPDUwithCTAPI
      (scripted [⟨0, [0xAA, 0xBB, 0x61, 0x05]⟩, ⟨0, [1, 2, 3, 4, 5, 0x90, 0x00]⟩]) 2 1 0
      0x00 0xB0 0x00 0x00 0 none 0 (some 0) 32 emptyWorld).world.trace[1]? ≠
      some (DriverCall.data 1 0 2 [0x00, 0xC0, 0x00, 0x00, 0x05]) := by
  decide

/-- C7: a first response with `k` payload bytes and status `9F xx` or `61 xx`,
followed by a GET RESPONSE exchange that succeeds with `r` payload bytes and a
final status, `k + r <= InSize`: the call returns `k + r`, the buffer holds
the `k` bytes at offsets `0 .. k-1` and the `r` bytes at offsets
`k .. k+r-1`, and the status word is that of the GET RESPONSE exchange. -/
theorem C7_chained_response (drv : Driver) (fuel : Nat)
    (id todad CLA INS P1 P2 : Nat) (OutLen : Int) (OutData : Option (List Nat))
    (InLen : Int) (p : Nat) (InSize : Int) (w : World)
    (rc1 : Int) (resp1 : List Nat) (rc2 : Int) (resp2 : List Nat) (k r : Nat)
    (hdrv1 : drv (w.trace ++ [dataCall id todad
      (buildCommand CLA INS P1 P2 OutLen OutData InLen (some p) InSize)]) = ⟨rc1, resp1⟩)
    (hrc1 : 0 ≤ rc1) (hk : resp1.length = k + 2)
    (hsw1 : resp1.getD (resp1.length - 2) 0 = 0x9F ∨ resp1.getD (resp1.length - 2) 0 = 0x61)
    (hsz : InSize ≠ 0)
    (hdrv2 : drv (w.trace ++ [dataCall id todad
        (buildCommand CLA INS P1 P2 OutLen OutData InLen (some p) InSize),
      dataCall id 0 (buildCommand (getResponseCLA CLA) 0xC0 0 0 0 none
        (resp1.getD 1 0 : Nat) (some (p + k)) (InSize - k))]) = ⟨rc2, resp2⟩)
    (hrc2 : 0 ≤ rc2) (hr : resp2.length = r + 2) (hbytes : ∀ b ∈ resp2, b < 256)
    (h6C : resp2.getD (resp2.length - 2) 0 ≠ 0x6C)
    (h9F : resp2.getD (resp2.length - 2) 0 ≠ 0x9F)
    (h61 : resp2.getD (resp2.length - 2) 0 ≠ 0x61)
    (hfit : (k : Int) + r ≤ InSize) :
    (transmitAPDUwithCTAPI drv (fuel + 2) id todad CLA INS P1 P2 OutLen OutData InLen
      (some p) InSize w).ret = Ret.value ((k : Int) + r) ∧
    (∀ i, i < k →
      resp1[i]? = some ((transmitAPDUwithCTAPI drv (fuel + 2) id todad CLA INS P1 P2 OutLen
        OutData InLen (some p) InSize w).world.mem (p + i))) ∧
    (∀ j, j < r →
      resp2[j]? = some ((transmitAPDUwithCTAPI drv (fuel + 2) id todad CLA INS P1 P2 OutLen
        OutData InLen (some p) InSize w).world.mem (p + k + j))) ∧
    (transmitAPDUwithCTAPI drv (fuel + 2) id todad CLA INS P1 P2 OutLen OutData InLen
      (some p) InSize w).world.sw =
      256 * resp2.getD (resp2.length - 2) 0 + resp2.getD (resp2.length - 1) 0 := by
  have hc1 : clampLen resp1.length InSize = (k : Int) := by
    rw [clampLen_fits _ _ (by omega)]; omega
  have hc2 : clampLen resp2.length (InSize - k) = (r : Int) := by
    rw [clampLen_fits _ _ (by omega)]; omega
  rw [transmit_chained drv (fuel + 1) id todad CLA INS P1 P2 OutLen OutData InLen p InSize w
    rc1 resp1 hdrv1 hrc1 (by omega) hsw1 (by omega) hsz, hc1, Int.toNat_ofNat, transmitAPDU,
    transmit_final drv fuel id 0 (getResponseCLA CLA) 0xC0 0 0 0 none _ _ _ _ rc2 resp2
      (by simpa using hdrv2) hrc2 (by omega) h6C h9F h61 (by omega), hc2,
    afterGetResponse_value _ _ _ _ (by omega)]
  refine ⟨rfl, ?_, ?_, ?_⟩
  · intro i hi
    show resp1[i]? = some (memcpy (memcpy w.mem p resp1 k) (p + k) resp2 (r : Int).toNat (p + i))
    rw [memcpy_outside _ _ _ _ _ (by omega), memcpy_inside _ _ _ _ _ hi,
      getD_eq_getElem? _ _ (by omega)]
  · intro j hj
    show resp2[j]? = some (memcpy (memcpy w.mem p resp1 k) (p + k) resp2 (r : Int).toNat
      (p + k + j))
    rw [memcpy_inside _ _ _ _ _ (by simpa using hj), getD_eq_getElem? _ _ (by omega)]
  · show (resp2.getD (resp2.length - 2) 0 * 256 + resp2.getD (resp2.length - 1) 0) % 65536 = _
    exact statusWord_of_bytes _ _ (statusByte_lt _ hbytes _ (by omega))
      (statusByte_lt _ hbytes _ (by omega))

/-- C7 on two bytes with `61 03` followed by three bytes with `90 00`. -/
theorem C7_chained_response_witness :
    (transmitAPDUwithCTAPI (scripted [⟨0, [1, 2, 0x61, 0x03]⟩, ⟨0, [7, 8, 9, 0x90, 0x00]⟩]) 2 1 0
      0x00 0xB0 0x00 0x00 0 none 0 (some 0) 32 emptyWorld).ret = Ret.value ((2 : Nat) + (3 : Nat)) ∧
    (transmitAPDUwithCTAPI (scripted [⟨0, [1, 2, 0x61, 0x03]⟩, ⟨0, [7, 8, 9, 0x90, 0x00]⟩]) 2 1 0
      0x00 0xB0 0x00 0x00 0 none 0 (some 0) 32 emptyWorld).world.sw = 0x9000 :=
  have h := C7_chained_response
    (scripted [⟨0, [1, 2, 0x61, 0x03]⟩, ⟨0, [7, 8, 9, 0x90, 0x00]⟩]) 0 1 0
    0x00 0xB0 0x00 0x00 0 none 0 0 32 emptyWorld 0 [1, 2, 0x61, 0x03] 0 [7, 8, 9, 0x90, 0x00] 2 3
    (by decide) (by decide) (by decide) (by decide) (by decide) (by decide) (by decide)
    (by decide) (by decide) (by decide) (by decide) (by decide) (by decide)
  ⟨h.1, h.2.2.2⟩

/-- C8: a first response with status `9F xx` or `61 xx` when the caller gave no
receive buffer (`InData` null or `InSize = 0`): no further command is sent,
the status word is set to `0x9000` and the value returned is a count, not an
error. -/
theorem C8_declined_response (drv : Driver) (fuel : Nat)
    (id todad CLA INS P1 P2 : Nat) (OutLen : Int) (OutData : Option (List Nat))
    (InLen : Int) (InData : Option Nat) (InSize : Int) (w : World) (rc : Int) (resp : List Nat)
    (hdrv : drv (w.trace ++ [dataCall id todad
      (buildCommand CLA INS P1 P2 OutLen OutData InLen InData InSize)]) = ⟨rc, resp⟩)
    (hrc : 0 ≤ rc) (hn : 2 ≤ resp.length)
    (hsw : resp.getD (resp.length - 2) 0 = 0x9F ∨ resp.getD (resp.length - 2) 0 = 0x61)
    (hno : InData = none ∨ InSize = 0) (hsize : 0 ≤ InSize) :
    (transmitAPDUwithCTAPI drv (fuel + 1) id todad CLA INS P1 P2 OutLen OutData InLen
      InData InSize w).world.trace =
      w.trace ++ [dataCall id todad
        (buildCommand CLA INS P1 P2 OutLen OutData InLen InData InSize)] ∧
    (transmitAPDUwithCTAPI drv (fuel + 1) id todad CLA INS P1 P2 OutLen OutData InLen
      InData InSize w).world.sw = 0x9000 ∧
    (transmitAPDUwithCTAPI drv (fuel + 1) id todad CLA INS P1 P2 OutLen OutData InLen
      InData InSize w).ret = Ret.value (clampLen resp.length InSize) ∧
    0 ≤ clampLen resp.length InSize := by
  have hnn := clampLen_nonneg resp.length InSize hn hsize
  have h6C : resp.getD (resp.length - 2) 0 ≠ 0x6C := by
    rcases hsw with h | h <;> rw [h] <;> decide
  rw [transmitAPDUwithCTAPI, retryLoop_answered drv _ id todad CLA INS P1 P2 OutLen OutData
    InData InSize 1 InLen w rc resp hdrv hrc hn h6C,
    processResponse_declined _ _ _ _ _ _ _ (Or.inr hnn) hsw hno]
  exact ⟨by simp [copyIn_trace], rfl, rfl, hnn⟩

/-- C8 on a VERIFY command without receive buffer answered `61 10`. -/
theorem C8_declined_response_witness :
    (transmitAPDUwithCTAPI (scripted [⟨0, [0x61, 0x10]⟩, ⟨0, [0x90, 0x00]⟩]) 1 1 0
      0x00 0x20 0x00 0x81 2 (some [0x31, 0x32]) 0 none 0 emptyWorld).world.trace =
      [DriverCall.data 1 0 2 [0x00, 0x20, 0x00, 0x81, 2, 0x31, 0x32]] ∧
    (transmitAPDUwithCTAPI (scripted [⟨0, [0x61, 0x10]⟩, ⟨0, [0x90, 0x00]⟩]) 1 1 0
      0x00 0x20 0x00 0x81 2 (some [0x31, 0x32]) 0 none 0 emptyWorld).world.sw = 0x9000 ∧
    (transmitAPDUwithCTAPI (scripted [⟨0, [0x61, 0x10]⟩, ⟨0, [0x90, 0x00]⟩]) 1 1 0
      0x00 0x20 0x00 0x81 2 (some [0x31, 0x32]) 0 none 0 emptyWorld).ret = Ret.value 0 :=
  have h := C8_declined_response (scripted [⟨0, [0x61, 0x10]⟩, ⟨0, [0x90, 0x00]⟩]) 0 1 0
    0x00 0x20 0x00 0x81 2 (some [0x31, 0x32]) 0 none 0 emptyWorld 0 [0x61, 0x10]
    (by decide) (by decide) (by decide) (by decide) (by decide) (by decide)
  ⟨h.1, h.2.1, h.2.2.1⟩

/-- C9 at the failing input: the first exchange is answered `61 05` with code
`0`, the `CT_data` call of the chained GET RESPONSE returns `-8`, and
`transmitAPDU` returns `0`, the code of the first exchange. -/
theorem C9_get_response_failure_failing_input :
    (scripted [⟨0, [0x61, 0x05]⟩, ⟨-8, []⟩]
      [DriverCall.data 1 0 2 [0x00, 0xB0, 0x00, 0x00, 0x00],
        DriverCall.data 1 0 2 [0x00, 0xC0, 0x00, 0x00, 0x05]]).rc = -8 ∧
    (transmitAPDU (scripted [⟨0, [0x61, 0x05]⟩, ⟨-8, []⟩]) 2 1
      0x00 0xB0 0x00 0x00 0 none 0 (some 0) 32 emptyWorld).world.trace =
      [DriverCall.data 1 0 2 [0x00, 0xB0, 0x00, 0x00, 0x00],
        DriverCall.data 1 0 2 [0x00, 0xC0, 0x00, 0x00, 0x05]] ∧
    (transmitAPDU (scripted [⟨0, [0x61, 0x05]⟩, ⟨-8, []⟩]) 2 1
      0x00 0xB0 0x00 0x00 0 none 0 (some 0) 32 emptyWorld).ret = Ret.value 0 := by
  decide

/-- C10, as the code has it: on an open slot, when a `CT_data` call of the
status query - the first attempt, or the retry after a `6C xx` status -
returns `ERR_CT`, `getToken` leaves the slot closed with no token attached and
`CKF_TOKEN_PRESENT` clear, stores a null token and returns an error:
`CKR_GENERAL_ERROR` when a token was attached, `CKR_DEVICE_ERROR` otherwise. -/
theorem C10_channel_lost (drv : Driver) (newToken : NewTokenFn) (fuel : Nat)
    (rsp0 : Nat → Nat) (sw0 : Nat) (slot : p11Slot_t) (trace : List DriverCall)
    (hopen : slot.closed = false)
    (hflag : slot.token = none → slot.flags &&& CKF_TOKEN_PRESENT = 0)
    (hfail :
      (drv (trace ++ [dataCall slot.id 1
        (buildCommand 0x20 0x13 0x01 0x80 0 none 0 (some 0) 260)])).rc = ERR_CT ∨
      ∃ rc1 resp1,
        drv (trace ++ [dataCall slot.id 1
          (buildCommand 0x20 0x13 0x01 0x80 0 none 0 (some 0) 260)]) = ⟨rc1, resp1⟩ ∧
        0 ≤ rc1 ∧ 2 ≤ resp1.length ∧ resp1.getD (resp1.length - 2) 0 = 0x6C ∧
        (drv (trace ++ [dataCall slot.id 1
            (buildCommand 0x20 0x13 0x01 0x80 0 none 0 (some 0) 260),
          dataCall slot.id 1 (buildCommand 0x20 0x13 0x01 0x80 0 none
            (resp1.getD (resp1.length - 1) 0 : Nat) (some 0) 260)])).rc = ERR_CT) :
    (getToken drv newToken (fuel + 1) rsp0 sw0 slot trace).slot.closed = true ∧
    (getToken drv newToken (fuel + 1) rsp0 sw0 slot trace).slot.token = none ∧
    (getToken drv newToken (fuel + 1) rsp0 sw0 slot trace).slot.flags &&& CKF_TOKEN_PRESENT = 0 ∧
    (getToken drv newToken (fuel + 1) rsp0 sw0 slot trace).token = none ∧
    (getToken drv newToken (fuel + 1) rsp0 sw0 slot trace).ret =
      Ret.value (if slot.token.isSome then CKR_GENERAL_ERROR else CKR_DEVICE_ERROR) ∧
    (getToken drv newToken (fuel + 1) rsp0 sw0 slot trace).ret ≠ Ret.value CKR_OK := by
  have hret : (transmitAPDUwithCTAPI drv (fuel + 1) slot.id 1 0x20 0x13 0x01 0x80 0 none 0
      (some 0) 260 ⟨trace, rsp0, sw0⟩).ret = Ret.value ERR_CT := by
    exact transmit_ERR_CT drv fuel slot.id 1 0x20 0x13 0x01 0x80 0 none 0 (some 0) 260
      ⟨trace, rsp0, sw0⟩ hfail
  obtain ⟨a, b, c, d, e⟩ := getToken_of_ERR_CT drv newToken (fuel + 1) rsp0 sw0 slot trace
    hopen hflag hret
  refine ⟨a, b, c, d, e, ?_⟩
  rw [e]
  cases slot.token
  · decide
  · simp only [Option.isSome_some, if_true]
    decide

/-- C10 on a slot with a token whose status query returns `ERR_CT`. -/
theorem C10_channel_lost_witness :
    (getToken (scripted [⟨ERR_CT, []⟩]) tokenSeven 1 (fun _ => 0) 0
      ⟨1, false, 7, some ⟨3⟩⟩ []).slot = ⟨1, true, 6, none⟩ ∧
    (getToken (scripted [⟨ERR_CT, []⟩]) tokenSeven 1 (fun _ => 0) 0
      ⟨1, false, 7, some ⟨3⟩⟩ []).token = none ∧
    (getToken (scripted [⟨ERR_CT, []⟩]) tokenSeven 1 (fun _ => 0) 0
      ⟨1, false, 7, some ⟨3⟩⟩ []).ret = Ret.value CKR_GENERAL_ERROR :=
  have h := C10_channel_lost (scripted [⟨ERR_CT, []⟩]) tokenSeven 0 (fun _ => 0) 0
    ⟨1, false, 7, some ⟨3⟩⟩ [] rfl (by decide) (Or.inl (by decide))
  ⟨by decide, h.2.2.2.1, h.2.2.2.2.1⟩

/-- C10, as the claim states it, fails: when `CT_data` returns the negative
code `-10` for the status query of an open slot with a token, `getToken`
returns an error but the slot stays open with its token attached. -/
theorem C10_counterexample :
    (scripted [⟨-10, []⟩] [DriverCall.data 1 1 2 [0x20, 0x13, 0x01, 0x80, 0x00]]).rc < 0 ∧
    (getToken (scripted [⟨-10, []⟩]) tokenSeven 1 (fun _ => 0) 0
      ⟨1, false, 7, some ⟨3⟩⟩ []).trace = [DriverCall.data 1 1 2 [0x20, 0x13, 0x01, 0x80, 0x00]] ∧
    (getToken (scripted [⟨-10, []⟩]) tokenSeven 1 (fun _ => 0) 0
      ⟨1, false, 7, some ⟨3⟩⟩ []).ret = Ret.value CKR_GENERAL_ERROR ∧
    (getToken (scripted [⟨-10, []⟩]) tokenSeven 1 (fun _ => 0) 0
      ⟨1, false, 7, some ⟨3⟩⟩ []).slot = ⟨1, false, 7, some ⟨3⟩⟩ ∧
    (getToken (scripted [⟨-10, []⟩]) tokenSeven 1 (fun _ => 0) 0
      ⟨1, false, 7, some ⟨3⟩⟩ []).token = some ⟨3⟩ := by
  decide

/-! ## `getToken` by the outcome of the status query -/

theorem not_ERR_CT_of_valid (sw : Nat) (rc : Int) (rsp : Nat → Nat)
    (h : ¬ invalidStatus sw rc rsp) : 0 ≤ rc ∧ rc ≠ ERR_CT := by
  unfold invalidStatus at h
  unfold ERR_CT
  omega

theorem setMask_and (f m : Nat) : (f ||| m) &&& m = m := by
  apply Nat.eq_of_testBit_eq
  intro i
  rw [Nat.testBit_and, Nat.testBit_or]
  cases f.testBit i <;> cases m.testBit i <;> rfl

/-! ## Counts and writes stay within the receive buffer -/

theorem clampLen_le (n : Nat) (InSize : Int) : clampLen n InSize ≤ InSize := by
  unfold clampLen; split_ifs <;> omega

theorem copyIn_mem_outside (InData : Option Nat) (scr : List Nat) (rv : Int) (w : World)
    (InSize : Int) (hrv : rv ≤ InSize) (j : Nat)
    (hj : ∀ p, InData = some p → ¬ (p ≤ j ∧ j < p + InSize.toNat)) :
    (copyIn InData scr rv w).mem j = w.mem j := by
  cases InData with
  | none => rfl
  | some p =>
    have := hj p rfl
    show memcpy w.mem p scr rv.toNat j = w.mem j
    exact memcpy_outside _ _ _ _ _ (by omega)

theorem processResponse_within (getResponse : TransmitFn) (CLA : Nat) (InData : Option Nat)
    (InSize : Int) (scr : List Nat) (w : World)
    (hg : ∀ cla ins p1 p2 outLen outData inLen inData inSize w1, 0 ≤ inSize →
      WithinBuffer inData inSize w1
        (getResponse cla ins p1 p2 outLen outData inLen inData inSize w1))
    (hsize : 0 ≤ InSize) (hn : 2 ≤ scr.length) :
    WithinBuffer InData InSize w (processResponse getResponse CLA InData InSize 0 scr w) := by
  have hnn := clampLen_nonneg scr.length InSize hn hsize
  have hle := clampLen_le scr.length InSize
  by_cases hsw : scr.getD (scr.length - 2) 0 = 0x9F ∨ scr.getD (scr.length - 2) 0 = 0x61
  · cases hD : InData with
    | none =>
      rw [processResponse_declined _ _ _ _ _ _ _ (Or.inl rfl) hsw (Or.inl rfl)]
      exact ⟨fun v hv _ => by cases hv; exact hle, by simp, fun j _ => rfl⟩
    | some p =>
      by_cases hz : InSize = 0
      · rw [processResponse_declined _ _ _ _ _ _ _ (Or.inr hnn) hsw (Or.inr hz)]
        refine ⟨fun v hv _ => by cases hv; exact hle, by simp, fun j hj => ?_⟩
        exact copyIn_mem_outside _ _ _ _ _ hle j hj
      · rw [processResponse_chained _ _ _ _ _ _ _ hnn hsw hz]
        obtain ⟨h1, h2, h3⟩ := hg (getResponseCLA CLA) 0xC0 0 0 0 none (scr.getD 1 0 : Nat)
          (some (p + (clampLen scr.length InSize).toNat)) (InSize - clampLen scr.length InSize)
          (copyIn (some p) scr (clampLen scr.length InSize) w) (by omega)
        generalize getResponse (getResponseCLA CLA) 0xC0 0 0 0 none (scr.getD 1 0 : Nat)
          (some (p + (clampLen scr.length InSize).toNat)) (InSize - clampLen scr.length InSize)
          (copyIn (some p) scr (clampLen scr.length InSize) w) = res at h1 h2 h3 ⊢
        have hframe : ∀ j, (∀ p', some p = some p' → ¬ (p' ≤ j ∧ j < p' + InSize.toNat)) →
            res.world.mem j = w.mem j := by
          intro j hj
          have hj' := hj p rfl
          rw [h3 j (by intro p' hp'; cases hp'; omega)]
          exact copyIn_mem_outside _ _ _ _ _ hle j hj
        obtain ⟨ret, wd⟩ := res
        cases ret with
        | value r =>
          by_cases hr : r < 0
          · rw [afterGetResponse_failed _ _ _ _ hr]
            exact ⟨fun v hv _ => by cases hv; exact hsize, by simp, hframe⟩
          · rw [afterGetResponse_value _ _ _ _ (by omega)]
            refine ⟨fun v hv _ => ?_, by simp, hframe⟩
            cases hv
            have := h1 r rfl (by omega)
            show clampLen scr.length InSize + r ≤ InSize
            omega
        | undefined => exact absurd rfl h2
        | outOfFuel =>
          exact ⟨fun v hv _ => (by simp [afterGetResponse] at hv), by simp [afterGetResponse],
            hframe⟩
  · rw [processResponse_final _ _ _ _ _ _ _ (Or.inr hnn) (fun h => hsw (Or.inl h))
      (fun h => hsw (Or.inr h))]
    refine ⟨fun v hv _ => by cases hv; exact hle, by simp, fun j hj => ?_⟩
    exact copyIn_mem_outside _ _ _ _ _ hle j hj

theorem retryLoop_within (drv : Driver) (hdrv : WellBehaved drv) (getResponse : TransmitFn)
    (hg : ∀ cla ins p1 p2 outLen outData inLen inData inSize w1, 0 ≤ inSize →
      WithinBuffer inData inSize w1
        (getResponse cla ins p1 p2 outLen outData inLen inData inSize w1))
    (id todad CLA INS P1 P2 : Nat) (OutLen : Int) (OutData : Option (List Nat))
    (InData : Option Nat) (InSize : Int) (hsize : 0 ≤ InSize) (retry : Nat) (InLen : Int)
    (w : World) :
    WithinBuffer InData InSize w
      (retryLoop drv getResponse id todad CLA INS P1 P2 OutLen OutData InData InSize
        retry InLen w) := by
  induction retry generalizing InLen w with
  | zero =>
    rw [retryLoop]
    exact ⟨fun v hv _ => by cases hv; exact hsize, by simp, fun j _ => rfl⟩
  | succ n ih =>
    by_cases hrc : (drv (w.trace ++ [dataCall id todad
        (buildCommand CLA INS P1 P2 OutLen OutData InLen InData InSize)])).rc < 0
    · rw [retryLoop_failed _ _ _ _ _ _ _ _ _ _ _ _ _ _ _ hrc]
      exact ⟨fun v hv h0 => by cases hv; omega, by simp, fun j _ => rfl⟩
    · obtain ⟨h0, hlen⟩ := hdrv _ (not_lt.mp hrc)
      by_cases h6C : (drv (w.trace ++ [dataCall id todad
          (buildCommand CLA INS P1 P2 OutLen OutData InLen InData InSize)])).resp.getD
          ((drv (w.trace ++ [dataCall id todad
            (buildCommand CLA INS P1 P2 OutLen OutData InLen InData InSize)])).resp.length - 2) 0
          = 0x6C
      · rw [retryLoop_wrongLength drv _ id todad CLA INS P1 P2 OutLen OutData InData InSize n
          InLen w _ _ rfl (not_lt.mp hrc) hlen h6C]
        exact ih _ _
      · rw [retryLoop_answered drv _ id todad CLA INS P1 P2 OutLen OutData InData InSize n
          InLen w _ _ rfl (not_lt.mp hrc) hlen h6C, h0]
        exact processResponse_within getResponse CLA InData InSize _ _ hg hsize hlen

theorem transmit_within (drv : Driver) (hdrv : WellBehaved drv) (fuel : Nat) :
    ∀ (id todad CLA INS P1 P2 : Nat) (OutLen : Int) (OutData : Option (List Nat))
      (InLen : Int) (InData : Option Nat) (InSize : Int) (w : World), 0 ≤ InSize →
      WithinBuffer InData InSize w
        (transmitAPDUwithCTAPI drv fuel id todad CLA INS P1 P2 OutLen OutData InLen
          InData InSize w) := by
  induction fuel with
  | zero =>
    intro id todad CLA INS P1 P2 OutLen OutData InLen InData InSize w _
    rw [transmitAPDUwithCTAPI]
    exact ⟨fun v hv _ => (by cases hv), by simp, fun j _ => rfl⟩
  | succ n ih =>
    intro id todad CLA INS P1 P2 OutLen OutData InLen InData InSize w hsize
    rw [transmitAPDUwithCTAPI]
    apply retryLoop_within drv hdrv _ _ _ _ _ _ _ _ _ _ _ _ hsize
    intro cla ins p1 p2 outLen outData inLen inData inSize w1 h
    exact ih _ _ _ _ _ _ _ _ _ _ _ _ h

/-- A driver for the example of C19: all its successful calls return `0` with
at least the two status bytes. -/
theorem scripted_two_wellBehaved :
    ∀ h : List DriverCall,
      0 ≤ (scripted [⟨0, [1, 2, 0x61, 0x03]⟩, ⟨0, [7, 8, 9, 0x90, 0x00]⟩] h).rc →
      (scripted [⟨0, [1, 2, 0x61, 0x03]⟩, ⟨0, [7, 8, 9, 0x90, 0x00]⟩] h).rc = 0 ∧
      2 ≤ (scripted [⟨0, [1, 2, 0x61, 0x03]⟩, ⟨0, [7, 8, 9, 0x90, 0x00]⟩] h).resp.length := by
  intro h
  unfold scripted
  generalize h.length - 1 = n
  match n with
  | 0 => decide
  | 1 => decide
  | n + 2 =>
    intro h0
    have h1 : (0 : Int) ≤ ERR_CT := h0
    exact absurd h1 (by decide)

/-! ## Chained GET RESPONSE: termination when every answer makes progress -/

theorem afterGetResponse_bounded (rc rv : Int) (res : Result) (k : Nat) (w : World)
    (h : Bounded k w res) : Bounded k w (afterGetResponse rc rv res) := by
  obtain ⟨h1, h2⟩ := h
  refine ⟨?_, by rw [afterGetResponse_world]; exact h2⟩
  obtain ⟨ret, wd⟩ := res
  cases ret with
  | value r =>
    unfold afterGetResponse
    simp only []
    split_ifs <;> simp
  | undefined => simp [afterGetResponse]
  | outOfFuel => exact absurd rfl h1

theorem processResponse_bounded (getResponse : TransmitFn) (CLA : Nat) (InData : Option Nat)
    (InSize rc : Int) (scr : List Nat) (w : World) (k : Nat)
    (hg : ∀ cla ins p1 p2 outLen outData inLen inData inSize w1, 0 ≤ inSize → inSize < InSize →
      w1.trace = w.trace →
      Bounded k w1 (getResponse cla ins p1 p2 outLen outData inLen inData inSize w1))
    (hprog : (scr.getD (scr.length - 2) 0 = 0x9F ∨ scr.getD (scr.length - 2) 0 = 0x61) →
      3 ≤ scr.length) :
    Bounded k w (processResponse getResponse CLA InData InSize rc scr w) := by
  unfold processResponse
  cases InData with
  | none =>
    simp only [Option.isSome_none, Bool.false_eq_true, false_and, if_false]
    split_ifs <;> exact ⟨by simp, by simp [copyIn_trace]⟩
  | some p =>
    simp only []
    split_ifs with h1 h2 h3
    · exact ⟨by simp, by simp⟩
    · have hlen := hprog h2
      have hle := clampLen_le scr.length InSize
      have hrv : 0 < clampLen scr.length InSize := by
        have h1' : ¬ clampLen scr.length InSize < 0 := fun h => h1 ⟨rfl, h⟩
        unfold clampLen at h1' ⊢
        split_ifs at h1' ⊢ <;> omega
      apply afterGetResponse_bounded
      have := hg (getResponseCLA CLA) 0xC0 0 0 0 none (scr.getD 1 0 : Nat)
        (some (p + (clampLen scr.length InSize).toNat)) (InSize - clampLen scr.length InSize)
        (copyIn (some p) scr (clampLen scr.length InSize) w) (by omega) (by omega)
        (copyIn_trace _ _ _ _)
      exact ⟨this.1, by have := this.2; rw [copyIn_trace] at this; exact this⟩
    · exact ⟨by simp, by simp [copyIn_trace]⟩
    · exact ⟨by simp, by simp [copyIn_trace]⟩

theorem retryLoop_bounded (drv : Driver) (hdrv : Progresses drv) (getResponse : TransmitFn)
    (id todad CLA INS P1 P2 : Nat) (OutLen : Int) (OutData : Option (List Nat))
    (InData : Option Nat) (InSize : Int) (k : Nat)
    (hg : ∀ cla ins p1 p2 outLen outData inLen inData inSize w1, 0 ≤ inSize → inSize < InSize →
      Bounded k w1 (getResponse cla ins p1 p2 outLen outData inLen inData inSize w1))
    (retry : Nat) (InLen : Int) (w : World) :
    Bounded (retry + k) w
      (retryLoop drv getResponse id todad CLA INS P1 P2 OutLen OutData InData InSize
        retry InLen w) := by
  induction retry generalizing InLen w with
  | zero =>
    rw [retryLoop]
    exact ⟨by simp, by simp⟩
  | succ n ih =>
    rw [retryLoop]
    simp only []
    split_ifs with h1 h2 h3
    · exact ⟨by simp, by simp; omega⟩
    · exact ⟨by simp, by simp; omega⟩
    · have := ih (↑((drv (w.trace ++ [dataCall id todad
          (buildCommand CLA INS P1 P2 OutLen OutData InLen InData InSize)])).resp.getD
          ((drv (w.trace ++ [dataCall id todad
            (buildCommand CLA INS P1 P2 OutLen OutData InLen InData InSize)])).resp.length - 1) 0))
        ⟨w.trace ++ [dataCall id todad
          (buildCommand CLA INS P1 P2 OutLen OutData InLen InData InSize)], w.mem, w.sw⟩
      refine ⟨this.1, ?_⟩
      have h := this.2
      simp only [List.length_append, List.length_singleton] at h
      omega
    · have := processResponse_bounded getResponse CLA InData InSize
        (drv (w.trace ++ [dataCall id todad
          (buildCommand CLA INS P1 P2 OutLen OutData InLen InData InSize)])).rc
        (drv (w.trace ++ [dataCall id todad
          (buildCommand CLA INS P1 P2 OutLen OutData InLen InData InSize)])).resp
        ⟨w.trace ++ [dataCall id todad
          (buildCommand CLA INS P1 P2 OutLen OutData InLen InData InSize)], w.mem, w.sw⟩ k
        (fun cla ins p1 p2 outLen outData inLen inData inSize w1 h0 hlt _ =>
          hg cla ins p1 p2 outLen outData inLen inData inSize w1 h0 hlt)
        (hdrv _ (not_lt.mp h1) (by omega))
      refine ⟨this.1, ?_⟩
      have h := this.2
      simp only [List.length_append, List.length_singleton] at h
      omega

theorem transmit_bounded (drv : Driver) (hdrv : Progresses drv) (n : Nat) :
    ∀ (fuel : Nat), n + 1 ≤ fuel →
    ∀ (id todad CLA INS P1 P2 : Nat) (OutLen : Int) (OutData : Option (List Nat))
      (InLen : Int) (InData : Option Nat) (InSize : Int) (w : World), InSize ≤ n →
      Bounded (2 * (n + 1)) w
        (transmitAPDUwithCTAPI drv fuel id todad CLA INS P1 P2 OutLen OutData InLen
          InData InSize w) := by
  induction n with
  | zero =>
    intro fuel hfuel id todad CLA INS P1 P2 OutLen OutData InLen InData InSize w hsize
    obtain ⟨f, rfl⟩ : ∃ f, fuel = f + 1 := ⟨fuel - 1, by omega⟩
    rw [transmitAPDUwithCTAPI]
    exact retryLoop_bounded drv hdrv _ id todad CLA INS P1 P2 OutLen OutData InData InSize 0
      (fun cla ins p1 p2 outLen outData inLen inData inSize w1 h0 hlt => by
        exfalso
        have : InSize ≤ 0 := by exact_mod_cast hsize
        omega) 2 InLen w
  | succ m ih =>
    intro fuel hfuel id todad CLA INS P1 P2 OutLen OutData InLen InData InSize w hsize
    obtain ⟨f, rfl⟩ : ∃ f, fuel = f + 1 := ⟨fuel - 1, by omega⟩
    rw [transmitAPDUwithCTAPI]
    have := retryLoop_bounded drv hdrv
      (fun cla ins p1 p2 outLen outData inLen inData inSize w1 =>
        transmitAPDUwithCTAPI drv f id 0 cla ins p1 p2 outLen outData inLen inData inSize w1)
      id todad CLA INS P1 P2 OutLen OutData InData InSize (2 * (m + 1))
      (fun cla ins p1 p2 outLen outData inLen inData inSize w1 h0 hlt =>
        ih f (by omega) id 0 cla ins p1 p2 outLen outData inLen inData inSize w1 (by
          have : InSize ≤ (m : Int) + 1 := by exact_mod_cast hsize
          omega)) 2 InLen w
    have h2 : 2 + 2 * (m + 1) = 2 * (m + 1 + 1) := by omega
    rw [h2] at this
    exact this

/-- With a driver that answers every call `61 05` without payload, a call with
a receive buffer chains GET RESPONSE for as long as the fuel lasts: one
exchange for each unit of fuel, and no result. -/
theorem chaining_unbounded (fuel : Nat) :
    ∀ (id todad CLA INS P1 P2 : Nat) (OutLen : Int) (OutData : Option (List Nat))
      (InLen : Int) (p : Nat) (InSize : Int) (w : World), 0 < InSize →
      (transmitAPDUwithCTAPI (constantDriver ⟨0, [0x61, 0x05]⟩) fuel id todad CLA INS P1 P2
        OutLen OutData InLen (some p) InSize w).ret = Ret.outOfFuel ∧
      (transmitAPDUwithCTAPI (constantDriver ⟨0, [0x61, 0x05]⟩) fuel id todad CLA INS P1 P2
        OutLen OutData InLen (some p) InSize w).world.trace.length = w.trace.length + fuel := by
  induction fuel with
  | zero =>
    intro id todad CLA INS P1 P2 OutLen OutData InLen p InSize w _
    rw [transmitAPDUwithCTAPI]
    exact ⟨rfl, rfl⟩
  | succ n ih =>
    intro id todad CLA INS P1 P2 OutLen OutData InLen p InSize w hsize
    have hc : clampLen ([0x61, 0x05] : List Nat).length InSize = 0 := by
      rw [clampLen_fits _ _ (by simp; omega)]; rfl
    rw [transmit_chained (constantDriver ⟨0, [0x61, 0x05]⟩) n id todad CLA INS P1 P2 OutLen
      OutData InLen p InSize w 0 [0x61, 0x05] rfl (le_refl 0) (by decide) (Or.inr (by decide))
      (by omega) (by omega), hc, transmitAPDU]
    obtain ⟨h1, h2⟩ := ih id 0 (getResponseCLA CLA) 0xC0 0 0 0 none
      ((([0x61, 0x05] : List Nat).getD 1 0 : Nat) : Int) (p + (0 : Int).toNat) (InSize - 0)
      ⟨w.trace ++ [dataCall id todad
        (buildCommand CLA INS P1 P2 OutLen OutData InLen (some p) InSize)],
        memcpy w.mem p [0x61, 0x05] (0 : Int).toNat, w.sw⟩ (by omega)
    refine ⟨?_, ?_⟩
    · unfold afterGetResponse
      rw [h1]
    · rw [afterGetResponse_world, h2]
      simp only [List.length_append, List.length_singleton]
      omega

/-- The driver of the example of C16 answers with payload whenever it
announces more data. -/
theorem scripted_three_progresses :
    ∀ h : List DriverCall,
      0 ≤ (scripted [⟨0, [1, 0x61, 0x05]⟩, ⟨0, [2, 0x61, 0x05]⟩, ⟨0, [3, 0x90, 0x00]⟩] h).rc →
      2 ≤ (scripted [⟨0, [1, 0x61, 0x05]⟩, ⟨0, [2, 0x61, 0x05]⟩,
        ⟨0, [3, 0x90, 0x00]⟩] h).resp.length →
      ((scripted [⟨0, [1, 0x61, 0x05]⟩, ⟨0, [2, 0x61, 0x05]⟩, ⟨0, [3, 0x90, 0x00]⟩] h).resp.getD
          ((scripted [⟨0, [1, 0x61, 0x05]⟩, ⟨0, [2, 0x61, 0x05]⟩,
            ⟨0, [3, 0x90, 0x00]⟩] h).resp.length - 2) 0 = 0x9F ∨
        (scripted [⟨0, [1, 0x61, 0x05]⟩, ⟨0, [2, 0x61, 0x05]⟩, ⟨0, [3, 0x90, 0x00]⟩] h).resp.getD
          ((scripted [⟨0, [1, 0x61, 0x05]⟩, ⟨0, [2, 0x61, 0x05]⟩,
            ⟨0, [3, 0x90, 0x00]⟩] h).resp.length - 2) 0 = 0x61) →
      3 ≤ (scripted [⟨0, [1, 0x61, 0x05]⟩, ⟨0, [2, 0x61, 0x05]⟩,
        ⟨0, [3, 0x90, 0x00]⟩] h).resp.length := by
  intro h
  unfold scripted
  generalize h.length - 1 = n
  match n with
  | 0 => decide
  | 1 => decide
  | 2 => decide
  | n + 3 =>
    intro h0
    have h1 : (0 : Int) ≤ ERR_CT := h0
    exact absurd h1 (by decide)

/-! ## Chained GET RESPONSE: the exchanges of one level -/

/-- The call that meets a status `6C xx`, repeats the command and then meets a
status `9F xx` or `61 xx` with a buffer at hand continues with the nested GET
RESPONSE call. -/
theorem transmit_chained_retry (drv : Driver) (fuel : Nat)
    (id todad CLA INS P1 P2 : Nat) (OutLen : Int) (OutData : Option (List Nat))
    (InLen : Int) (p : Nat) (InSize : Int) (w : World)
    (rc1 : Int) (resp1 : List Nat) (rc : Int) (resp : List Nat)
    (hdrv1 : drv (w.trace ++ [dataCall id todad
      (buildCommand CLA INS P1 P2 OutLen OutData InLen (some p) InSize)]) = ⟨rc1, resp1⟩)
    (hrc1 : 0 ≤ rc1) (hn1 : 2 ≤ resp1.length)
    (h6C1 : resp1.getD (resp1.length - 2) 0 = 0x6C)
    (hdrv : drv (w.trace ++ [dataCall id todad
        (buildCommand CLA INS P1 P2 OutLen OutData InLen (some p) InSize),
      dataCall id todad (buildCommand CLA INS P1 P2 OutLen OutData
        (resp1.getD (resp1.length - 1) 0 : Nat) (some p) InSize)]) = ⟨rc, resp⟩)
    (hrc : 0 ≤ rc) (hn : 2 ≤ resp.length)
    (hsw : resp.getD (resp.length - 2) 0 = 0x9F ∨ resp.getD (resp.length - 2) 0 = 0x61)
    (hsize : 0 ≤ InSize) (hsz : InSize ≠ 0) :
    transmitAPDUwithCTAPI drv (fuel + 1) id todad CLA INS P1 P2 OutLen OutData InLen
      (some p) InSize w =
    afterGetResponse rc (clampLen resp.length InSize)
      (transmitAPDU drv fuel id (getResponseCLA CLA) 0xC0 0 0 0 none (resp.getD 1 0 : Nat)
        (some (p + (clampLen resp.length InSize).toNat)) (InSize - clampLen resp.length InSize)
        ⟨w.trace ++ [dataCall id todad
            (buildCommand CLA INS P1 P2 OutLen OutData InLen (some p) InSize),
          dataCall id todad (buildCommand CLA INS P1 P2 OutLen OutData
            (resp1.getD (resp1.length - 1) 0 : Nat) (some p) InSize)],
          memcpy w.mem p resp (clampLen resp.length InSize).toNat, w.sw⟩) := by
  have h6C : resp.getD (resp.length - 2) 0 ≠ 0x6C := by
    rcases hsw with h | h <;> rw [h] <;> decide
  rw [transmitAPDUwithCTAPI, retryLoop_wrongLength drv _ id todad CLA INS P1 P2 OutLen OutData
    (some p) InSize 1 InLen w rc1 resp1 hdrv1 hrc1 hn1 h6C1,
    retryLoop_answered drv _ id todad CLA INS P1 P2 OutLen OutData
    (some p) InSize 0 _ _ rc resp (by simpa using hdrv) hrc hn h6C,
    processResponse_chained _ _ _ _ _ _ _ (clampLen_nonneg _ _ hn hsize) hsw hsz]
  simp only [List.append_assoc, List.singleton_append]
  rfl

theorem processResponse_endsOrChains (getResponse : TransmitFn) (CLA : Nat)
    (InData : Option Nat) (InSize rc : Int) (scr : List Nat) (w : World) :
    EndsOrChains getResponse CLA w.trace
      (processResponse getResponse CLA InData InSize rc scr w) := by
  unfold processResponse
  cases InData with
  | none =>
    simp only [Option.isSome_none, Bool.false_eq_true, false_and, if_false]
    split_ifs <;> exact Or.inl (by simp [copyIn_trace])
  | some p =>
    simp only []
    split_ifs
    · exact Or.inl rfl
    · exact Or.inr ⟨rc, clampLen scr.length InSize, (scr.getD 1 0 : Nat),
        InSize - clampLen scr.length InSize, p + (clampLen scr.length InSize).toNat,
        copyIn (some p) scr (clampLen scr.length InSize) w, copyIn_trace _ _ _ _, rfl⟩
    · exact Or.inl (by simp [copyIn_trace])
    · exact Or.inl (by simp [copyIn_trace])

/-- One run of the loop of `transmitAPDUwithCTAPI` makes one or two exchanges
with the driver and then is over or hands on to the nested call. -/
theorem retryLoop_level (drv : Driver) (getResponse : TransmitFn)
    (id todad CLA INS P1 P2 : Nat) (OutLen : Int) (OutData : Option (List Nat))
    (InData : Option Nat) (InSize : Int) (InLen : Int) (w : World) :
    ∃ cmds : List DriverCall, 1 ≤ cmds.length ∧ cmds.length ≤ 2 ∧
      EndsOrChains getResponse CLA (w.trace ++ cmds)
        (retryLoop drv getResponse id todad CLA INS P1 P2 OutLen OutData InData InSize
          2 InLen w) := by
  rw [retryLoop]
  simp only []
  generalize dataCall id todad
    (buildCommand CLA INS P1 P2 OutLen OutData InLen InData InSize) = c1
  split_ifs with h1 h2 h3
  · exact ⟨[c1], by simp, by simp, Or.inl rfl⟩
  · exact ⟨[c1], by simp, by simp, Or.inl rfl⟩
  · rw [retryLoop]
    simp only []
    generalize dataCall id todad (buildCommand CLA INS P1 P2 OutLen OutData
      (↑((drv (w.trace ++ [c1])).resp.getD ((drv (w.trace ++ [c1])).resp.length - 1) 0))
      InData InSize) = c2
    split_ifs with h4 h5 h6
    · exact ⟨[c1, c2], by simp, by simp, Or.inl (by simp)⟩
    · exact ⟨[c1, c2], by simp, by simp, Or.inl (by simp)⟩
    · rw [retryLoop]
      exact ⟨[c1, c2], by simp, by simp, Or.inl (by simp)⟩
    · refine ⟨[c1, c2], by simp, by simp, ?_⟩
      have := processResponse_endsOrChains getResponse CLA InData InSize
        (drv (w.trace ++ [c1] ++ [c2])).rc (drv (w.trace ++ [c1] ++ [c2])).resp
        ⟨w.trace ++ [c1] ++ [c2], w.mem, w.sw⟩
      simpa using this
  · refine ⟨[c1], by simp, by simp, ?_⟩
    exact processResponse_endsOrChains getResponse CLA InData InSize _ _
      ⟨w.trace ++ [c1], w.mem, w.sw⟩

/-! ## Growth of the pool of the context -/

theorem initCalls_succ (next k : Nat) :
    initCalls next (k + 1) = initCall next :: initCalls (next + 1) k := by
  unfold initCalls
  rw [List.range_succ_eq_map, List.map_cons, List.map_map]
  simp only [Nat.add_zero, List.cons.injEq, true_and]
  apply List.map_congr_left
  intro i _
  simp only [Function.comp_apply]
  congr 1
  omega

theorem addedSlots_succ (next k : Nat) :
    addedSlots next (k + 1) = { newSlot with id := next } :: addedSlots (next + 1) k := by
  unfold addedSlots
  rw [List.range_succ_eq_map, List.map_cons, List.map_map]
  simp only [Nat.add_zero, List.cons.injEq, true_and]
  apply List.map_congr_left
  intro i _
  simp only [Function.comp_apply]
  congr 1
  omega

theorem initCalls_zero (next : Nat) : initCalls next 0 = [] := rfl

theorem initCalls_one (next : Nat) : initCalls next 1 = [initCall next] := by
  rw [initCalls_succ, initCalls_zero]

theorem addedSlots_zero (next : Nat) : addedSlots next 0 = [] := rfl

/-- What the growth loop does to the pool of the context when it is run on that
pool, in closed form: `j` rounds succeed and add `j` slots. -/
theorem growLoop_context (drv : Driver) (alloc : List DriverCall → Bool) (MAX_SLOTS : Nat)
    (fuel : Nat) :
    ∀ (ps : Pools) (t : List DriverCall), ps.context.numberOfSlots ≤ MAX_SLOTS →
      MAX_SLOTS - ps.context.numberOfSlots + 1 ≤ fuel →
      ∃ j : Nat,
        (growLoop drv alloc MAX_SLOTS PoolRef.context fuel ps t).pools.other = ps.other ∧
        (growLoop drv alloc MAX_SLOTS PoolRef.context fuel ps t).pools.context =
          ⟨ps.context.list ++ addedSlots ps.context.nextSlotID j,
            ps.context.numberOfSlots + j, ps.context.nextSlotID + j⟩ ∧
        ps.context.numberOfSlots + j ≤ MAX_SLOTS ∧
        (∀ i, i < j →
          (drv (t ++ initCalls ps.context.nextSlotID (i + 1))).rc = OK ∧
          alloc (t ++ initCalls ps.context.nextSlotID (i + 1)) = true) ∧
        ((ps.context.numberOfSlots + j = MAX_SLOTS ∧
            (growLoop drv alloc MAX_SLOTS PoolRef.context fuel ps t).trace =
              t ++ initCalls ps.context.nextSlotID j ∧
            (growLoop drv alloc MAX_SLOTS PoolRef.context fuel ps t).ret = Ret.value CKR_OK) ∨
          (ps.context.numberOfSlots + j < MAX_SLOTS ∧
            (drv (t ++ initCalls ps.context.nextSlotID (j + 1))).rc ≠ OK ∧
            (growLoop drv alloc MAX_SLOTS PoolRef.context fuel ps t).trace =
              t ++ initCalls ps.context.nextSlotID (j + 1) ∧
            (growLoop drv alloc MAX_SLOTS PoolRef.context fuel ps t).ret = Ret.value CKR_OK) ∨
          (ps.context.numberOfSlots + j < MAX_SLOTS ∧
            (drv (t ++ initCalls ps.context.nextSlotID (j + 1))).rc = OK ∧
            alloc (t ++ initCalls ps.context.nextSlotID (j + 1)) = false ∧
            (growLoop drv alloc MAX_SLOTS PoolRef.context fuel ps t).trace =
              t ++ initCalls ps.context.nextSlotID (j + 1) ∧
            (growLoop drv alloc MAX_SLOTS PoolRef.context fuel ps t).ret =
              Ret.value CKR_HOST_MEMORY)) := by
  induction fuel with
  | zero => intro ps t h1 h2; omega
  | succ f ih =>
    intro ps t h1 h2
    obtain ⟨ctx, oth⟩ := ps
    obtain ⟨list, n, next⟩ := ctx
    simp only [] at h1 h2 ⊢
    rw [growLoop]
    simp only [Pools.get]
    by_cases hlt : n < MAX_SLOTS
    · rw [if_pos hlt]
      by_cases hinit : (drv (t ++ [initCall next])).rc ≠ OK
      · rw [if_pos hinit]
        refine ⟨0, rfl, by simp [addedSlots_zero], by omega, by intro i hi; omega,
          Or.inr (Or.inl ?_)⟩
        exact ⟨by omega, by rw [initCalls_one]; exact hinit, by rw [initCalls_one], rfl⟩
      · rw [if_neg hinit]
        have hinit' : (drv (t ++ [initCall next])).rc = OK := not_not.mp hinit
        by_cases halloc : alloc (t ++ [initCall next]) = false
        · rw [if_pos halloc]
          refine ⟨0, rfl, by simp [addedSlots_zero], by omega, by intro i hi; omega,
            Or.inr (Or.inr ?_)⟩
          exact ⟨by omega, by rw [initCalls_one]; exact hinit',
            by rw [initCalls_one]; exact halloc, by rw [initCalls_one], rfl⟩
        · rw [if_neg halloc]
          have halloc' : alloc (t ++ [initCall next]) = true := by
            cases h : alloc (t ++ [initCall next]) with
            | false => exact absurd h halloc
            | true => rfl
          obtain ⟨j, hj1, hj2, hj3, hj4, hj5⟩ := ih
            (Pools.set ⟨⟨list, n, next⟩, oth⟩ PoolRef.context (addSlot ⟨list, n, next⟩ newSlot))
            (t ++ [initCall next]) (by simp [Pools.set, addSlot]; omega)
            (by simp [Pools.set, addSlot]; omega)
          simp only [Pools.set, addSlot] at hj1 hj2 hj3 hj4 hj5 ⊢
          have happ : ∀ k, t ++ [initCall next] ++ initCalls (next + 1) k =
              t ++ initCalls next (k + 1) := by
            intro k; rw [initCalls_succ]; simp
          simp only [happ] at hj4 hj5
          refine ⟨j + 1, hj1, ?_, by omega, ?_, ?_⟩
          · rw [hj2, addedSlots_succ]
            simp only [List.append_assoc, List.singleton_append, p11SlotPool_t.mk.injEq,
              true_and]
            constructor <;> omega
          · intro i hi
            cases i with
            | zero =>
              exact ⟨by rw [initCalls_one]; exact hinit', by rw [initCalls_one]; exact halloc'⟩
            | succ i => exact hj4 i (by omega)
          · have e1 : n + (j + 1) = n + 1 + j := by omega
            rw [e1]
            exact hj5
    · rw [if_neg hlt]
      refine ⟨0, rfl, by simp [addedSlots_zero], by omega, by intro i hi; omega, Or.inl ?_⟩
      exact ⟨by omega, by simp [initCalls_zero], rfl⟩

/-- One pass of `updateSlots` on the pool of the context, in closed form. -/
theorem updateSlots_context (drv : Driver) (alloc : List DriverCall → Bool) (MAX_SLOTS : Nat)
    (fuel : Nat) (ps : Pools) (t : List DriverCall)
    (h0 : ps.context.numberOfSlots ≤ MAX_SLOTS) (hfuel : MAX_SLOTS + 1 ≤ fuel) :
    ∃ j : Nat,
      (updateSlots drv alloc MAX_SLOTS fuel PoolRef.context ps t).pools.other = ps.other ∧
      (updateSlots drv alloc MAX_SLOTS fuel PoolRef.context ps t).pools.context =
        ⟨(reinitSlots drv ps.context.list t).1 ++ addedSlots ps.context.nextSlotID j,
          ps.context.numberOfSlots + j, ps.context.nextSlotID + j⟩ ∧
      ps.context.numberOfSlots + j ≤ MAX_SLOTS ∧
      (∀ i, i < j →
        (drv ((reinitSlots drv ps.context.list t).2 ++
          initCalls ps.context.nextSlotID (i + 1))).rc = OK ∧
        alloc ((reinitSlots drv ps.context.list t).2 ++
          initCalls ps.context.nextSlotID (i + 1)) = true) ∧
      ((ps.context.numberOfSlots + j = MAX_SLOTS ∧
          (updateSlots drv alloc MAX_SLOTS fuel PoolRef.context ps t).trace =
            (reinitSlots drv ps.context.list t).2 ++ initCalls ps.context.nextSlotID j ∧
          (updateSlots drv alloc MAX_SLOTS fuel PoolRef.context ps t).ret = Ret.value CKR_OK) ∨
        (ps.context.numberOfSlots + j < MAX_SLOTS ∧
          (drv ((reinitSlots drv ps.context.list t).2 ++
            initCalls ps.context.nextSlotID (j + 1))).rc ≠ OK ∧
          (updateSlots drv alloc MAX_SLOTS fuel PoolRef.context ps t).trace =
            (reinitSlots drv ps.context.list t).2 ++ initCalls ps.context.nextSlotID (j + 1) ∧
          (updateSlots drv alloc MAX_SLOTS fuel PoolRef.context ps t).ret = Ret.value CKR_OK) ∨
        (ps.context.numberOfSlots + j < MAX_SLOTS ∧
          (drv ((reinitSlots drv ps.context.list t).2 ++
            initCalls ps.context.nextSlotID (j + 1))).rc = OK ∧
          alloc ((reinitSlots drv ps.context.list t).2 ++
            initCalls ps.context.nextSlotID (j + 1)) = false ∧
          (updateSlots drv alloc MAX_SLOTS fuel PoolRef.context ps t).trace =
            (reinitSlots drv ps.context.list t).2 ++ initCalls ps.context.nextSlotID (j + 1) ∧
          (updateSlots drv alloc MAX_SLOTS fuel PoolRef.context ps t).ret =
            Ret.value CKR_HOST_MEMORY)) := by
  unfold updateSlots
  exact growLoop_context drv alloc MAX_SLOTS fuel
    (ps.set PoolRef.context
      { ps.get PoolRef.context with list := (reinitSlots drv (ps.get PoolRef.context).list t).1 })
    (reinitSlots drv (ps.get PoolRef.context).list t).2 h0 (by
      show MAX_SLOTS - ps.context.numberOfSlots + 1 ≤ fuel
      omega)

/-- The slot count of the context pool after any number of passes lies between
the count at the start and `MAX_SLOTS`. -/
theorem updatePasses_context (drv : Driver) (alloc : List DriverCall → Bool) (MAX_SLOTS : Nat)
    (fuel : Nat) (hfuel : MAX_SLOTS + 1 ≤ fuel) (k : Nat) :
    ∀ (ps : Pools) (t : List DriverCall), ps.context.numberOfSlots ≤ MAX_SLOTS →
      ps.context.numberOfSlots ≤
        (updatePasses drv alloc MAX_SLOTS fuel PoolRef.context k ps t).1.context.numberOfSlots ∧
      (updatePasses drv alloc MAX_SLOTS fuel PoolRef.context k ps t).1.context.numberOfSlots
        ≤ MAX_SLOTS := by
  induction k with
  | zero => intro ps t h0; exact ⟨le_refl _, h0⟩
  | succ k ih =>
    intro ps t h0
    obtain ⟨j, _, hj2, hj3, _, _⟩ := updateSlots_context drv alloc MAX_SLOTS fuel ps t h0 hfuel
    rw [updatePasses]
    have hn : (updateSlots drv alloc MAX_SLOTS fuel PoolRef.context ps t).pools.context.numberOfSlots
        = ps.context.numberOfSlots + j := by rw [hj2]
    obtain ⟨h1, h2⟩ := ih (updateSlots drv alloc MAX_SLOTS fuel PoolRef.context ps t).pools
      (updateSlots drv alloc MAX_SLOTS fuel PoolRef.context ps t).trace (by rw [hn]; exact hj3)
    exact ⟨by omega, h2⟩

/-! ## The slot invariant -/

theorem reinitSlot_token (drv : Driver) (s : p11Slot_t) (t : List DriverCall) :
    (reinitSlot drv s t).1.token = s.token ∧ (reinitSlot drv s t).1.flags = s.flags ∧
    ((reinitSlot drv s t).1.closed = true → s.closed = true) := by
  unfold reinitSlot
  split_ifs with h1 h2
  · exact ⟨rfl, rfl, fun _ => h1⟩
  · exact ⟨rfl, rfl, fun _ => h1⟩
  · exact ⟨rfl, rfl, fun h => h⟩

theorem reinitSlots_getElem? (drv : Driver) (l : List p11Slot_t) :
    ∀ (t : List DriverCall) (i : Nat) (s : p11Slot_t), l[i]? = some s →
      ∃ t1, (reinitSlots drv l t).1[i]? = some (reinitSlot drv s t1).1 := by
  induction l with
  | nil => intro t i s h; simp at h
  | cons a rest ih =>
    intro t i s h
    rw [reinitSlots]
    cases i with
    | zero =>
      simp only [List.getElem?_cons_zero, Option.some.injEq] at h
      subst h
      exact ⟨t, by simp⟩
    | succ i =>
      simp only [List.getElem?_cons_succ] at h
      obtain ⟨t1, h1⟩ := ih (reinitSlot drv a t).2 i s h
      exact ⟨t1, by simpa using h1⟩

theorem getElem?_of_prefix {α : Type} (l l1 : List α) (h : l <+: l1) (i : Nat) (a : α)
    (ha : l[i]? = some a) : l1[i]? = some a := by
  obtain ⟨r, rfl⟩ := h
  have hi : i < l.length := by
    by_contra hc
    rw [List.getElem?_eq_none (by omega)] at ha
    exact absurd ha (by simp)
  rw [List.getElem?_append_left hi]
  exact ha

/-- The growth loop leaves the other pool alone and only appends to the list of
the pool of the context. -/
theorem growLoop_frame (drv : Driver) (alloc : List DriverCall → Bool) (MAX_SLOTS : Nat)
    (pool : PoolRef) (fuel : Nat) :
    ∀ (ps : Pools) (t : List DriverCall),
      (growLoop drv alloc MAX_SLOTS pool fuel ps t).pools.other = ps.other ∧
      ps.context.list <+: (growLoop drv alloc MAX_SLOTS pool fuel ps t).pools.context.list := by
  induction fuel with
  | zero => intro ps t; exact ⟨rfl, List.prefix_refl _⟩
  | succ f ih =>
    intro ps t
    rw [growLoop]
    split_ifs
    · exact ⟨rfl, List.prefix_refl _⟩
    · exact ⟨rfl, List.prefix_refl _⟩
    · obtain ⟨h1, h2⟩ := ih (ps.set PoolRef.context (addSlot ps.context newSlot))
        (t ++ [initCall (ps.get pool).nextSlotID])
      exact ⟨h1, List.IsPrefix.trans (List.prefix_append _ _) h2⟩
    · exact ⟨rfl, List.prefix_refl _⟩

/-- What `updateSlots` does to a slot of a pool: the slot is as before or has
gone through the re-initialisation of lines 477-488. -/
theorem updateSlots_slot (drv : Driver) (alloc : List DriverCall → Bool) (MAX_SLOTS fuel : Nat)
    (pool holder : PoolRef) (ps : Pools) (t : List DriverCall) (i : Nat) (s s1 : p11Slot_t)
    (hin : (ps.get holder).list[i]? = some s)
    (hout : ((updateSlots drv alloc MAX_SLOTS fuel pool ps t).pools.get holder).list[i]? =
      some s1) :
    s1 = s ∨ ∃ t1, s1 = (reinitSlot drv s t1).1 := by
  unfold updateSlots at hout
  obtain ⟨hf1, hf2⟩ := growLoop_frame drv alloc MAX_SLOTS pool fuel
    (ps.set pool { ps.get pool with list := (reinitSlots drv (ps.get pool).list t).1 })
    (reinitSlots drv (ps.get pool).list t).2
  cases pool <;> cases holder <;> simp only [Pools.get, Pools.set] at hin hout hf1 hf2
  · obtain ⟨t1, h1⟩ := reinitSlots_getElem? drv ps.context.list t i s hin
    have := getElem?_of_prefix _ _ hf2 i _ h1
    rw [this] at hout
    exact Or.inr ⟨t1, (Option.some.inj hout).symm⟩
  · rw [hf1, hin] at hout
    exact Or.inl (Option.some.inj hout).symm
  · have := getElem?_of_prefix _ _ hf2 i _ hin
    rw [this] at hout
    exact Or.inl (Option.some.inj hout).symm
  · rw [hf1] at hout
    obtain ⟨t1, h1⟩ := reinitSlots_getElem? drv ps.other.list t i s hin
    rw [h1] at hout
    exact Or.inr ⟨t1, (Option.some.inj hout).symm⟩

/-- The slot `checkForNewToken` leaves: the slot as it was, the slot marked
closed, or the open slot with a token attached after an activation exchange
that returned a count with status `0x9001`. -/
theorem checkForNewToken_slot (drv : Driver) (newToken : NewTokenFn) (fuel : Nat)
    (rsp0 : Nat → Nat) (sw0 : Nat) (s : p11Slot_t) (trace : List DriverCall)
    (hnone : s.token = none) :
    (checkForNewToken drv newToken fuel rsp0 sw0 s trace).slot = s ∨
    (checkForNewToken drv newToken fuel rsp0 sw0 s trace).slot = { s with closed := true } ∨
    (s.closed = false ∧
      (∃ tok, (checkForNewToken drv newToken fuel rsp0 sw0 s trace).slot =
        { s with token := some tok, flags := s.flags ||| CKF_TOKEN_PRESENT }) ∧
      (requestICC drv fuel s (statusQuery drv fuel s trace rsp0 sw0)).world.sw = 0x9001 ∧
      ∃ rc2, 0 ≤ rc2 ∧
        (requestICC drv fuel s (statusQuery drv fuel s trace rsp0 sw0)).ret = Ret.value rc2) := by
  unfold requestICC statusQuery
  unfold checkForNewToken
  by_cases hc : s.closed = true
  · left; rw [if_pos hc]
  · rw [if_neg hc]
    have hc' : s.closed = false := by
      cases h : s.closed with
      | false => rfl
      | true => exact absurd h hc
    generalize transmitAPDUwithCTAPI drv fuel s.id 1 0x20 0x13 0x01 0x80 0 none 0 (some 0) 260
      ⟨trace, rsp0, sw0⟩ = q
    cases hq : q.ret with
    | undefined => left; simp only [hq]
    | outOfFuel => left; simp only [hq]
    | value rc =>
      simp only [hq]
      by_cases hE : rc = ERR_CT
      · right; left
        have hneg : rc < 0 := by rw [hE]; decide
        rw [if_pos hneg]
        simp only [hE, if_true, closeSlot]
      · simp only [hE, if_false]
        by_cases h1 : rc < 0
        · left; rw [if_pos h1]
        rw [if_neg h1]
        by_cases h2 : invalidStatus q.world.sw rc q.world.mem
        · left; rw [if_pos h2]
        rw [if_neg h2]
        by_cases h3 : q.world.mem 2 &&& 0x01 = 0
        · left; rw [if_pos h3]
        rw [if_neg h3]
        generalize transmitAPDUwithCTAPI drv fuel s.id 1 0x20 0x12 0x01 0x01 0 none 0 (some 0)
          260 ⟨q.world.trace, q.world.mem, q.world.sw⟩ = a
        cases ha : a.ret with
        | undefined => left; simp only [ha]
        | outOfFuel => left; simp only [ha]
        | value rc2 =>
          simp only [ha]
          by_cases h4 : rc2 < 0
          · left; rw [if_pos h4]
          rw [if_neg h4]
          by_cases h5 : a.world.sw ≠ 0x9001
          · left; rw [if_pos h5]
          rw [if_neg h5]
          by_cases h6 : (newToken s a.world.trace).1 ≠ CKR_OK
          · left; rw [if_pos h6]
          rw [if_neg h6]
          right; right
          refine ⟨hc', ⟨(newToken s a.world.trace).2.1, ?_⟩, not_not.mp h5,
            rc2, not_lt.mp h4, rfl⟩
          simp only [addToken, hnone, Option.isSome_none, Bool.false_eq_true, if_false]

/-- The slot `checkForRemovedToken` leaves: the slot as it was, or the slot
without its token and with `CKF_TOKEN_PRESENT` taken out, closed or not. -/
theorem checkForRemovedToken_slot (drv : Driver) (fuel : Nat)
    (rsp0 : Nat → Nat) (sw0 : Nat) (s : p11Slot_t) (trace : List DriverCall)
    (hsome : s.token.isSome = true) :
    (checkForRemovedToken drv fuel rsp0 sw0 s trace).slot = s ∨
    (checkForRemovedToken drv fuel rsp0 sw0 s trace).slot =
      { s with flags := s.flags ^^^ (s.flags &&& CKF_TOKEN_PRESENT), token := none,
               closed := true } ∨
    (checkForRemovedToken drv fuel rsp0 sw0 s trace).slot =
      { s with flags := s.flags ^^^ (s.flags &&& CKF_TOKEN_PRESENT), token := none } := by
  have hnn : s.token.isNone = false := by
    cases h : s.token with
    | none => rw [h] at hsome; exact absurd hsome (by decide)
    | some t => rfl
  unfold checkForRemovedToken
  generalize transmitAPDUwithCTAPI drv fuel s.id 1 0x20 0x13 0x01 0x80 0 none 0 (some 0) 260
    ⟨trace, rsp0, sw0⟩ = q
  cases hq : q.ret with
  | undefined => left; simp only [hq]
  | outOfFuel => left; simp only [hq]
  | value rc =>
    simp only [hq]
    by_cases hE : rc = ERR_CT
    · right; left
      have hneg : rc < 0 := by rw [hE]; decide
      rw [if_pos hneg]
      simp only [hE, if_true, closeSlot, removeToken, hnn, Bool.false_eq_true, if_false,
        freeToken]
    · simp only [hE, if_false]
      by_cases h1 : rc < 0
      · left; rw [if_pos h1]
      rw [if_neg h1]
      by_cases h2 : invalidStatus q.world.sw rc q.world.mem
      · left; rw [if_pos h2]
      rw [if_neg h2]
      by_cases h3 : q.world.mem 2 &&& 0x01 ≠ 0
      · left; rw [if_pos h3]
      rw [if_neg h3]
      right; right
      simp only [removeToken, hnn, Bool.false_eq_true, if_false, freeToken]

theorem getToken_inv (drv : Driver) (newToken : NewTokenFn) (fuel : Nat)
    (rsp0 : Nat → Nat) (sw0 : Nat) (s : p11Slot_t) (trace : List DriverCall)
    (h : SlotInv s) : SlotInv (getToken drv newToken fuel rsp0 sw0 s trace).slot := by
  obtain ⟨hflag, hclosed⟩ := h
  unfold getToken
  cases htok : s.token with
  | none =>
    simp only [Option.isSome_none, Bool.false_eq_true, if_false]
    have hf0 : s.flags &&& CKF_TOKEN_PRESENT = 0 := by
      by_contra hne
      have := hflag.mp hne
      rw [htok] at this
      exact absurd this (by decide)
    rcases checkForNewToken_slot drv newToken fuel rsp0 sw0 s trace htok with h | h | h
    · rw [h]; exact ⟨hflag, hclosed⟩
    · rw [h]
      exact ⟨by simp [hf0, htok], fun _ => htok⟩
    · obtain ⟨hc, ⟨tok, ht⟩, _⟩ := h
      rw [ht]
      refine ⟨?_, ?_⟩
      · simp only [setMask_and, Option.isSome_some, iff_true]
        decide
      · intro hcl
        rw [hc] at hcl
        exact absurd hcl (by decide)
  | some t =>
    simp only [Option.isSome_some, if_true]
    rcases checkForRemovedToken_slot drv fuel rsp0 sw0 s trace (by rw [htok]; rfl) with h | h | h
    · rw [h]; exact ⟨hflag, hclosed⟩
    · rw [h]
      exact ⟨by simp [clearMask_and], fun _ => rfl⟩
    · rw [h]
      exact ⟨by simp [clearMask_and], fun _ => rfl⟩

theorem reinitSlot_inv (drv : Driver) (s : p11Slot_t) (t : List DriverCall) (h : SlotInv s) :
    SlotInv (reinitSlot drv s t).1 := by
  obtain ⟨h1, h2, h3⟩ := reinitSlot_token drv s t
  unfold SlotInv
  rw [h1, h2]
  exact ⟨h.1, fun hc => h.2 (h3 hc)⟩

theorem reachable_inv (s : p11Slot_t) (h : Reachable s) : SlotInv s := by
  induction h with
  | created id flags h0 =>
    exact ⟨by simp [h0], fun hc => rfl⟩
  | poll drv newToken fuel rsp0 sw0 trace s _ ih =>
    exact getToken_inv drv newToken fuel rsp0 sw0 s trace ih
  | maintain drv alloc MAX_SLOTS fuel pool holder ps t i s s1 _ hin hout ih =>
    rcases updateSlots_slot drv alloc MAX_SLOTS fuel pool holder ps t i s s1 hin hout with
      h | ⟨t1, h⟩
    · rw [h]; exact ih
    · rw [h]; exact reinitSlot_inv drv s t1 ih

/-! ## The claims on polling, bounds and the pool -/

/-- C11: an open slot without token, a valid status answer with the presence
bit set: when the activation exchange returns a count with status `0x9001` and
the token is constructed, `getToken` attaches that token, sets
`CKF_TOKEN_PRESENT`, leaves the slot open, stores the token and returns
`CKR_OK`; when the activation exchange fails or leaves another status, the slot
is as before, without token and with `CKF_TOKEN_PRESENT` clear. -/
theorem C11_token_inserted (drv : Driver) (newToken : NewTokenFn) (fuel : Nat)
    (rsp0 : Nat → Nat) (sw0 : Nat) (slot : p11Slot_t) (trace : List DriverCall) (rc rc2 : Int)
    (hopen : slot.closed = false) (hnone : slot.token = none)
    (hflag : slot.flags &&& CKF_TOKEN_PRESENT = 0)
    (hq : (statusQuery drv fuel slot trace rsp0 sw0).ret = Ret.value rc)
    (hvalid : ¬ invalidStatus (statusQuery drv fuel slot trace rsp0 sw0).world.sw rc
      (statusQuery drv fuel slot trace rsp0 sw0).world.mem)
    (hpresent : (statusQuery drv fuel slot trace rsp0 sw0).world.mem 2 &&& 0x01 ≠ 0)
    (hact : (requestICC drv fuel slot (statusQuery drv fuel slot trace rsp0 sw0)).ret =
      Ret.value rc2) :
    (0 ≤ rc2 →
      (requestICC drv fuel slot (statusQuery drv fuel slot trace rsp0 sw0)).world.sw = 0x9001 →
      (newToken slot
        (requestICC drv fuel slot (statusQuery drv fuel slot trace rsp0 sw0)).world.trace).1
        = CKR_OK →
      (getToken drv newToken fuel rsp0 sw0 slot trace).slot.token =
        some (newToken slot
          (requestICC drv fuel slot (statusQuery drv fuel slot trace rsp0 sw0)).world.trace).2.1 ∧
      (getToken drv newToken fuel rsp0 sw0 slot trace).slot.flags =
        slot.flags ||| CKF_TOKEN_PRESENT ∧
      (getToken drv newToken fuel rsp0 sw0 slot trace).slot.flags &&& CKF_TOKEN_PRESENT =
        CKF_TOKEN_PRESENT ∧
      (getToken drv newToken fuel rsp0 sw0 slot trace).slot.closed = false ∧
      (getToken drv newToken fuel rsp0 sw0 slot trace).token =
        some (newToken slot
          (requestICC drv fuel slot (statusQuery drv fuel slot trace rsp0 sw0)).world.trace).2.1 ∧
      (getToken drv newToken fuel rsp0 sw0 slot trace).ret = Ret.value CKR_OK) ∧
    ((rc2 < 0 ∨
        (requestICC drv fuel slot (statusQuery drv fuel slot trace rsp0 sw0)).world.sw ≠ 0x9001) →
      (getToken drv newToken fuel rsp0 sw0 slot trace).slot = slot ∧
      (getToken drv newToken fuel rsp0 sw0 slot trace).slot.token = none ∧
      (getToken drv newToken fuel rsp0 sw0 slot trace).slot.flags &&& CKF_TOKEN_PRESENT = 0 ∧
      (getToken drv newToken fuel rsp0 sw0 slot trace).token = none ∧
      (getToken drv newToken fuel rsp0 sw0 slot trace).ret =
        Ret.value CKR_TOKEN_NOT_RECOGNIZED) := by
  obtain ⟨hrc0, hrcE⟩ := not_ERR_CT_of_valid _ _ _ hvalid
  have hrc0' : ¬ rc < 0 := not_lt.mpr hrc0
  unfold statusQuery at hq hvalid hpresent hact
  unfold requestICC at hact
  unfold statusQuery requestICC
  simp only [getToken, hnone, Option.isSome_none, Bool.false_eq_true, if_false,
    checkForNewToken, hopen]
  generalize transmitAPDUwithCTAPI drv fuel slot.id 1 0x20 0x13 0x01 0x80 0 none 0 (some 0) 260
    ⟨trace, rsp0, sw0⟩ = q at *
  simp only [hq, hrcE, hrc0', hvalid, hpresent, if_false]
  generalize transmitAPDUwithCTAPI drv fuel slot.id 1 0x20 0x12 0x01 0x01 0 none 0 (some 0) 260
    ⟨q.world.trace, q.world.mem, q.world.sw⟩ = a at *
  simp only [hact]
  constructor
  · intro h0 hsw hnt
    have h0' : ¬ rc2 < 0 := not_lt.mpr h0
    simp only [h0', hsw, hnt, addToken, hnone, Option.isSome_none, Bool.false_eq_true, if_false,
      ne_eq, not_true_eq_false]
    exact ⟨trivial, trivial, setMask_and _ _, hopen, trivial, trivial⟩
  · intro h
    rcases h with h | h
    · rw [if_pos h]
      exact ⟨rfl, hnone, hflag, hnone, rfl⟩
    · by_cases h2 : rc2 < 0
      · rw [if_pos h2]
        exact ⟨rfl, hnone, hflag, hnone, rfl⟩
      · rw [if_neg h2, if_pos h]
        exact ⟨rfl, hnone, hflag, hnone, rfl⟩

/-- C11 on a card that is present and answers the reset with `90 01`, and on a
card whose reset ends with `64 00`. -/
theorem C11_token_inserted_witness :
    ((getToken (scripted [⟨0, [0x80, 0x01, 0x01, 0x90, 0x00]⟩, ⟨0, [0x3B, 0x80, 0x90, 0x01]⟩])
        tokenSeven 1 (fun _ => 0) 0 ⟨1, false, 6, none⟩ []).slot = ⟨1, false, 7, some ⟨7⟩⟩ ∧
      (getToken (scripted [⟨0, [0x80, 0x01, 0x01, 0x90, 0x00]⟩, ⟨0, [0x3B, 0x80, 0x90, 0x01]⟩])
        tokenSeven 1 (fun _ => 0) 0 ⟨1, false, 6, none⟩ []).token = some ⟨7⟩ ∧
      (getToken (scripted [⟨0, [0x80, 0x01, 0x01, 0x90, 0x00]⟩, ⟨0, [0x3B, 0x80, 0x90, 0x01]⟩])
        tokenSeven 1 (fun _ => 0) 0 ⟨1, false, 6, none⟩ []).ret = Ret.value CKR_OK) ∧
    ((getToken (scripted [⟨0, [0x80, 0x01, 0x01, 0x90, 0x00]⟩, ⟨0, [0x64, 0x00]⟩])
        tokenSeven 1 (fun _ => 0) 0 ⟨1, false, 6, none⟩ []).slot = ⟨1, false, 6, none⟩ ∧
      (getToken (scripted [⟨0, [0x80, 0x01, 0x01, 0x90, 0x00]⟩, ⟨0, [0x64, 0x00]⟩])
        tokenSeven 1 (fun _ => 0) 0 ⟨1, false, 6, none⟩ []).ret =
        Ret.value CKR_TOKEN_NOT_RECOGNIZED) :=
  have h1 := (C11_token_inserted
    (scripted [⟨0, [0x80, 0x01, 0x01, 0x90, 0x00]⟩, ⟨0, [0x3B, 0x80, 0x90, 0x01]⟩])
    tokenSeven 1 (fun _ => 0) 0 ⟨1, false, 6, none⟩ [] 3 2
    rfl rfl (by decide) (by decide) (by decide) (by decide) (by decide)).1
    (by decide) (by decide) (by decide)
  have h2 := (C11_token_inserted
    (scripted [⟨0, [0x80, 0x01, 0x01, 0x90, 0x00]⟩, ⟨0, [0x64, 0x00]⟩])
    tokenSeven 1 (fun _ => 0) 0 ⟨1, false, 6, none⟩ [] 3 0
    rfl rfl (by decide) (by decide) (by decide) (by decide) (by decide)).2
    (Or.inr (by decide))
  ⟨⟨by decide, h1.2.2.2.2.1, h1.2.2.2.2.2⟩, ⟨h2.1, h2.2.2.2.2⟩⟩

/-- C12: an open slot with a token, a valid status answer with the presence
bit clear: `getToken` detaches the token, clears `CKF_TOKEN_PRESENT` and no
other flag, leaves the slot open, stores a null token and returns
`CKR_TOKEN_NOT_PRESENT`. -/
theorem C12_token_removed (drv : Driver) (newToken : NewTokenFn) (fuel : Nat)
    (rsp0 : Nat → Nat) (sw0 : Nat) (slot : p11Slot_t) (trace : List DriverCall) (rc : Int)
    (hopen : slot.closed = false) (hsome : slot.token.isSome = true)
    (hq : (statusQuery drv fuel slot trace rsp0 sw0).ret = Ret.value rc)
    (hvalid : ¬ invalidStatus (statusQuery drv fuel slot trace rsp0 sw0).world.sw rc
      (statusQuery drv fuel slot trace rsp0 sw0).world.mem)
    (habsent : (statusQuery drv fuel slot trace rsp0 sw0).world.mem 2 &&& 0x01 = 0) :
    (getToken drv newToken fuel rsp0 sw0 slot trace).slot.token = none ∧
    (getToken drv newToken fuel rsp0 sw0 slot trace).slot.flags &&& CKF_TOKEN_PRESENT = 0 ∧
    (∀ i, i ≠ 0 → (getToken drv newToken fuel rsp0 sw0 slot trace).slot.flags.testBit i =
      slot.flags.testBit i) ∧
    (getToken drv newToken fuel rsp0 sw0 slot trace).slot.closed = false ∧
    (getToken drv newToken fuel rsp0 sw0 slot trace).token = none ∧
    (getToken drv newToken fuel rsp0 sw0 slot trace).ret = Ret.value CKR_TOKEN_NOT_PRESENT ∧
    (getToken drv newToken fuel rsp0 sw0 slot trace).trace =
      (statusQuery drv fuel slot trace rsp0 sw0).world.trace := by
  obtain ⟨hrc0, hrcE⟩ := not_ERR_CT_of_valid _ _ _ hvalid
  have hrc0' : ¬ rc < 0 := not_lt.mpr hrc0
  have hnn : slot.token.isNone = false := by
    cases h : slot.token with
    | none => rw [h] at hsome; exact absurd hsome (by decide)
    | some t => rfl
  unfold statusQuery at hq hvalid habsent
  unfold statusQuery
  simp only [getToken, hsome, if_true, checkForRemovedToken]
  generalize transmitAPDUwithCTAPI drv fuel slot.id 1 0x20 0x13 0x01 0x80 0 none 0 (some 0) 260
    ⟨trace, rsp0, sw0⟩ = q at *
  simp only [hq, hrcE, hrc0', hvalid, habsent, if_false, ne_eq, not_true_eq_false, removeToken,
    hnn, Bool.false_eq_true, freeToken]
  refine ⟨trivial, clearMask_and _ _, ?_, hopen, trivial, trivial, trivial⟩
  intro i hi
  rw [Nat.testBit_xor, Nat.testBit_and]
  have h1 : CKF_TOKEN_PRESENT.testBit i = false := by
    unfold CKF_TOKEN_PRESENT
    rw [Nat.testBit_one_eq_true_iff_self_eq_zero.not.mpr hi |> Bool.eq_false_iff.mpr]
  rw [h1]
  simp

/-- C12 on a reader whose status answer `80 01 00 90 00` reports no card. -/
theorem C12_token_removed_witness :
    (getToken (scripted [⟨0, [0x80, 0x01, 0x00, 0x90, 0x00]⟩])
      tokenSeven 1 (fun _ => 0) 0 ⟨1, false, 7, some ⟨3⟩⟩ []).slot = ⟨1, false, 6, none⟩ ∧
    (getToken (scripted [⟨0, [0x80, 0x01, 0x00, 0x90, 0x00]⟩])
      tokenSeven 1 (fun _ => 0) 0 ⟨1, false, 7, some ⟨3⟩⟩ []).token = none ∧
    (getToken (scripted [⟨0, [0x80, 0x01, 0x00, 0x90, 0x00]⟩])
      tokenSeven 1 (fun _ => 0) 0 ⟨1, false, 7, some ⟨3⟩⟩ []).ret =
      Ret.value CKR_TOKEN_NOT_PRESENT :=
  have h := C12_token_removed (scripted [⟨0, [0x80, 0x01, 0x00, 0x90, 0x00]⟩])
    tokenSeven 1 (fun _ => 0) 0 ⟨1, false, 7, some ⟨3⟩⟩ [] 3
    rfl rfl (by decide) (by decide) (by decide)
  ⟨by decide, h.2.2.2.2.1, h.2.2.2.2.2.1⟩

/-- C13, as the code has it: polling an open slot whose state agrees with the
valid status answer - no token and the presence bit clear, or a token and the
presence bit set - leaves the slot as it is, performs no exchange after the
status query and constructs no token; it returns `CKR_OK` when a token is
attached and `CKR_TOKEN_NOT_PRESENT` when none is. -/
theorem C13_poll_unchanged (drv : Driver) (newToken : NewTokenFn) (fuel : Nat)
    (rsp0 : Nat → Nat) (sw0 : Nat) (slot : p11Slot_t) (trace : List DriverCall) (rc : Int)
    (hopen : slot.closed = false)
    (hq : (statusQuery drv fuel slot trace rsp0 sw0).ret = Ret.value rc)
    (hvalid : ¬ invalidStatus (statusQuery drv fuel slot trace rsp0 sw0).world.sw rc
      (statusQuery drv fuel slot trace rsp0 sw0).world.mem)
    (hsame :
      (slot.token = none ∧ (statusQuery drv fuel slot trace rsp0 sw0).world.mem 2 &&& 0x01 = 0) ∨
      (slot.token.isSome = true ∧
        (statusQuery drv fuel slot trace rsp0 sw0).world.mem 2 &&& 0x01 ≠ 0)) :
    (getToken drv newToken fuel rsp0 sw0 slot trace).slot = slot ∧
    (getToken drv newToken fuel rsp0 sw0 slot trace).token = slot.token ∧
    (getToken drv newToken fuel rsp0 sw0 slot trace).trace =
      (statusQuery drv fuel slot trace rsp0 sw0).world.trace ∧
    (getToken drv newToken fuel rsp0 sw0 slot trace).ret =
      Ret.value (if slot.token.isSome then CKR_OK else CKR_TOKEN_NOT_PRESENT) := by
  obtain ⟨hrc0, hrcE⟩ := not_ERR_CT_of_valid _ _ _ hvalid
  have hrc0' : ¬ rc < 0 := not_lt.mpr hrc0
  unfold statusQuery at hq hvalid hsame
  unfold statusQuery
  rcases hsame with ⟨hnone, hbit⟩ | ⟨hsome, hbit⟩
  · simp only [getToken, hnone, Option.isSome_none, Bool.false_eq_true, if_false,
      checkForNewToken, hopen]
    generalize transmitAPDUwithCTAPI drv fuel slot.id 1 0x20 0x13 0x01 0x80 0 none 0 (some 0) 260
      ⟨trace, rsp0, sw0⟩ = q at *
    simp only [hq, hrcE, hrc0', hvalid, hbit, if_false, if_true]
    exact ⟨trivial, hnone, trivial, trivial⟩
  · simp only [getToken, hsome, if_true, checkForRemovedToken]
    generalize transmitAPDUwithCTAPI drv fuel slot.id 1 0x20 0x13 0x01 0x80 0 none 0 (some 0) 260
      ⟨trace, rsp0, sw0⟩ = q at *
    simp only [hq, hrcE, hrc0', hvalid, hbit, if_false, if_true, ne_eq, not_false_eq_true]
    exact ⟨trivial, trivial, trivial, trivial⟩

/-- C13 on a slot without token whose reader reports no card, and on a slot
with a token whose reader reports the card. -/
theorem C13_poll_unchanged_witness :
    ((getToken (scripted [⟨0, [0x80, 0x01, 0x00, 0x90, 0x00]⟩])
        tokenSeven 1 (fun _ => 0) 0 ⟨1, false, 6, none⟩ []).slot = ⟨1, false, 6, none⟩ ∧
      (getToken (scripted [⟨0, [0x80, 0x01, 0x00, 0x90, 0x00]⟩])
        tokenSeven 1 (fun _ => 0) 0 ⟨1, false, 6, none⟩ []).ret =
        Ret.value CKR_TOKEN_NOT_PRESENT) ∧
    ((getToken (scripted [⟨0, [0x80, 0x01, 0x01, 0x90, 0x00]⟩])
        tokenSeven 1 (fun _ => 0) 0 ⟨1, false, 7, some ⟨3⟩⟩ []).slot = ⟨1, false, 7, some ⟨3⟩⟩ ∧
      (getToken (scripted [⟨0, [0x80, 0x01, 0x01, 0x90, 0x00]⟩])
        tokenSeven 1 (fun _ => 0) 0 ⟨1, false, 7, some ⟨3⟩⟩ []).ret = Ret.value CKR_OK) :=
  have h1 := C13_poll_unchanged (scripted [⟨0, [0x80, 0x01, 0x00, 0x90, 0x00]⟩])
    tokenSeven 1 (fun _ => 0) 0 ⟨1, false, 6, none⟩ [] 3
    rfl (by decide) (by decide) (Or.inl ⟨rfl, by decide⟩)
  have h2 := C13_poll_unchanged (scripted [⟨0, [0x80, 0x01, 0x01, 0x90, 0x00]⟩])
    tokenSeven 1 (fun _ => 0) 0 ⟨1, false, 7, some ⟨3⟩⟩ [] 3
    rfl (by decide) (by decide) (Or.inr ⟨rfl, by decide⟩)
  ⟨⟨h1.1, h1.2.2.2⟩, ⟨h2.1, h2.2.2.2⟩⟩

/-- C13, as the claim states it, fails: polling an open slot without token
whose reader reports no card changes nothing, but the value returned is
`CKR_TOKEN_NOT_PRESENT`, not `CKR_OK`. -/
theorem C13_counterexample :
    (statusQuery (scripted [⟨0, [0x80, 0x01, 0x00, 0x90, 0x00]⟩]) 1 ⟨1, false, 6, none⟩ []
      (fun _ => 0) 0).ret = Ret.value 3 ∧
    ¬ invalidStatus
      (statusQuery (scripted [⟨0, [0x80, 0x01, 0x00, 0x90, 0x00]⟩]) 1 ⟨1, false, 6, none⟩ []
        (fun _ => 0) 0).world.sw 3
      (statusQuery (scripted [⟨0, [0x80, 0x01, 0x00, 0x90, 0x00]⟩]) 1 ⟨1, false, 6, none⟩ []
        (fun _ => 0) 0).world.mem ∧
    (statusQuery (scripted [⟨0, [0x80, 0x01, 0x00, 0x90, 0x00]⟩]) 1 ⟨1, false, 6, none⟩ []
      (fun _ => 0) 0).world.mem 2 &&& 0x01 = 0 ∧
    (getToken (scripted [⟨0, [0x80, 0x01, 0x00, 0x90, 0x00]⟩])
      tokenSeven 1 (fun _ => 0) 0 ⟨1, false, 6, none⟩ []).slot = ⟨1, false, 6, none⟩ ∧
    (getToken (scripted [⟨0, [0x80, 0x01, 0x00, 0x90, 0x00]⟩])
      tokenSeven 1 (fun _ => 0) 0 ⟨1, false, 6, none⟩ []).ret = Ret.value CKR_TOKEN_NOT_PRESENT ∧
    (getToken (scripted [⟨0, [0x80, 0x01, 0x00, 0x90, 0x00]⟩])
      tokenSeven 1 (fun _ => 0) 0 ⟨1, false, 6, none⟩ []).ret ≠ Ret.value CKR_OK := by
  decide

/-- C14, as the code has it: an open slot and a status query that returns
a value other than `ERR_CT` and fails the validation of lines 341 and 417:
`getToken` returns `CKR_DEVICE_ERROR` when no token is attached and
`CKR_GENERAL_ERROR` when one is, never `CKR_OK`; it makes no driver call after
the status query and leaves the slot and its token as they are, whatever the
third byte of the answer is. -/
theorem C14_invalid_status (drv : Driver) (newToken : NewTokenFn) (fuel : Nat)
    (rsp0 : Nat → Nat) (sw0 : Nat) (slot : p11Slot_t) (trace : List DriverCall) (rc : Int)
    (hopen : slot.closed = false)
    (hq : (statusQuery drv fuel slot trace rsp0 sw0).ret = Ret.value rc)
    (hrc : rc ≠ ERR_CT)
    (hinvalid : invalidStatus (statusQuery drv fuel slot trace rsp0 sw0).world.sw rc
      (statusQuery drv fuel slot trace rsp0 sw0).world.mem) :
    (getToken drv newToken fuel rsp0 sw0 slot trace).ret =
      Ret.value (if slot.token.isSome then CKR_GENERAL_ERROR else CKR_DEVICE_ERROR) ∧
    (getToken drv newToken fuel rsp0 sw0 slot trace).ret ≠ Ret.value CKR_OK ∧
    (getToken drv newToken fuel rsp0 sw0 slot trace).trace =
      (statusQuery drv fuel slot trace rsp0 sw0).world.trace ∧
    (getToken drv newToken fuel rsp0 sw0 slot trace).slot = slot ∧
    (getToken drv newToken fuel rsp0 sw0 slot trace).token = slot.token := by
  unfold statusQuery at hq hinvalid
  unfold statusQuery
  cases htok : slot.token with
  | none =>
    simp only [getToken, htok, Option.isSome_none, Bool.false_eq_true, if_false,
      checkForNewToken, hopen]
    generalize transmitAPDUwithCTAPI drv fuel slot.id 1 0x20 0x13 0x01 0x80 0 none 0 (some 0) 260
      ⟨trace, rsp0, sw0⟩ = q at *
    simp only [hq, hrc, hinvalid, if_false, if_true]
    have hne : Ret.value CKR_DEVICE_ERROR ≠ Ret.value CKR_OK := by decide
    by_cases h : rc < 0
    · rw [if_pos h]
      exact ⟨rfl, hne, rfl, rfl, htok⟩
    · rw [if_neg h]
      exact ⟨rfl, hne, rfl, rfl, htok⟩
  | some t =>
    simp only [getToken, htok, Option.isSome_some, if_true, checkForRemovedToken]
    generalize transmitAPDUwithCTAPI drv fuel slot.id 1 0x20 0x13 0x01 0x80 0 none 0 (some 0) 260
      ⟨trace, rsp0, sw0⟩ = q at *
    simp only [hq, hrc, hinvalid, if_false, if_true]
    have hne : Ret.value CKR_GENERAL_ERROR ≠ Ret.value CKR_OK := by decide
    by_cases h : rc < 0
    · rw [if_pos h]
      exact ⟨rfl, hne, rfl, rfl, htok⟩
    · rw [if_neg h]
      exact ⟨rfl, hne, rfl, rfl, htok⟩

/-- C14 on a slot without token and a status answer with a wrong tag, whose
third byte reports a card. -/
theorem C14_invalid_status_witness :
    (getToken (scripted [⟨0, [0x81, 0x01, 0x01, 0x90, 0x00]⟩])
      tokenSeven 1 (fun _ => 0) 0 ⟨1, false, 6, none⟩ []).ret = Ret.value CKR_DEVICE_ERROR ∧
    (getToken (scripted [⟨0, [0x81, 0x01, 0x01, 0x90, 0x00]⟩])
      tokenSeven 1 (fun _ => 0) 0 ⟨1, false, 6, none⟩ []).trace =
      [DriverCall.data 1 1 2 [0x20, 0x13, 0x01, 0x80, 0x00]] ∧
    (getToken (scripted [⟨0, [0x81, 0x01, 0x01, 0x90, 0x00]⟩])
      tokenSeven 1 (fun _ => 0) 0 ⟨1, false, 6, none⟩ []).slot = ⟨1, false, 6, none⟩ :=
  have h := C14_invalid_status (scripted [⟨0, [0x81, 0x01, 0x01, 0x90, 0x00]⟩])
    tokenSeven 1 (fun _ => 0) 0 ⟨1, false, 6, none⟩ [] 3
    rfl (by decide) (by decide) (by decide)
  ⟨h.1, by decide, h.2.2.2.1⟩

/-- C14, as the claim states it, fails: on an open slot with a token, a status
answer with a wrong tag makes `getToken` return `CKR_GENERAL_ERROR`, not
`CKR_DEVICE_ERROR`. -/
theorem C14_counterexample :
    invalidStatus
      (statusQuery (scripted [⟨0, [0x81, 0x01, 0x01, 0x90, 0x00]⟩]) 1 ⟨1, false, 7, some ⟨3⟩⟩ []
        (fun _ => 0) 0).world.sw 3
      (statusQuery (scripted [⟨0, [0x81, 0x01, 0x01, 0x90, 0x00]⟩]) 1 ⟨1, false, 7, some ⟨3⟩⟩ []
        (fun _ => 0) 0).world.mem ∧
    (getToken (scripted [⟨0, [0x81, 0x01, 0x01, 0x90, 0x00]⟩])
      tokenSeven 1 (fun _ => 0) 0 ⟨1, false, 7, some ⟨3⟩⟩ []).ret =
      Ret.value CKR_GENERAL_ERROR ∧
    (getToken (scripted [⟨0, [0x81, 0x01, 0x01, 0x90, 0x00]⟩])
      tokenSeven 1 (fun _ => 0) 0 ⟨1, false, 7, some ⟨3⟩⟩ []).ret ≠
      Ret.value CKR_DEVICE_ERROR := by
  decide

/-- C15, as the code has it, for the pool of the module context (the pool
`addSlot` extends at line 528): after any number `k` of passes of
`updateSlots` the slot count is at least the count at the start and at most
`MAX_SLOTS`, and the next pass returns after `j` successful initialisations,
each of which added one slot at the next unused identifier; it stops when the
count has reached `MAX_SLOTS`, at the first `CT_init` that fails, or when
`malloc` fails. -/
theorem C15_pool_growth (drv : Driver) (alloc : List DriverCall → Bool) (MAX_SLOTS : Nat)
    (fuel k : Nat) (ps : Pools) (t : List DriverCall) (s : Pools × List DriverCall)
    (h0 : ps.context.numberOfSlots ≤ MAX_SLOTS) (hfuel : MAX_SLOTS + 1 ≤ fuel)
    (hs : s = updatePasses drv alloc MAX_SLOTS fuel PoolRef.context k ps t) :
    ps.context.numberOfSlots ≤ s.1.context.numberOfSlots ∧
    s.1.context.numberOfSlots ≤ MAX_SLOTS ∧
    ∃ j : Nat,
      (updateSlots drv alloc MAX_SLOTS fuel PoolRef.context s.1 s.2).pools.context =
        ⟨(reinitSlots drv s.1.context.list s.2).1 ++ addedSlots s.1.context.nextSlotID j,
          s.1.context.numberOfSlots + j, s.1.context.nextSlotID + j⟩ ∧
      s.1.context.numberOfSlots + j ≤ MAX_SLOTS ∧
      (∀ i, i < j →
        (drv ((reinitSlots drv s.1.context.list s.2).2 ++
          initCalls s.1.context.nextSlotID (i + 1))).rc = OK ∧
        alloc ((reinitSlots drv s.1.context.list s.2).2 ++
          initCalls s.1.context.nextSlotID (i + 1)) = true) ∧
      ((s.1.context.numberOfSlots + j = MAX_SLOTS ∧
          (updateSlots drv alloc MAX_SLOTS fuel PoolRef.context s.1 s.2).trace =
            (reinitSlots drv s.1.context.list s.2).2 ++ initCalls s.1.context.nextSlotID j ∧
          (updateSlots drv alloc MAX_SLOTS fuel PoolRef.context s.1 s.2).ret =
            Ret.value CKR_OK) ∨
        (s.1.context.numberOfSlots + j < MAX_SLOTS ∧
          (drv ((reinitSlots drv s.1.context.list s.2).2 ++
            initCalls s.1.context.nextSlotID (j + 1))).rc ≠ OK ∧
          (updateSlots drv alloc MAX_SLOTS fuel PoolRef.context s.1 s.2).trace =
            (reinitSlots drv s.1.context.list s.2).2 ++
              initCalls s.1.context.nextSlotID (j + 1) ∧
          (updateSlots drv alloc MAX_SLOTS fuel PoolRef.context s.1 s.2).ret =
            Ret.value CKR_OK) ∨
        (s.1.context.numberOfSlots + j < MAX_SLOTS ∧
          (drv ((reinitSlots drv s.1.context.list s.2).2 ++
            initCalls s.1.context.nextSlotID (j + 1))).rc = OK ∧
          alloc ((reinitSlots drv s.1.context.list s.2).2 ++
            initCalls s.1.context.nextSlotID (j + 1)) = false ∧
          (updateSlots drv alloc MAX_SLOTS fuel PoolRef.context s.1 s.2).trace =
            (reinitSlots drv s.1.context.list s.2).2 ++
              initCalls s.1.context.nextSlotID (j + 1) ∧
          (updateSlots drv alloc MAX_SLOTS fuel PoolRef.context s.1 s.2).ret =
            Ret.value CKR_HOST_MEMORY)) := by
  subst hs
  obtain ⟨hA, hB⟩ := updatePasses_context drv alloc MAX_SLOTS fuel hfuel k ps t h0
  obtain ⟨j, _, hj⟩ := updateSlots_context drv alloc MAX_SLOTS fuel
    (updatePasses drv alloc MAX_SLOTS fuel PoolRef.context k ps t).1
    (updatePasses drv alloc MAX_SLOTS fuel PoolRef.context k ps t).2 hB hfuel
  exact ⟨hA, hB, j, hj⟩

/-- C15 on an empty pool, `MAX_SLOTS = 2` and a driver with three channels:
one pass fills the pool with the slots 1 and 2. -/
theorem C15_pool_growth_witness :
    (⟨[], 0, 1⟩ : p11SlotPool_t).numberOfSlots ≤
      (updatePasses (scripted [⟨0, []⟩, ⟨0, []⟩, ⟨0, []⟩]) (fun _ => true) 2 3 PoolRef.context 1
        ⟨⟨[], 0, 1⟩, ⟨[], 0, 1⟩⟩ []).1.context.numberOfSlots ∧
    (updatePasses (scripted [⟨0, []⟩, ⟨0, []⟩, ⟨0, []⟩]) (fun _ => true) 2 3 PoolRef.context 1
      ⟨⟨[], 0, 1⟩, ⟨[], 0, 1⟩⟩ []).1.context.numberOfSlots ≤ 2 ∧
    (updatePasses (scripted [⟨0, []⟩, ⟨0, []⟩, ⟨0, []⟩]) (fun _ => true) 2 3 PoolRef.context 1
      ⟨⟨[], 0, 1⟩, ⟨[], 0, 1⟩⟩ []).1.context =
      ⟨[⟨1, false, 6, none⟩, ⟨2, false, 6, none⟩], 2, 3⟩ :=
  have h := C15_pool_growth (scripted [⟨0, []⟩, ⟨0, []⟩, ⟨0, []⟩]) (fun _ => true) 2 3 1
    ⟨⟨[], 0, 1⟩, ⟨[], 0, 1⟩⟩ [] _ (by decide) (by decide) rfl
  ⟨h.1, h.2.1, by decide⟩

/-- C15, as the claim states it, fails: on the empty pool of the context, with
`MAX_SLOTS = 2` and a driver whose channels can be initialised, a pass in which
`malloc` returns `NULL` ends with `CKR_HOST_MEMORY` after one `CT_init` that
succeeded; no slot was added for that initialisation, and growth has stopped
although no initialisation failed and the count, `0`, is below `MAX_SLOTS`. -/
theorem C15_counterexample :
    (updateSlots (scripted [⟨0, []⟩, ⟨0, []⟩, ⟨0, []⟩]) (fun _ => false) 2 10 PoolRef.context
      ⟨⟨[], 0, 1⟩, ⟨[], 0, 1⟩⟩ []).trace = [DriverCall.init 1 0] ∧
    (scripted [⟨0, []⟩, ⟨0, []⟩, ⟨0, []⟩] [DriverCall.init 1 0]).rc = OK ∧
    (updateSlots (scripted [⟨0, []⟩, ⟨0, []⟩, ⟨0, []⟩]) (fun _ => false) 2 10 PoolRef.context
      ⟨⟨[], 0, 1⟩, ⟨[], 0, 1⟩⟩ []).ret = Ret.value CKR_HOST_MEMORY ∧
    (updateSlots (scripted [⟨0, []⟩, ⟨0, []⟩, ⟨0, []⟩]) (fun _ => false) 2 10 PoolRef.context
      ⟨⟨[], 0, 1⟩, ⟨[], 0, 1⟩⟩ []).pools.context = ⟨[], 0, 1⟩ ∧
    (updateSlots (scripted [⟨0, []⟩, ⟨0, []⟩, ⟨0, []⟩]) (fun _ => false) 2 10 PoolRef.context
      ⟨⟨[], 0, 1⟩, ⟨[], 0, 1⟩⟩ []).pools.context.numberOfSlots < 2 := by
  decide

/-- C16, as the code has it.  A call of `transmitAPDU` with a receive buffer
of non-zero capacity whose command is answered with a status byte `SW1` of
`0x9F` or `0x61` continues with a call of `transmitAPDU` for GET RESPONSE, the
next command handed to the driver; so does a call whose command is answered
`6C xx` and whose repetition is answered with such a status.  The call for GET
RESPONSE being a call of `transmitAPDU`, the same holds for the answer to GET
RESPONSE.  Every call makes one or two exchanges of its own with the driver
and then is over or continues with the call for GET RESPONSE.  When every
successful answer with a status byte `SW1` of `0x9F` or `0x61` carries at
least one payload byte, a call of `transmitAPDU` with `InSize + 1` units of
fuel returns, and it makes at most `2 * (InSize + 1)` driver exchanges. -/
theorem C16_chaining_terminates (drv : Driver) (fuel : Nat)
    (id CLA INS P1 P2 : Nat) (OutLen : Int) (OutData : Option (List Nat))
    (InLen : Int) (InData : Option Nat) (InSize : Int) (w : World) :
    (∀ (p : Nat) (rc : Int) (resp : List Nat),
      InData = some p → 0 < InSize →
      drv (w.trace ++ [dataCall id 0
        (buildCommand CLA INS P1 P2 OutLen OutData InLen InData InSize)]) = ⟨rc, resp⟩ →
      0 ≤ rc → 2 ≤ resp.length →
      (resp.getD (resp.length - 2) 0 = 0x9F ∨ resp.getD (resp.length - 2) 0 = 0x61) →
      transmitAPDU drv (fuel + 2) id CLA INS P1 P2 OutLen OutData InLen InData InSize w =
        afterGetResponse rc (clampLen resp.length InSize)
          (transmitAPDU drv (fuel + 1) id (getResponseCLA CLA) 0xC0 0 0 0 none
            (resp.getD 1 0 : Nat) (some (p + (clampLen resp.length InSize).toNat))
            (InSize - clampLen resp.length InSize)
            ⟨w.trace ++ [dataCall id 0
                (buildCommand CLA INS P1 P2 OutLen OutData InLen InData InSize)],
              memcpy w.mem p resp (clampLen resp.length InSize).toNat, w.sw⟩) ∧
      (transmitAPDU drv (fuel + 2) id CLA INS P1 P2 OutLen OutData InLen InData InSize
        w).world.trace[w.trace.length + 1]? =
        some (dataCall id 0 (buildCommand (getResponseCLA CLA) 0xC0 0 0 0 none
          (resp.getD 1 0 : Nat) (some (p + (clampLen resp.length InSize).toNat))
          (InSize - clampLen resp.length InSize)))) ∧
    (∀ (p : Nat) (rc1 : Int) (resp1 : List Nat) (rc : Int) (resp : List Nat),
      InData = some p → 0 < InSize →
      drv (w.trace ++ [dataCall id 0
        (buildCommand CLA INS P1 P2 OutLen OutData InLen InData InSize)]) = ⟨rc1, resp1⟩ →
      0 ≤ rc1 → 2 ≤ resp1.length → resp1.getD (resp1.length - 2) 0 = 0x6C →
      drv (w.trace ++ [dataCall id 0
          (buildCommand CLA INS P1 P2 OutLen OutData InLen InData InSize),
        dataCall id 0 (buildCommand CLA INS P1 P2 OutLen OutData
          (resp1.getD (resp1.length - 1) 0 : Nat) InData InSize)]) = ⟨rc, resp⟩ →
      0 ≤ rc → 2 ≤ resp.length →
      (resp.getD (resp.length - 2) 0 = 0x9F ∨ resp.getD (resp.length - 2) 0 = 0x61) →
      transmitAPDU drv (fuel + 2) id CLA INS P1 P2 OutLen OutData InLen InData InSize w =
        afterGetResponse rc (clampLen resp.length InSize)
          (transmitAPDU drv (fuel + 1) id (getResponseCLA CLA) 0xC0 0 0 0 none
            (resp.getD 1 0 : Nat) (some (p + (clampLen resp.length InSize).toNat))
            (InSize - clampLen resp.length InSize)
            ⟨w.trace ++ [dataCall id 0
                (buildCommand CLA INS P1 P2 OutLen OutData InLen InData InSize),
              dataCall id 0 (buildCommand CLA INS P1 P2 OutLen OutData
                (resp1.getD (resp1.length - 1) 0 : Nat) InData InSize)],
              memcpy w.mem p resp (clampLen resp.length InSize).toNat, w.sw⟩) ∧
      (transmitAPDU drv (fuel + 2) id CLA INS P1 P2 OutLen OutData InLen InData InSize
        w).world.trace[w.trace.length + 2]? =
        some (dataCall id 0 (buildCommand (getResponseCLA CLA) 0xC0 0 0 0 none
          (resp.getD 1 0 : Nat) (some (p + (clampLen resp.length InSize).toNat))
          (InSize - clampLen resp.length InSize)))) ∧
    (∃ cmds : List DriverCall, 1 ≤ cmds.length ∧ cmds.length ≤ 2 ∧
      ((transmitAPDU drv (fuel + 1) id CLA INS P1 P2 OutLen OutData InLen InData InSize
          w).world.trace = w.trace ++ cmds ∨
        ∃ (rc rv le sz : Int) (q : Nat) (w1 : World), w1.trace = w.trace ++ cmds ∧
          transmitAPDU drv (fuel + 1) id CLA INS P1 P2 OutLen OutData InLen InData InSize w =
            afterGetResponse rc rv
              (transmitAPDU drv fuel id (getResponseCLA CLA) 0xC0 0 0 0 none le (some q) sz
                w1))) ∧
    ((∀ h : List DriverCall, 0 ≤ (drv h).rc → 2 ≤ (drv h).resp.length →
        ((drv h).resp.getD ((drv h).resp.length - 2) 0 = 0x9F ∨
          (drv h).resp.getD ((drv h).resp.length - 2) 0 = 0x61) →
        3 ≤ (drv h).resp.length) →
      InSize.toNat + 1 ≤ fuel →
      (transmitAPDU drv fuel id CLA INS P1 P2 OutLen OutData InLen InData InSize w).ret ≠
        Ret.outOfFuel ∧
      (transmitAPDU drv fuel id CLA INS P1 P2 OutLen OutData InLen InData InSize
        w).world.trace.length ≤ w.trace.length + 2 * (InSize.toNat + 1)) := by
  refine ⟨?_, ?_, ?_, ?_⟩
  · intro p rc resp hp hsz hdrv hrc hn hsw
    subst hp
    have heq := transmit_chained drv (fuel + 1) id 0 CLA INS P1 P2 OutLen OutData InLen p InSize
      w rc resp hdrv hrc hn hsw (le_of_lt hsz) (ne_of_gt hsz)
    refine ⟨heq, ?_⟩
    rw [transmitAPDU, heq, afterGetResponse_world, transmitAPDU]
    have h1 := transmit_first_call drv fuel id 0 (getResponseCLA CLA) 0xC0 0 0 0 none
      (resp.getD 1 0 : Nat) (some (p + (clampLen resp.length InSize).toNat))
      (InSize - clampLen resp.length InSize)
      ⟨w.trace ++ [dataCall id 0
          (buildCommand CLA INS P1 P2 OutLen OutData InLen (some p) InSize)],
        memcpy w.mem p resp (clampLen resp.length InSize).toNat, w.sw⟩
    simpa using h1
  · intro p rc1 resp1 rc resp hp hsz hdrv1 hrc1 hn1 h6C1 hdrv hrc hn hsw
    subst hp
    have heq := transmit_chained_retry drv (fuel + 1) id 0 CLA INS P1 P2 OutLen OutData InLen p
      InSize w rc1 resp1 rc resp hdrv1 hrc1 hn1 h6C1 hdrv hrc hn hsw (le_of_lt hsz)
      (ne_of_gt hsz)
    refine ⟨heq, ?_⟩
    rw [transmitAPDU, heq, afterGetResponse_world, transmitAPDU]
    have h1 := transmit_first_call drv fuel id 0 (getResponseCLA CLA) 0xC0 0 0 0 none
      (resp.getD 1 0 : Nat) (some (p + (clampLen resp.length InSize).toNat))
      (InSize - clampLen resp.length InSize)
      ⟨w.trace ++ [dataCall id 0
          (buildCommand CLA INS P1 P2 OutLen OutData InLen (some p) InSize),
        dataCall id 0 (buildCommand CLA INS P1 P2 OutLen OutData
          (resp1.getD (resp1.length - 1) 0 : Nat) (some p) InSize)],
        memcpy w.mem p resp (clampLen resp.length InSize).toNat, w.sw⟩
    simpa using h1
  · rw [transmitAPDU, transmitAPDUwithCTAPI]
    exact retryLoop_level drv _ id 0 CLA INS P1 P2 OutLen OutData InData InSize InLen w
  · intro hprog hfuel
    exact transmit_bounded drv hprog InSize.toNat fuel hfuel id 0 CLA INS P1 P2 OutLen OutData
      InLen InData InSize w (Int.self_le_toNat InSize)

/-- C16 on two answers with one payload byte and status `61 05` followed by a
final answer, received into a buffer of four bytes: GET RESPONSE follows the
answer to the command and the answer to the first GET RESPONSE, and the call
returns the three bytes after three exchanges; and on an answer `6C 10`
followed by an answer `61 05` to the repetition, which GET RESPONSE follows
as the third command. -/
theorem C16_chaining_terminates_witness :
    (transmitAPDU (scripted [⟨0, [1, 0x61, 0x05]⟩, ⟨0, [2, 0x61, 0x05]⟩, ⟨0, [3, 0x90, 0x00]⟩])
      (5 + 2) 1 0x00 0xB0 0x00 0x00 0 none 0 (some 0) 4
      emptyWorld).world.trace[emptyWorld.trace.length + 1]? =
      some (DriverCall.data 1 0 2 [0x00, 0xC0, 0x00, 0x00, 0x61]) ∧
    (transmitAPDU (scripted [⟨0, [1, 0x61, 0x05]⟩, ⟨0, [2, 0x61, 0x05]⟩, ⟨0, [3, 0x90, 0x00]⟩])
      (5 + 2) 1 0x00 0xC0 0x00 0x00 0 none 0x61 (some 1) 3
      ⟨[DriverCall.data 1 0 2 [0x00, 0xB0, 0x00, 0x00, 0x00]], fun _ => 0, 0⟩).world.trace[
        ([DriverCall.data 1 0 2 [0x00, 0xB0, 0x00, 0x00, 0x00]] : List DriverCall).length + 1]? =
      some (DriverCall.data 1 0 2 [0x00, 0xC0, 0x00, 0x00, 0x61]) ∧
    (transmitAPDU (scripted [⟨0, [0x6C, 0x10]⟩, ⟨0, [0x61, 0x05]⟩, ⟨0, [0x90, 0x00]⟩])
      (5 + 2) 1 0x00 0xB0 0x00 0x00 0 none 0 (some 0) 4
      emptyWorld).world.trace[emptyWorld.trace.length + 2]? =
      some (DriverCall.data 1 0 2 [0x00, 0xC0, 0x00, 0x00, 0x05]) ∧
    (transmitAPDU (scripted [⟨0, [1, 0x61, 0x05]⟩, ⟨0, [2, 0x61, 0x05]⟩, ⟨0, [3, 0x90, 0x00]⟩])
      5 1 0x00 0xB0 0x00 0x00 0 none 0 (some 0) 4 emptyWorld).ret = Ret.value 3 ∧
    (transmitAPDU (scripted [⟨0, [1, 0x61, 0x05]⟩, ⟨0, [2, 0x61, 0x05]⟩, ⟨0, [3, 0x90, 0x00]⟩])
      5 1 0x00 0xB0 0x00 0x00 0 none 0 (some 0) 4 emptyWorld).ret ≠ Ret.outOfFuel ∧
    (transmitAPDU (scripted [⟨0, [1, 0x61, 0x05]⟩, ⟨0, [2, 0x61, 0x05]⟩, ⟨0, [3, 0x90, 0x00]⟩])
      5 1 0x00 0xB0 0x00 0x00 0 none 0 (some 0) 4 emptyWorld).world.trace.length ≤
      emptyWorld.trace.length + 2 * ((4 : Int).toNat + 1) :=
  have h := C16_chaining_terminates
    (scripted [⟨0, [1, 0x61, 0x05]⟩, ⟨0, [2, 0x61, 0x05]⟩, ⟨0, [3, 0x90, 0x00]⟩])
    5 1 0x00 0xB0 0x00 0x00 0 none 0 (some 0) 4 emptyWorld
  have hn := C16_chaining_terminates
    (scripted [⟨0, [1, 0x61, 0x05]⟩, ⟨0, [2, 0x61, 0x05]⟩, ⟨0, [3, 0x90, 0x00]⟩])
    5 1 0x00 0xC0 0x00 0x00 0 none 0x61 (some 1) 3
    ⟨[DriverCall.data 1 0 2 [0x00, 0xB0, 0x00, 0x00, 0x00]], fun _ => 0, 0⟩
  have hr := C16_chaining_terminates
    (scripted [⟨0, [0x6C, 0x10]⟩, ⟨0, [0x61, 0x05]⟩, ⟨0, [0x90, 0x00]⟩])
    5 1 0x00 0xB0 0x00 0x00 0 none 0 (some 0) 4 emptyWorld
  ⟨(h.1 0 0 [1, 0x61, 0x05] rfl (by decide) (by decide) (by decide) (by decide)
      (by decide)).2,
    (hn.1 1 0 [2, 0x61, 0x05] rfl (by decide) (by decide) (by decide) (by decide)
      (by decide)).2,
    (hr.2.1 0 0 [0x6C, 0x10] 0 [0x61, 0x05] rfl (by decide) (by decide) (by decide) (by decide)
      (by decide) (by decide) (by decide) (by decide) (by decide)).2,
    by decide,
    (h.2.2.2 scripted_three_progresses (by decide)).1,
    (h.2.2.2 scripted_three_progresses (by decide)).2⟩

/-- C16, as the claim states it, fails: when the answers to GET RESPONSE carry
the status `61 05` again, one call of `transmitAPDU` sends GET RESPONSE three
times in a row. -/
theorem C16_counterexample :
    (transmitAPDU
      (scripted [⟨0, [0x61, 0x05]⟩, ⟨0, [0x61, 0x05]⟩, ⟨0, [0x61, 0x05]⟩, ⟨0, [0x90, 0x00]⟩])
      4 1 0x00 0xB0 0x00 0x00 0 none 0 (some 0) 32 emptyWorld).world.trace =
      [DriverCall.data 1 0 2 [0x00, 0xB0, 0x00, 0x00, 0x00],
        DriverCall.data 1 0 2 [0x00, 0xC0, 0x00, 0x00, 0x05],
        DriverCall.data 1 0 2 [0x00, 0xC0, 0x00, 0x00, 0x05],
        DriverCall.data 1 0 2 [0x00, 0xC0, 0x00, 0x00, 0x05]] ∧
    (transmitAPDU
      (scripted [⟨0, [0x61, 0x05]⟩, ⟨0, [0x61, 0x05]⟩, ⟨0, [0x61, 0x05]⟩, ⟨0, [0x90, 0x00]⟩])
      4 1 0x00 0xB0 0x00 0x00 0 none 0 (some 0) 32 emptyWorld).ret = Ret.value 0 := by
  decide

/-- C17: when the first attempt and the retry are both answered with a status
byte `SW1 = 0x6C`, the call makes exactly these two exchanges, returns `0`,
leaves the receive buffer as it was and does not write `*SW1SW2`. -/
theorem C17_wrong_length_twice (drv : Driver) (fuel : Nat)
    (id todad CLA INS P1 P2 : Nat) (OutLen : Int) (OutData : Option (List Nat))
    (InLen : Int) (InData : Option Nat) (InSize : Int) (w : World)
    (rc1 : Int) (resp1 : List Nat) (rc2 : Int) (resp2 : List Nat)
    (hdrv1 : drv (w.trace ++ [dataCall id todad
      (buildCommand CLA INS P1 P2 OutLen OutData InLen InData InSize)]) = ⟨rc1, resp1⟩)
    (hrc1 : 0 ≤ rc1) (hn1 : 2 ≤ resp1.length)
    (h6C1 : resp1.getD (resp1.length - 2) 0 = 0x6C)
    (hdrv2 : drv (w.trace ++ [dataCall id todad
        (buildCommand CLA INS P1 P2 OutLen OutData InLen InData InSize),
      dataCall id todad (buildCommand CLA INS P1 P2 OutLen OutData
        (resp1.getD (resp1.length - 1) 0 : Nat) InData InSize)]) = ⟨rc2, resp2⟩)
    (hrc2 : 0 ≤ rc2) (hn2 : 2 ≤ resp2.length)
    (h6C2 : resp2.getD (resp2.length - 2) 0 = 0x6C) :
    (transmitAPDUwithCTAPI drv (fuel + 1) id todad CLA INS P1 P2 OutLen OutData InLen
      InData InSize w).world.trace =
      w.trace ++ [dataCall id todad
          (buildCommand CLA INS P1 P2 OutLen OutData InLen InData InSize),
        dataCall id todad (buildCommand CLA INS P1 P2 OutLen OutData
          (resp1.getD (resp1.length - 1) 0 : Nat) InData InSize)] ∧
    (transmitAPDUwithCTAPI drv (fuel + 1) id todad CLA INS P1 P2 OutLen OutData InLen
      InData InSize w).ret = Ret.value 0 ∧
    (transmitAPDUwithCTAPI drv (fuel + 1) id todad CLA INS P1 P2 OutLen OutData InLen
      InData InSize w).world.mem = w.mem ∧
    (transmitAPDUwithCTAPI drv (fuel + 1) id todad CLA INS P1 P2 OutLen OutData InLen
      InData InSize w).world.sw = w.sw := by
  rw [transmitAPDUwithCTAPI, retryLoop_wrongLength drv _ id todad CLA INS P1 P2 OutLen OutData
    InData InSize 1 InLen w rc1 resp1 hdrv1 hrc1 hn1 h6C1,
    retryLoop_wrongLength drv _ id todad CLA INS P1 P2 OutLen OutData
    InData InSize 0 _ _ rc2 resp2 (by simpa using hdrv2) hrc2 hn2 h6C2]
  rw [retryLoop]
  exact ⟨by simp, rfl, rfl, rfl⟩

/-- C17 on two answers `6C 10` and `6C 08`, with `*SW1SW2` holding `0x1234`
before the call. -/
theorem C17_wrong_length_twice_witness :
    (transmitAPDUwithCTAPI (scripted [⟨0, [0x6C, 0x10]⟩, ⟨0, [0x6C, 0x08]⟩, ⟨0, [0x90, 0x00]⟩])
      1 1 0 0x00 0xB0 0x00 0x00 0 none 0 (some 0) 32 ⟨[], fun _ => 0, 0x1234⟩).world.trace =
      [DriverCall.data 1 0 2 [0x00, 0xB0, 0x00, 0x00, 0x00],
        DriverCall.data 1 0 2 [0x00, 0xB0, 0x00, 0x00, 0x10]] ∧
    (transmitAPDUwithCTAPI (scripted [⟨0, [0x6C, 0x10]⟩, ⟨0, [0x6C, 0x08]⟩, ⟨0, [0x90, 0x00]⟩])
      1 1 0 0x00 0xB0 0x00 0x00 0 none 0 (some 0) 32 ⟨[], fun _ => 0, 0x1234⟩).ret =
      Ret.value 0 ∧
    (transmitAPDUwithCTAPI (scripted [⟨0, [0x6C, 0x10]⟩, ⟨0, [0x6C, 0x08]⟩, ⟨0, [0x90, 0x00]⟩])
      1 1 0 0x00 0xB0 0x00 0x00 0 none 0 (some 0) 32 ⟨[], fun _ => 0, 0x1234⟩).world.sw =
      0x1234 :=
  have h := C17_wrong_length_twice
    (scripted [⟨0, [0x6C, 0x10]⟩, ⟨0, [0x6C, 0x08]⟩, ⟨0, [0x90, 0x00]⟩])
    0 1 0 0x00 0xB0 0x00 0x00 0 none 0 (some 0) 32 ⟨[], fun _ => 0, 0x1234⟩
    0 [0x6C, 0x10] 0 [0x6C, 0x08]
    (by decide) (by decide) (by decide) (by decide) (by decide) (by decide) (by decide)
    (by decide)
  ⟨h.1, h.2.1, h.2.2.2⟩

/-- C18: every slot state reached from a newly created slot by calls of
`getToken` and `updateSlots` has `CKF_TOKEN_PRESENT` set exactly when a token
is attached, and has no token when it is closed; from such a state a call of
`getToken` attaches a token only when its activation exchange returned a count
with status `0x9001`, and a pass of `updateSlots` leaves the token of the slot
as it is. -/
theorem C18_slot_invariant (s : p11Slot_t) (h : Reachable s) :
    (s.flags &&& CKF_TOKEN_PRESENT ≠ 0 ↔ s.token.isSome = true) ∧
    (s.closed = true → s.token = none) ∧
    (∀ (drv : Driver) (newToken : NewTokenFn) (fuel : Nat) (rsp0 : Nat → Nat) (sw0 : Nat)
        (trace : List DriverCall),
      s.token = none → (getToken drv newToken fuel rsp0 sw0 s trace).slot.token ≠ none →
      (requestICC drv fuel s (statusQuery drv fuel s trace rsp0 sw0)).world.sw = 0x9001 ∧
      ∃ rc2, 0 ≤ rc2 ∧
        (requestICC drv fuel s (statusQuery drv fuel s trace rsp0 sw0)).ret = Ret.value rc2) ∧
    (∀ (drv : Driver) (alloc : List DriverCall → Bool) (MAX_SLOTS fuel : Nat)
        (pool holder : PoolRef) (ps : Pools) (t : List DriverCall) (i : Nat) (s1 : p11Slot_t),
      (ps.get holder).list[i]? = some s →
      ((updateSlots drv alloc MAX_SLOTS fuel pool ps t).pools.get holder).list[i]? = some s1 →
      s1.token = s.token) := by
  obtain ⟨h1, h2⟩ := reachable_inv s h
  refine ⟨h1, h2, ?_, ?_⟩
  · intro drv newToken fuel rsp0 sw0 trace hnone hattached
    have hg : (getToken drv newToken fuel rsp0 sw0 s trace).slot =
        (checkForNewToken drv newToken fuel rsp0 sw0 s trace).slot := by
      unfold getToken
      simp only [hnone, Option.isSome_none, Bool.false_eq_true, if_false]
    rw [hg] at hattached
    rcases checkForNewToken_slot drv newToken fuel rsp0 sw0 s trace hnone with hs | hs | hs
    · rw [hs] at hattached; exact absurd hnone hattached
    · rw [hs] at hattached; exact absurd hnone hattached
    · exact hs.2.2
  · intro drv alloc MAX_SLOTS fuel pool holder ps t i s1 hin hout
    rcases updateSlots_slot drv alloc MAX_SLOTS fuel pool holder ps t i s s1 hin hout with
      hs | ⟨t1, hs⟩
    · rw [hs]
    · rw [hs]; exact (reinitSlot_token drv s t1).1

/-- C18 on the slot state reached from a new slot by one poll that finds a card
and activates it. -/
theorem C18_slot_invariant_witness :
    Reachable (getToken
      (scripted [⟨0, [0x80, 0x01, 0x01, 0x90, 0x00]⟩, ⟨0, [0x3B, 0x80, 0x90, 0x01]⟩])
      tokenSeven 1 (fun _ => 0) 0 ⟨1, false, 6, none⟩ []).slot ∧
    (getToken (scripted [⟨0, [0x80, 0x01, 0x01, 0x90, 0x00]⟩, ⟨0, [0x3B, 0x80, 0x90, 0x01]⟩])
      tokenSeven 1 (fun _ => 0) 0 ⟨1, false, 6, none⟩ []).slot = ⟨1, false, 7, some ⟨7⟩⟩ ∧
    ((getToken (scripted [⟨0, [0x80, 0x01, 0x01, 0x90, 0x00]⟩, ⟨0, [0x3B, 0x80, 0x90, 0x01]⟩])
        tokenSeven 1 (fun _ => 0) 0 ⟨1, false, 6, none⟩ []).slot.flags &&& CKF_TOKEN_PRESENT ≠ 0 ↔
      (getToken (scripted [⟨0, [0x80, 0x01, 0x01, 0x90, 0x00]⟩, ⟨0, [0x3B, 0x80, 0x90, 0x01]⟩])
        tokenSeven 1 (fun _ => 0) 0 ⟨1, false, 6, none⟩ []).slot.token.isSome = true) :=
  have hr : Reachable (getToken
      (scripted [⟨0, [0x80, 0x01, 0x01, 0x90, 0x00]⟩, ⟨0, [0x3B, 0x80, 0x90, 0x01]⟩])
      tokenSeven 1 (fun _ => 0) 0 ⟨1, false, 6, none⟩ []).slot :=
    Reachable.poll _ tokenSeven 1 (fun _ => 0) 0 [] ⟨1, false, 6, none⟩
      (Reachable.created 1 6 (by decide))
  ⟨hr, by decide, (C18_slot_invariant _ hr).1⟩

/-- C19: for `InSize >= 0` and a driver whose successful calls return `0` and
at least two bytes, a value `>= 0` returned by `transmitAPDU` is at most
`InSize`, the call stays clear of undefined behaviour, and no byte outside the
`InSize` bytes at `InData` is written, chained GET RESPONSE exchanges
included. -/
theorem C19_within_buffer (drv : Driver) (fuel : Nat)
    (id CLA INS P1 P2 : Nat) (OutLen : Int) (OutData : Option (List Nat))
    (InLen : Int) (InData : Option Nat) (InSize : Int) (w : World)
    (hdrv : ∀ h : List DriverCall, 0 ≤ (drv h).rc → (drv h).rc = 0 ∧ 2 ≤ (drv h).resp.length)
    (hsize : 0 ≤ InSize) :
    (∀ v, (transmitAPDU drv fuel id CLA INS P1 P2 OutLen OutData InLen InData InSize w).ret =
      Ret.value v → 0 ≤ v → v ≤ InSize) ∧
    (transmitAPDU drv fuel id CLA INS P1 P2 OutLen OutData InLen InData InSize w).ret ≠
      Ret.undefined ∧
    (∀ j, (∀ p, InData = some p → ¬ (p ≤ j ∧ j < p + InSize.toNat)) →
      (transmitAPDU drv fuel id CLA INS P1 P2 OutLen OutData InLen InData InSize w).world.mem j =
        w.mem j) :=
  transmit_within drv hdrv fuel id 0 CLA INS P1 P2 OutLen OutData InLen InData InSize w hsize

/-- C19 on two payload bytes with status `61 03` followed by three payload
bytes, received into a buffer of four bytes. -/
theorem C19_within_buffer_witness :
    (transmitAPDU (scripted [⟨0, [1, 2, 0x61, 0x03]⟩, ⟨0, [7, 8, 9, 0x90, 0x00]⟩]) 2 1
      0x00 0xB0 0x00 0x00 0 none 0 (some 0) 4 emptyWorld).ret = Ret.value 4 ∧
    (4 : Int) ≤ 4 ∧
    (transmitAPDU (scripted [⟨0, [1, 2, 0x61, 0x03]⟩, ⟨0, [7, 8, 9, 0x90, 0x00]⟩]) 2 1
      0x00 0xB0 0x00 0x00 0 none 0 (some 0) 4 emptyWorld).world.mem 4 = emptyWorld.mem 4 :=
  have h := C19_within_buffer
    (scripted [⟨0, [1, 2, 0x61, 0x03]⟩, ⟨0, [7, 8, 9, 0x90, 0x00]⟩]) 2 1
    0x00 0xB0 0x00 0x00 0 none 0 (some 0) 4 emptyWorld scripted_two_wellBehaved (by decide)
  ⟨by decide, h.1 4 (by decide) (by decide),
    h.2.2 4 (fun p hp => by cases hp; decide)⟩

/-- C20 at the failing input: with `InLen = 65537`, a receive buffer and no
outgoing data the incoming length field sent is `00 00 01`, not `00 00 00`;
the field `00 00 00` is sent for `InLen = 65536` and from `InLen = 65556` on. -/
theorem C20_large_length_failing_input :
    (transmitAPDUwithCTAPI (scripted [⟨0, [0x90, 0x00]⟩]) 1 1 0 0x00 0xB0 0x00 0x00
      0 none 65537 (some 0) 70000 emptyWorld).world.trace[0]? =
      some (DriverCall.data 1 0 2 [0x00, 0xB0, 0x00, 0x00, 0x00, 0x00, 0x01]) ∧
    (transmitAPDUwithCTAPI (scripted [⟨0, [0x90, 0x00]⟩]) 1 1 0 0x00 0xB0 0x00 0x00
      0 none 65537 (some 0) 70000 emptyWorld).world.trace[0]? ≠
      some (DriverCall.data 1 0 2 [0x00, 0xB0, 0x00, 0x00, 0x00, 0x00, 0x00]) ∧
    (transmitAPDUwithCTAPI (scripted [⟨0, [0x90, 0x00]⟩]) 1 1 0 0x00 0xB0 0x00 0x00
      0 none 65555 (some 0) 70000 emptyWorld).world.trace[0]? =
      some (DriverCall.data 1 0 2 [0x00, 0xB0, 0x00, 0x00, 0x00, 0x00, 0x13]) ∧
    (transmitAPDUwithCTAPI (scripted [⟨0, [0x90, 0x00]⟩]) 1 1 0 0x00 0xB0 0x00 0x00
      0 none 65536 (some 0) 70000 emptyWorld).world.trace[0]? =
      some (DriverCall.data 1 0 2 [0x00, 0xB0, 0x00, 0x00, 0x00, 0x00, 0x00]) ∧
    (transmitAPDUwithCTAPI (scripted [⟨0, [0x90, 0x00]⟩]) 1 1 0 0x00 0xB0 0x00 0x00
      0 none 65556 (some 0) 70000 emptyWorld).world.trace[0]? =
      some (DriverCall.data 1 0 2 [0x00, 0xB0, 0x00, 0x00, 0x00, 0x00, 0x00]) := by
  decide

end SlotCtapi
